import Mathlib

/-!
# TrunkLink: proximity and geofence alerting core

A shallow embedding of the alerting logic of `WebInterface/backend/server-with-proximity.js`
and `WebInterface/frontend/script.js`, and of the copies of `getLatestLocation` in
`public-alerts-script.js` and `sw.js`, with theorems about it.

JavaScript values are embedded as the data type `JsVal`.  Numbers that come out of JSON are
finite and are represented by rationals; the arithmetic of `Math.*` and of the `Number`
operators is a parameter (`FloatOps`), as are `Date` and string conversion (`Builtins`).

Conventions of the embedding:

* a property read on `undefined` or `null` raises a `TypeError` (`Except JsError`);
* a `Map` is the function from a key to the value `get` returns;
* the identity of a subscriber object is the field `ref`;
* module-level variables are threaded through as a state (`ServerState`, `DashboardState`),
  together with the history of the calls to the push service and to `sendGeofenceAlert`;
* one pass of `checkProximityAndAlert` reads `Date.now()` as one instant, and no other handler
  runs between the `await`s of a pass;
* a text is handled through its list of characters (`split`, `join`, `endsWith`, `slice`), and
  the conversions between numbers and texts are parameters;
* the timers of the backend are represented by the nominal start time of each pass
  (`passStart`), the duration of a pass being a parameter;
* two arithmetics instantiate `FloatOps`: `exactOps` (rationals, for the polygon test and for
  running the definitions) and `doubleOps` (rationals rounded to 53 bits after each operation,
  the arithmetic of doubles); the theorems about the distance hold for every arithmetic with
  the properties of doubles they name.
-/

namespace TrunkLink

/-! ## JavaScript values -/

/-- A JavaScript value as the program meets it: what `JSON.parse` or a Firebase snapshot
produces, plus `undefined` for an absent property.  A JSON array is represented by the object
whose keys are its indices; `fields` lists the own properties in enumeration order. -/
inductive JsVal where
  | undefined : JsVal
  | null : JsVal
  | bool (b : Bool) : JsVal
  | num (x : ℚ) : JsVal
  | str (s : String) : JsVal
  | obj (fields : List (String × JsVal)) : JsVal

namespace JsVal

instance : Inhabited JsVal := ⟨JsVal.undefined⟩

/-- ToBoolean: `undefined`, `null`, `false`, `0` and `""` are falsy. -/
def truthy : JsVal → Bool
  | undefined => false
  | null => false
  | bool b => b
  | num x => decide (x ≠ 0)
  | str s => decide (s ≠ "")
  | obj _ => true

/-- The test `v == null` of optional chaining: `v` is `undefined` or `null`. -/
def nullish : JsVal → Bool
  | undefined => true
  | null => true
  | _ => false

/-- The expression `a || b`. -/
def or (a b : JsVal) : JsVal := if a.truthy then a else b

/-- Reading an own property of a value that is not nullish.  None of the property names the
program reads lives on a built-in prototype, so a primitive has none of them. -/
def field (v : JsVal) (k : String) : JsVal :=
  match v with
  | obj fields => (fields.lookup k).getD undefined
  | _ => undefined

/-- The expression `v?.k`. -/
def optField (v : JsVal) (k : String) : JsVal :=
  if v.nullish then undefined else v.field k

end JsVal

/-- The exception a property read on `undefined` or `null` raises. -/
inductive JsError where
  | typeError : JsError
  deriving DecidableEq, Repr

/-- The expression `v.k`: a `TypeError` when `v` is `undefined` or `null`. -/
def getProp (v : JsVal) (k : String) : Except JsError JsVal :=
  if v.nullish then Except.error JsError.typeError else Except.ok (v.field k)

/-- The pairs of `Object.keys(v)` and `v[key]` for a value that is not nullish: the
properties of an object, the characters of a string, nothing for a number or a boolean. -/
def objectEntries : JsVal → List (String × JsVal)
  | JsVal.obj fields => fields
  | JsVal.str s => (s.toList.enum).map (fun p => (toString p.1, JsVal.str (String.singleton p.2)))
  | _ => []

/-- The array `Object.values(v)`. -/
def objectValues (v : JsVal) : List JsVal := (objectEntries v).map Prod.snd

/-- The array `Object.keys(v)`. -/
def objectKeys (v : JsVal) : List String := (objectEntries v).map Prod.fst

/-- The parts of the JavaScript runtime that the program calls and that are not its own code. -/
structure Builtins where
  /-- The number `new Date(v).getTime()`; `none` is `NaN`. -/
  dateGetTime : JsVal → Option Int
  /-- String conversion of a value that is not a string, as a template literal performs it. -/
  toStr : JsVal → String

/-! ## Location resolver (backend) -/

/-- The object `getLatestLocation` builds. -/
structure LatestLocation where
  latitude : JsVal
  longitude : JsVal
  timestamp : JsVal
  alert_type : JsVal

/-- Lines 92-96: the payload of a report, unwrapped from `uplink_message.decoded_payload`
when that is present. -/
def unwrapReport (locationData : JsVal) : Except JsError JsVal :=
  match getProp locationData "uplink_message" with
  | Except.error e => Except.error e
  | Except.ok um =>
    if um.truthy && (um.field "decoded_payload").truthy then
      Except.ok (um.field "decoded_payload")
    else
      Except.ok locationData

/-- The accumulator of the `forEach` of `getLatestLocation`. -/
structure Latest where
  latestLocation : Option LatestLocation
  latestTimestamp : Int

/-- Lines 98-113: what one report does to the accumulator, given its unwrapped payload. -/
def considerReport (rt : Builtins) (acc : Latest) (location : JsVal) : Latest :=
  let lat := (location.field "latitude").or (location.field "lat")
  let lng := (location.field "longitude").or (location.field "lng")
  let timestamp := location.field "timestamp"
  if timestamp.truthy && lat.truthy && lng.truthy then
    match rt.dateGetTime timestamp with
    | some timestampMs =>
      if timestampMs > acc.latestTimestamp then
        { latestTimestamp := timestampMs
          latestLocation := some
            { latitude := lat
              longitude := lng
              timestamp := timestamp
              alert_type := (location.field "alert_type").or (JsVal.str "routine_update") } }
      else acc
    | none => acc
  else acc

/-- The `forEach` over `Object.values(locations)`. -/
def latestLoop (rt : Builtins) : List JsVal → Latest → Except JsError Latest
  | [], acc => Except.ok acc
  | locationData :: rest, acc =>
    match unwrapReport locationData with
    | Except.error e => Except.error e
    | Except.ok location => latestLoop rt rest (considerReport rt acc location)

/-- The function `getLatestLocation` of `server-with-proximity.js` (lines 85-117); `none` is
the result `null`. -/
def getLatestLocation (rt : Builtins) (locations : JsVal) : Except JsError (Option LatestLocation) :=
  if !locations.truthy then Except.ok none
  else
    match latestLoop rt (objectValues locations) ⟨none, 0⟩ with
    | Except.error e => Except.error e
    | Except.ok acc => Except.ok acc.latestLocation

/-! ## Geo math: distance -/

/-- The arithmetic of JavaScript numbers (IEEE doubles) and of `Math`, as far as the program
uses it.  `F` is the type of numbers. -/
structure FloatOps (F : Type) where
  /-- ToNumber, applied by an arithmetic operator to its operand. -/
  toNumber : JsVal → F
  /-- The value of a numeric literal. -/
  lit : ℚ → F
  add : F → F → F
  sub : F → F → F
  mul : F → F → F
  div : F → F → F
  sin : F → F
  cos : F → F
  sqrt : F → F
  atan2 : F → F → F
  pi : F
  /-- The comparison `a <= b`. -/
  le : F → F → Bool
  /-- The comparison `a < b`. -/
  lt : F → F → Bool

/-- The function `calculateDistance` (lines 38-48): the haversine formula. -/
def calculateDistance {F : Type} (ops : FloatOps F) (lat1 lon1 lat2 lon2 : JsVal) : F :=
  let R := ops.lit 6371
  let dLat := ops.div (ops.mul (ops.sub (ops.toNumber lat2) (ops.toNumber lat1)) ops.pi) (ops.lit 180)
  let dLon := ops.div (ops.mul (ops.sub (ops.toNumber lon2) (ops.toNumber lon1)) ops.pi) (ops.lit 180)
  let a :=
    ops.add
      (ops.mul (ops.sin (ops.div dLat (ops.lit 2))) (ops.sin (ops.div dLat (ops.lit 2))))
      (ops.mul
        (ops.mul
          (ops.mul
            (ops.cos (ops.div (ops.mul (ops.toNumber lat1) ops.pi) (ops.lit 180)))
            (ops.cos (ops.div (ops.mul (ops.toNumber lat2) ops.pi) (ops.lit 180))))
          (ops.sin (ops.div dLon (ops.lit 2))))
        (ops.sin (ops.div dLon (ops.lit 2))))
  let c := ops.mul (ops.lit 2) (ops.atan2 (ops.sqrt a) (ops.sqrt (ops.sub (ops.lit 1) a)))
  ops.mul R c

/-! ## Cooldown store -/

/-- A JavaScript `Map` with string keys, as the function from a key to the value `get` returns
(`none` is `undefined`). -/
abbrev JsMap (α : Type) := String → Option α

/-- The method `Map.prototype.set`. -/
def JsMap.set {α : Type} (m : JsMap α) (key : String) (value : α) : JsMap α :=
  fun k => if k = key then some value else m k

/-- The empty map `new Map()`. -/
def JsMap.empty {α : Type} : JsMap α := fun _ => none

/-- The template literal `${userId}_${elephantId}`, the key of `alertCooldowns`. -/
def cooldownKey (rt : Builtins) (userId : JsVal) (elephantId : String) : String :=
  (match userId with
    | JsVal.str s => s
    | v => rt.toStr v) ++ "_" ++ elephantId

/-- The function `isInCooldown` (lines 51-58); `now` is the value of `Date.now()`. -/
def isInCooldown (rt : Builtins) (alertCooldowns : JsMap Int) (now : Int)
    (userId : JsVal) (elephantId : String) : Bool :=
  match alertCooldowns (cooldownKey rt userId elephantId) with
  | none => false
  | some lastAlert =>
    if lastAlert = 0 then false
    else decide (now - lastAlert < 5 * 60 * 1000)

/-- The function `setCooldown` (lines 61-64). -/
def setCooldown (rt : Builtins) (alertCooldowns : JsMap Int) (now : Int)
    (userId : JsVal) (elephantId : String) : JsMap Int :=
  alertCooldowns.set (cooldownKey rt userId elephantId) now

/-! ## Subscribers and push delivery -/

/-- An element of the array `subscribers`.  `ref` is the identity of the object, which
`indexOf` compares; every `/subscribe` creates a new object. -/
structure Subscriber where
  ref : Nat
  subscription : JsVal
  location : JsVal
  userInfo : JsVal
  subscribedAt : String

/-- How a call of `webPush.sendNotification` ends: the promise resolves, or rejects with
status code 410, or rejects with another error. -/
inductive PushOutcome where
  | delivered : PushOutcome
  | gone : PushOutcome
  | failed : PushOutcome
  deriving DecidableEq, Repr

/-- One call of `webPush.sendNotification` made by `sendPushToSubscriber`, with the data of
its payload (title and body are fixed texts around the distance) and the way it ended. -/
structure PushAttempt (F : Type) where
  subscriber : Subscriber
  elephantId : String
  distance : F
  outcome : PushOutcome

/-- The module-level state of the server, and the calls of `webPush.sendNotification` made
so far. -/
structure ServerState (F : Type) where
  subscribers : List Subscriber
  alertCooldowns : JsMap Int
  pushes : List (PushAttempt F)

/-- The function `sendPushToSubscriber` (lines 120-148).  `webPush` tells how the delivery to
a subscriber about an elephant ends. -/
def sendPushToSubscriber {F : Type} (webPush : Subscriber → String → PushOutcome)
    (st : ServerState F) (subscriber : Subscriber) (elephantId : String) (distance : F) :
    Bool × ServerState F :=
  let outcome := webPush subscriber elephantId
  let st1 : ServerState F := { st with pushes := st.pushes ++ [⟨subscriber, elephantId, distance, outcome⟩] }
  match outcome with
  | PushOutcome.delivered => (true, st1)
  | PushOutcome.gone =>
    (false, { st1 with subscribers := st1.subscribers.eraseP (fun s => s.ref == subscriber.ref) })
  | PushOutcome.failed => (false, st1)

/-! ## Proximity engine -/

/-- The expression `subscriber.userInfo?.phone || subscriber.userInfo?.email || 'unknown'`. -/
def userIdOf (subscriber : Subscriber) : JsVal :=
  ((subscriber.userInfo.optField "phone").or (subscriber.userInfo.optField "email")).or
    (JsVal.str "unknown")

/-- Lines 182-225: the body of the loop over `elephantIds`, for the elephant `elephant` stored
under `elephantId`. -/
def checkElephant {F : Type} (ops : FloatOps F) (rt : Builtins)
    (webPush : Subscriber → String → PushOutcome) (now : Int)
    (subscriber : Subscriber) (userId : JsVal) (st : ServerState F)
    (elephantId : String) (elephant : JsVal) : Except JsError (ServerState F) :=
  match getProp elephant "locations" with
  | Except.error e => Except.error e
  | Except.ok locations =>
    if !locations.truthy then Except.ok st
    else
      match getLatestLocation rt locations with
      | Except.error e => Except.error e
      | Except.ok none => Except.ok st
      | Except.ok (some latestLocation) =>
        let distance := calculateDistance ops
          (subscriber.location.field "latitude") (subscriber.location.field "longitude")
          latestLocation.latitude latestLocation.longitude
        if ops.le distance (ops.lit 5) then
          if isInCooldown rt st.alertCooldowns now userId elephantId then Except.ok st
          else
            let r := sendPushToSubscriber webPush st subscriber elephantId distance
            if r.1 then
              Except.ok { r.2 with alertCooldowns := setCooldown rt r.2.alertCooldowns now userId elephantId }
            else Except.ok r.2
        else Except.ok st

/-- How a loop ends: it runs to its end, or an exception leaves it. -/
inductive Completion where
  | normal : Completion
  | thrown : Completion
  deriving DecidableEq, Repr

/-- The loop `for (const elephantId of elephantIds)` (lines 181-226) for one subscriber. -/
def elephantLoop {F : Type} (ops : FloatOps F) (rt : Builtins)
    (webPush : Subscriber → String → PushOutcome) (now : Int)
    (subscriber : Subscriber) (userId : JsVal) :
    List (String × JsVal) → ServerState F → Completion × ServerState F
  | [], st => (Completion.normal, st)
  | (elephantId, elephant) :: rest, st =>
    match checkElephant ops rt webPush now subscriber userId st elephantId elephant with
    | Except.error _ => (Completion.thrown, st)
    | Except.ok st1 => elephantLoop ops rt webPush now subscriber userId rest st1

/-- The loop `for (const subscriber of subscribers)` (lines 173-227).  The array iterator
holds the index `i` and reads the array anew at every step, so the loop sees the removals made
by `sendPushToSubscriber`.  `fuel` bounds the number of steps. -/
def subscriberLoop {F : Type} (ops : FloatOps F) (rt : Builtins)
    (webPush : Subscriber → String → PushOutcome) (now : Int) (elephants : JsVal) :
    Nat → Nat → ServerState F → Completion × ServerState F
  | 0, _, st => (Completion.normal, st)
  | fuel + 1, i, st =>
    match st.subscribers.get? i with
    | none => (Completion.normal, st)
    | some subscriber =>
      if !subscriber.location.truthy then
        subscriberLoop ops rt webPush now elephants fuel (i + 1) st
      else
        match elephantLoop ops rt webPush now subscriber (userIdOf subscriber)
            (objectEntries elephants) st with
        | (Completion.thrown, st1) => (Completion.thrown, st1)
        | (Completion.normal, st1) =>
          subscriberLoop ops rt webPush now elephants fuel (i + 1) st1

/-- The function `checkProximityAndAlert` (lines 151-236).  `fetched` is what
`fetchElephantLocations` resolves with, `none` when it rejects; `now` is the time of the pass.
The `catch` swallows every exception, so the result is the state the pass leaves.  The array
never grows during a pass, so its initial length is fuel enough.  The counter `alertsSent` is
only logged and is left out. -/
def checkProximityAndAlert {F : Type} (ops : FloatOps F) (rt : Builtins)
    (webPush : Subscriber → String → PushOutcome) (now : Int) (fetched : Option JsVal)
    (st : ServerState F) : ServerState F :=
  if st.subscribers.length = 0 then st
  else
    match fetched with
    | none => st
    | some elephants =>
      if !elephants.truthy then st
      else (subscriberLoop ops rt webPush now elephants st.subscribers.length 0 st).2

/-! ## Geo math: point in polygon (dashboard, `script.js`) -/

/-- A position `{lat, lng}` of the dashboard. -/
structure LatLng (F : Type) where
  lat : F
  lng : F

/-- The loop of `isPointInPolygon` (lines 611-619): `vi` runs through the vertices and `vj` is
the vertex before it, the last one at the start (`j = i++`). -/
def polygonLoop {F : Type} (ops : FloatOps F) (x y : F) : List (F × F) → F × F → Bool → Bool
  | [], _, inside => inside
  | vi :: rest, vj, inside =>
    let intersect :=
      (ops.lt y vi.2 != ops.lt y vj.2) &&
        ops.lt x (ops.add (ops.div (ops.mul (ops.sub vj.1 vi.1) (ops.sub y vi.2)) (ops.sub vj.2 vi.2)) vi.1)
    polygonLoop ops x y rest vi (if intersect then !inside else inside)

/-- The function `isPointInPolygon` (lines 607-622): ray casting. -/
def isPointInPolygon {F : Type} (ops : FloatOps F) (point : LatLng F) (polygon : List (F × F)) : Bool :=
  match polygon.getLast? with
  | none => false
  | some last => polygonLoop ops point.lat point.lng polygon last false

/-! ## Geofence engine (dashboard, `script.js`) -/

/-- One call `sendGeofenceAlert(elephantId, alertType, geofenceData, elephantLocation)`. -/
structure GeofenceAlert (F : Type) where
  elephantId : String
  alertType : String
  geofenceData : JsVal
  elephantLocation : LatLng F

/-- The map `geofenceBreaches` of the dashboard and the calls of `sendGeofenceAlert` made so
far. -/
structure DashboardState (F : Type) where
  geofenceBreaches : JsMap Bool
  alerts : List (GeofenceAlert F)

/-- Lines 903-932 of `startGeofenceMonitoring`: the evaluation of one elephant that has a
geofence, parsed to `polygon`, and a latest location.  Evaluations are processed one after the
other: an `await sendGeofenceAlert` has completed before the next evaluation starts. -/
def geofenceCheck {F : Type} (ops : FloatOps F) (st : DashboardState F) (elephantKey : String)
    (geofence : JsVal) (latestLocation : LatLng F) (polygon : List (F × F)) : DashboardState F :=
  let isInside := isPointInPolygon ops latestLocation polygon
  let breachKey := elephantKey ++ "_breach"
  let previousState := st.geofenceBreaches breachKey
  if previousState = some true && !isInside then
    { alerts := st.alerts ++ [⟨elephantKey, "breach", geofence, latestLocation⟩]
      geofenceBreaches := st.geofenceBreaches.set breachKey false }
  else if previousState = some false && isInside then
    { alerts := st.alerts ++ [⟨elephantKey, "return", geofence, latestLocation⟩]
      geofenceBreaches := st.geofenceBreaches.set breachKey true }
  else if previousState = none then
    let st1 : DashboardState F := { st with geofenceBreaches := st.geofenceBreaches.set breachKey isInside }
    if !isInside then
      { st1 with alerts := st1.alerts ++ [⟨elephantKey, "breach", geofence, latestLocation⟩] }
    else st1
  else st

/-- A sequence of evaluations of one elephant, processed one after the other; each observation
is a latest location and the polygon of the geofence at that time. -/
def geofenceRun {F : Type} (ops : FloatOps F) (elephantKey : String) (geofence : JsVal) :
    DashboardState F → List (LatLng F × List (F × F)) → DashboardState F
  | st, [] => st
  | st, obs :: rest =>
    geofenceRun ops elephantKey geofence (geofenceCheck ops st elephantKey geofence obs.1 obs.2) rest

/-! ## Location resolver (dashboard, `script.js`) -/

/-- The double-quote character. -/
def quoteChar : Char := Char.ofNat 34

/-- The call `lat.replace(/"/g, '')`: the string without its double-quote characters. -/
def stripQuotes (s : String) : String := String.mk (s.data.filter (fun c => c != quoteChar))

/-- The expression `parseFloat(typeof lat === 'string' ? lat.replace(/"/g, '') : lat)`.  The
built-in `parseFloat` is a parameter: it converts its argument to a string and reads the number
at the start of it. -/
def parseCoordinate {F : Type} (parseFloat : JsVal → F) (v : JsVal) : F :=
  match v with
  | JsVal.str s => parseFloat (JsVal.str (stripQuotes s))
  | w => parseFloat w

namespace Dashboard

/-- The object the dashboard `getLatestLocation` builds: its coordinates are numbers. -/
structure LatestLocation (F : Type) where
  latitude : F
  longitude : F
  timestamp : JsVal
  alert_type : JsVal

/-- The accumulator of the `forEach` of the dashboard `getLatestLocation`. -/
structure Latest (F : Type) where
  latestLocation : Option (LatestLocation F)
  latestTimestamp : Int

/-- Lines 364-380 of `script.js`: what one report does to the accumulator, given its unwrapped
payload. -/
def considerReport {F : Type} (rt : Builtins) (parseFloat : JsVal → F) (acc : Latest F)
    (location : JsVal) : Latest F :=
  let lat := (location.field "latitude").or (location.field "lat")
  let lng := (location.field "longitude").or (location.field "lng")
  let timestamp := location.field "timestamp"
  let alertType := (location.field "alert_type").or (JsVal.str "routine_update")
  if timestamp.truthy && lat.truthy && lng.truthy then
    match rt.dateGetTime timestamp with
    | some ts =>
      if ts > acc.latestTimestamp then
        { latestTimestamp := ts
          latestLocation := some
            { latitude := parseCoordinate parseFloat lat
              longitude := parseCoordinate parseFloat lng
              timestamp := timestamp
              alert_type := alertType } }
      else acc
    | none => acc
  else acc

/-- The `forEach` over `Object.values(locations)`; the unwrapping of the envelope (lines
357-361) is the same code as in the backend. -/
def latestLoop {F : Type} (rt : Builtins) (parseFloat : JsVal → F) :
    List JsVal → Latest F → Except JsError (Latest F)
  | [], acc => Except.ok acc
  | locationData :: rest, acc =>
    match unwrapReport locationData with
    | Except.error e => Except.error e
    | Except.ok location => latestLoop rt parseFloat rest (considerReport rt parseFloat acc location)

/-- The function `getLatestLocation` of `script.js` (lines 349-384); `none` is the result
`null`. -/
def getLatestLocation {F : Type} (rt : Builtins) (parseFloat : JsVal → F) (locations : JsVal) :
    Except JsError (Option (LatestLocation F)) :=
  if !locations.truthy then Except.ok none
  else
    match latestLoop rt parseFloat (objectValues locations) ⟨none, 0⟩ with
    | Except.error e => Except.error e
    | Except.ok acc => Except.ok acc.latestLocation

end Dashboard

/-! ## Geofence coordinates as text (dashboard, `script.js`) -/

/-- The separator of the vertices in `geofence.coordinates`, the character `|`. -/
def pipeChar : Char := Char.ofNat 124

/-- The separator of latitude and longitude in a vertex, the comma. -/
def commaChar : Char := Char.ofNat 44

/-- The pieces `s.split(sep)` cuts a text into, on the characters of `s`, for a separator of
one character: the text without separator is its only piece, also when it is empty. -/
def splitChars (sep : Char) : List Char → List (List Char)
  | [] => [[]]
  | c :: rest =>
    if c = sep then [] :: splitChars sep rest
    else
      match splitChars sep rest with
      | [] => [[c]]
      | piece :: pieces => (c :: piece) :: pieces

/-- The text `pieces.join(sep)` on characters. -/
def joinChars (sep : Char) : List (List Char) → List Char
  | [] => []
  | [piece] => piece
  | piece :: next :: pieces => piece ++ sep :: joinChars sep (next :: pieces)

/-- The call `s.split(sep)` for a separator of one character. -/
def jsSplit (sep : Char) (s : String) : List String := (splitChars sep s.data).map String.mk

/-- The call `pieces.join(sep)` for a separator of one character. -/
def jsJoin (sep : Char) (pieces : List String) : String :=
  String.mk (joinChars sep (pieces.map String.data))

/-- The call `s.endsWith(c)` for a text `c` of one character. -/
def jsEndsWith (s : String) (c : Char) : Bool :=
  match s.data.getLast? with
  | some d => d == c
  | none => false

/-- The call `s.slice(0, -1)`: the text without its last character. -/
def jsSliceInit (s : String) : String := String.mk s.data.dropLast

/-- An element of the array a destructuring `const [lat, lng] = parts` reads: `undefined` when
the array is too short. -/
def arrayItem (parts : List String) (i : Nat) : JsVal :=
  match parts.get? i with
  | some s => JsVal.str s
  | none => JsVal.undefined

/-- Line 208 of `saveGeofence`: the text stored as `geofence.coordinates`, for the vertices
`layer.getLatLngs()[0]` of the drawn polygon.  `numToStr` is the conversion of a number to text
that the template literal performs. -/
def saveGeofenceCoordinates {F : Type} (numToStr : F → String) (latlngs : List (LatLng F)) : String :=
  jsJoin pipeChar (latlngs.map (fun latlng =>
    numToStr latlng.lat ++ String.singleton commaChar ++ numToStr latlng.lng)) ++
    String.singleton pipeChar

/-- Lines 892-901 of `startGeofenceMonitoring`: the polygon read from the stored text. -/
def parseGeofenceCoords {F : Type} (parseFloat : JsVal → F) (coordinates : String) : List (F × F) :=
  let geofenceCoords := if jsEndsWith coordinates pipeChar then jsSliceInit coordinates else coordinates
  (jsSplit pipeChar geofenceCoords).map (fun pair =>
    let parts := jsSplit commaChar pair
    (parseFloat (arrayItem parts 0), parseFloat (arrayItem parts 1)))

/-- Lines 250-257 of `loadGeofence`: the same parsing, written out a second time in the
source. -/
def loadGeofenceCoordinates {F : Type} (parseFloat : JsVal → F) (coordinates : String) : List (F × F) :=
  let savedGeofence := if jsEndsWith coordinates pipeChar then jsSliceInit coordinates else coordinates
  (jsSplit pipeChar savedGeofence).map (fun pair =>
    let parts := jsSplit commaChar pair
    (parseFloat (arrayItem parts 0), parseFloat (arrayItem parts 1)))

/-! ## Geofence monitoring of one update (dashboard, `script.js`) -/

/-- The accumulator of the `forEach` of `getLatestLocationFromArray`. -/
structure LatestFromArray (F : Type) where
  latestLocation : Option (LatLng F)
  latestTimestamp : Int

/-- Lines 996-1008 of `script.js`: what one report does to the accumulator of
`getLatestLocationFromArray`, given its unwrapped payload. -/
def considerReportFromArray {F : Type} (rt : Builtins) (parseFloat : JsVal → F)
    (acc : LatestFromArray F) (location : JsVal) : LatestFromArray F :=
  let lat := (location.field "latitude").or (location.field "lat")
  let lng := (location.field "longitude").or (location.field "lng")
  let timestamp := location.field "timestamp"
  if timestamp.truthy && lat.truthy && lng.truthy then
    match rt.dateGetTime timestamp with
    | some ts =>
      if ts > acc.latestTimestamp then
        { latestTimestamp := ts
          latestLocation := some
            { lat := parseCoordinate parseFloat lat
              lng := parseCoordinate parseFloat lng } }
      else acc
    | none => acc
  else acc

/-- The `forEach` of `getLatestLocationFromArray`; the unwrapping of the envelope (lines
988-993) is the same code as in the backend. -/
def latestFromArrayLoop {F : Type} (rt : Builtins) (parseFloat : JsVal → F) :
    List JsVal → LatestFromArray F → Except JsError (LatestFromArray F)
  | [], acc => Except.ok acc
  | locationData :: rest, acc =>
    match unwrapReport locationData with
    | Except.error e => Except.error e
    | Except.ok location =>
      latestFromArrayLoop rt parseFloat rest (considerReportFromArray rt parseFloat acc location)

/-- The function `getLatestLocationFromArray` of `script.js` (lines 981-1012); `none` is the
result `null`. -/
def getLatestLocationFromArray {F : Type} (rt : Builtins) (parseFloat : JsVal → F)
    (locations : JsVal) : Except JsError (Option (LatLng F)) :=
  if !locations.truthy then Except.ok none
  else
    match latestFromArrayLoop rt parseFloat (objectValues locations) ⟨none, 0⟩ with
    | Except.error e => Except.error e
    | Except.ok acc => Except.ok acc.latestLocation

/-- Lines 877-886 of `startGeofenceMonitoring`: the value of `latestLocation` for an elephant
that is not nullish. -/
def monitoredLocation {F : Type} (rt : Builtins) (parseFloat : JsVal → F) (elephant : JsVal) :
    Except JsError (Option (LatLng F)) :=
  if (elephant.field "locations").truthy then
    getLatestLocationFromArray rt parseFloat (elephant.field "locations")
  else if (elephant.field "livelocation").truthy then
    Except.ok (some
      { lat := parseFloat ((elephant.field "livelocation").field "lat")
        lng := parseFloat ((elephant.field "livelocation").field "lng") })
  else Except.ok none

/-- Lines 870-933 of `startGeofenceMonitoring`: the callback of the `forEach` for the elephant
`elephant` stored under `elephantKey`.  An error is the exception that ends the callback; a
truthy `coordinates` that is not a text has no method `endsWith`. -/
def geofenceMonitorElephant {F : Type} (ops : FloatOps F) (rt : Builtins)
    (parseFloat : JsVal → F) (st : DashboardState F) (elephantKey : String) (elephant : JsVal) :
    Except JsError (DashboardState F) :=
  match getProp elephant "geofence" with
  | Except.error e => Except.error e
  | Except.ok geofence =>
    if !geofence.truthy || !(geofence.field "coordinates").truthy then Except.ok st
    else
      match monitoredLocation rt parseFloat elephant with
      | Except.error e => Except.error e
      | Except.ok none => Except.ok st
      | Except.ok (some latestLocation) =>
        match geofence.field "coordinates" with
        | JsVal.str geofenceCoords =>
          Except.ok (geofenceCheck ops st elephantKey geofence latestLocation
            (parseGeofenceCoords parseFloat geofenceCoords))
        | _ => Except.error JsError.typeError

/-- The `forEach` over `Object.keys(elephants)` of `startGeofenceMonitoring`.  The callback is
an `async` function: an exception in it rejects its promise and the loop goes on with the next
elephant.  The callbacks are taken one after the other. -/
def geofenceMonitorLoop {F : Type} (ops : FloatOps F) (rt : Builtins) (parseFloat : JsVal → F) :
    List (String × JsVal) → DashboardState F → DashboardState F
  | [], st => st
  | (elephantKey, elephant) :: rest, st =>
    match geofenceMonitorElephant ops rt parseFloat st elephantKey elephant with
    | Except.error _ => geofenceMonitorLoop ops rt parseFloat rest st
    | Except.ok st1 => geofenceMonitorLoop ops rt parseFloat rest st1

/-- The listener `startGeofenceMonitoring` installs (lines 866-934), run on the value
`elephants` of one update. -/
def startGeofenceMonitoring {F : Type} (ops : FloatOps F) (rt : Builtins)
    (parseFloat : JsVal → F) (elephants : JsVal) (st : DashboardState F) : DashboardState F :=
  if !elephants.truthy then st
  else geofenceMonitorLoop ops rt parseFloat (objectEntries elephants) st

/-! ## Running detection (dashboard, `script.js`) -/

/-- One call `showRunningAlert(elephantKey, {lat, lng}, timestamp)`. -/
structure RunningAlert (F : Type) where
  elephantId : String
  location : LatLng F
  timestamp : JsVal

/-- The state of the dashboard page the two monitors work on: the geofence state, the map
`lastRunningAlert` of `startRunningDetectionMonitoring`, and the calls of `showRunningAlert`
made so far. -/
structure PageState (F : Type) where
  geofence : DashboardState F
  lastRunningAlert : JsMap Int
  runningAlerts : List (RunningAlert F)

/-- Lines 950-954 of `startRunningDetectionMonitoring`: the value of `latestLocation`. -/
def runningLatestLocation {F : Type} (rt : Builtins) (parseFloat : JsVal → F) (elephant : JsVal) :
    Except JsError (Option (Dashboard.LatestLocation F)) :=
  match getProp elephant "locations" with
  | Except.error e => Except.error e
  | Except.ok locations =>
    if locations.truthy then Dashboard.getLatestLocation rt parseFloat locations
    else Except.ok none

/-- The test `alert_type === 'running_detected'`. -/
def isRunningDetected : JsVal → Bool
  | JsVal.str s => s == "running_detected"
  | _ => false

/-- Lines 948-975 of `startRunningDetectionMonitoring`: the callback of the `forEach` for the
elephant `elephant` stored under `elephantKey`; `now` is what `Date.now()` returns. -/
def runningCheck {F : Type} (rt : Builtins) (parseFloat : JsVal → F) (now : Int)
    (st : PageState F) (elephantKey : String) (elephant : JsVal) : Except JsError (PageState F) :=
  match runningLatestLocation rt parseFloat elephant with
  | Except.error e => Except.error e
  | Except.ok none => Except.ok st
  | Except.ok (some latestLocation) =>
    if !latestLocation.alert_type.truthy then Except.ok st
    else if isRunningDetected latestLocation.alert_type then
      let lastAlert := st.lastRunningAlert elephantKey
      let fiveMinutes : Int := 5 * 60 * 1000
      let absent := match lastAlert with
        | none => true
        | some t => t == 0
      let elapsed := match lastAlert with
        | none => false
        | some t => decide (now - t > fiveMinutes)
      if absent || elapsed then
        Except.ok
          { st with
            runningAlerts := st.runningAlerts ++
              [⟨elephantKey, ⟨latestLocation.latitude, latestLocation.longitude⟩,
                latestLocation.timestamp⟩]
            lastRunningAlert := st.lastRunningAlert.set elephantKey now }
      else Except.ok st
    else Except.ok st

/-- The `forEach` over `Object.keys(elephants)` of `startRunningDetectionMonitoring` (lines
947-976).  The callback is an ordinary function, so an exception in it leaves the `forEach`:
the elephants after it are not looked at, and what the callbacks before it did stays.  The loop
waits for nothing, and `Date.now()` is read as the one instant `now` during it. -/
def runningLoop {F : Type} (rt : Builtins) (parseFloat : JsVal → F) (now : Int) :
    List (String × JsVal) → PageState F → Completion × PageState F
  | [], st => (Completion.normal, st)
  | (elephantKey, elephant) :: rest, st =>
    match runningCheck rt parseFloat now st elephantKey elephant with
    | Except.error _ => (Completion.thrown, st)
    | Except.ok st1 => runningLoop rt parseFloat now rest st1

/-- The listener `startRunningDetectionMonitoring` installs (lines 943-977), run on the value
`elephants` of one update; the result is the state the listener leaves, also when an exception
ends it. -/
def startRunningDetectionMonitoring {F : Type} (rt : Builtins) (parseFloat : JsVal → F)
    (now : Int) (elephants : JsVal) (st : PageState F) : PageState F :=
  if !elephants.truthy then st
  else (runningLoop rt parseFloat now (objectEntries elephants) st).2

/-! ## HTTP routes of the backend (`server-with-proximity.js`) -/

/-- The answer of a route: status code and JSON body. -/
structure Response where
  status : Nat
  body : JsVal

/-- The comparison `a === b` of two values that come from different JSON texts: primitives are
compared by value, and an object is never the same object as one of another text. -/
def strictEq : JsVal → JsVal → Bool
  | JsVal.undefined, JsVal.undefined => true
  | JsVal.null, JsVal.null => true
  | JsVal.bool a, JsVal.bool b => a == b
  | JsVal.num x, JsVal.num y => decide (x = y)
  | JsVal.str s, JsVal.str t => s == t
  | _, _ => false

/-- The route `POST /subscribe` (lines 247-275), for the object `body` that `express.json()`
made of the request.  `ref` is the identity of the object the route creates and `subscribedAt`
the text `new Date().toISOString()`. -/
def subscribe {F : Type} (ref : Nat) (subscribedAt : String) (body : JsVal) (st : ServerState F) :
    Response × ServerState F :=
  let subscription := body.field "subscription"
  let location := body.field "location"
  let userInfo := body.field "userInfo"
  if !subscription.truthy then
    (⟨400, JsVal.obj [("error", JsVal.str "Subscription object is required")]⟩, st)
  else
    let subscriber : Subscriber :=
      { ref := ref
        subscription := subscription
        location := location.or JsVal.null
        userInfo := userInfo.or (JsVal.obj [])
        subscribedAt := subscribedAt }
    let st1 : ServerState F := { st with subscribers := st.subscribers ++ [subscriber] }
    (⟨201, JsVal.obj [("success", JsVal.bool true), ("message", JsVal.str "Subscribed successfully"),
        ("subscriberCount", JsVal.num st1.subscribers.length)]⟩, st1)

/-- The call `subscribers.find(s => s.subscription.endpoint === subscriptionEndpoint)` of line
319, as the index of the element found, counted from `i`. -/
def findSubscriber (subscriptionEndpoint : JsVal) : List Subscriber → Nat → Except JsError (Option Nat)
  | [], _ => Except.ok none
  | s :: rest, i =>
    match getProp s.subscription "endpoint" with
    | Except.error e => Except.error e
    | Except.ok endpoint =>
      if strictEq endpoint subscriptionEndpoint then Except.ok (some i)
      else findSubscriber subscriptionEndpoint rest (i + 1)

/-- The assignment `subscriber.location = location` of line 322 to the element at index `i`.
Every element of the array is an object of its own, so no other element changes. -/
def assignLocation (location : JsVal) : List Subscriber → Nat → List Subscriber
  | [], _ => []
  | s :: rest, 0 => { s with location := location } :: rest
  | s :: rest, i + 1 => s :: assignLocation location rest i

/-- The route `POST /update-location` (lines 312-329).  An exception in the handler is
answered by the framework with status 500. -/
def updateLocation {F : Type} (body : JsVal) (st : ServerState F) : Response × ServerState F :=
  let subscriptionEndpoint := body.field "subscriptionEndpoint"
  let location := body.field "location"
  if !subscriptionEndpoint.truthy || !location.truthy then
    (⟨400, JsVal.obj [("error", JsVal.str "subscriptionEndpoint and location are required")]⟩, st)
  else
    match findSubscriber subscriptionEndpoint st.subscribers 0 with
    | Except.error _ => (⟨500, JsVal.undefined⟩, st)
    | Except.ok (some i) =>
      (⟨200, JsVal.obj [("success", JsVal.bool true), ("message", JsVal.str "Location updated")]⟩,
        { st with subscribers := assignLocation location st.subscribers i })
    | Except.ok none => (⟨404, JsVal.obj [("error", JsVal.str "Subscriber not found")]⟩, st)

/-- What one request to `POST /notify` does: its answer, and the calls of
`webPush.sendNotification` it makes with the way each ended. -/
structure NotifyResult where
  response : Response
  attempts : List (Subscriber × PushOutcome)

/-- The route `POST /notify` (lines 277-310).  `jsonStringify` is `JSON.stringify` and
`webPush` tells how the delivery of a payload to a subscriber ends; a rejected delivery is
turned into `null` by its `catch`, and the answer is sent when all deliveries have ended.  The
route changes neither the subscribers nor the cooldowns. -/
def notify {F : Type} (jsonStringify : JsVal → String) (webPush : Subscriber → String → PushOutcome)
    (body : JsVal) (st : ServerState F) : NotifyResult :=
  let title := body.field "title"
  let text := body.field "body"
  if !title.truthy || !text.truthy then
    ⟨⟨400, JsVal.obj [("error", JsVal.str "Title and body are required")]⟩, []⟩
  else
    let notificationPayload := jsonStringify (JsVal.obj [("title", title), ("body", text)])
    let results := st.subscribers.map (fun subscriber => (subscriber, webPush subscriber notificationPayload))
    let successCount := (results.filter (fun r => r.2 == PushOutcome.delivered)).length
    ⟨⟨200, JsVal.obj [("message", JsVal.str "Notifications sent"),
        ("total", JsVal.num st.subscribers.length), ("successful", JsVal.num successCount)]⟩, results⟩

/-! ## Timers of the backend (`server-with-proximity.js`) -/

/-- The constant `MONITORING_INTERVAL`, in milliseconds. -/
def MONITORING_INTERVAL : Nat := 10000

/-- Lines 341-353: the time, in milliseconds after the timers are set, at which the pass
number `k` is started.  `setTimeout` starts the first one after 5000 ms and `setInterval` starts
one at every multiple of `MONITORING_INTERVAL`.  Each callback calls `checkProximityAndAlert()`
without waiting for its promise, and nothing records that a pass is running. -/
def passStart : Nat → Nat
  | 0 => 5000
  | k + 1 => MONITORING_INTERVAL * (k + 1)

/-! ## Location resolver (public alerts page, `public-alerts-script.js`) -/

namespace PublicAlerts

/-- Lines 629-645 of `public-alerts-script.js`: what one report does to the accumulator, given
its unwrapped payload. -/
def considerReport (rt : Builtins) (acc : Latest) (location : JsVal) : Latest :=
  let lat := (location.field "latitude").or (location.field "lat")
  let lng := (location.field "longitude").or (location.field "lng")
  let timestamp := location.field "timestamp"
  if timestamp.truthy && lat.truthy && lng.truthy then
    match rt.dateGetTime timestamp with
    | some timestampMs =>
      if timestampMs > acc.latestTimestamp then
        { latestTimestamp := timestampMs
          latestLocation := some
            { latitude := lat
              longitude := lng
              timestamp := timestamp
              alert_type := (location.field "alert_type").or (JsVal.str "routine_update") } }
      else acc
    | none => acc
  else acc

/-- Lines 623-627 of `public-alerts-script.js`: the payload of a report. -/
def unwrapReport (locationData : JsVal) : Except JsError JsVal :=
  match getProp locationData "uplink_message" with
  | Except.error e => Except.error e
  | Except.ok um =>
    if um.truthy && (um.field "decoded_payload").truthy then
      Except.ok (um.field "decoded_payload")
    else
      Except.ok locationData

/-- The `forEach` over `Object.values(locations)`. -/
def latestLoop (rt : Builtins) : List JsVal → Latest → Except JsError Latest
  | [], acc => Except.ok acc
  | locationData :: rest, acc =>
    match unwrapReport locationData with
    | Except.error e => Except.error e
    | Except.ok location => latestLoop rt rest (considerReport rt acc location)

/-- The function `getLatestLocation` of `public-alerts-script.js` (lines 615-648). -/
def getLatestLocation (rt : Builtins) (locations : JsVal) : Except JsError (Option LatestLocation) :=
  if !locations.truthy then Except.ok none
  else
    match latestLoop rt (objectValues locations) ⟨none, 0⟩ with
    | Except.error e => Except.error e
    | Except.ok acc => Except.ok acc.latestLocation

end PublicAlerts

/-! ## Location resolver (service worker, `sw.js`) -/

namespace ServiceWorker

/-- The accumulator of the `forEach` of the service worker: `latestLocation` is a report of the
collection itself. -/
structure Latest where
  latestLocation : Option JsVal
  latestTimestamp : Int

/-- Lines 248-256 of `sw.js`: what one report does to the accumulator.  The report is read as
it is stored: nothing is unwrapped and only the names `latitude` and `longitude` are read. -/
def considerReport (rt : Builtins) (acc : Latest) (location : JsVal) : Except JsError Latest :=
  match getProp location "timestamp" with
  | Except.error e => Except.error e
  | Except.ok timestampField =>
    if timestampField.truthy && (location.field "latitude").truthy &&
        (location.field "longitude").truthy then
      match rt.dateGetTime timestampField with
      | some timestamp =>
        if timestamp > acc.latestTimestamp then
          Except.ok { latestTimestamp := timestamp, latestLocation := some location }
        else Except.ok acc
      | none => Except.ok acc
    else Except.ok acc

/-- The `forEach` over `Object.values(locations)`. -/
def latestLoop (rt : Builtins) : List JsVal → Latest → Except JsError Latest
  | [], acc => Except.ok acc
  | location :: rest, acc =>
    match considerReport rt acc location with
    | Except.error e => Except.error e
    | Except.ok acc1 => latestLoop rt rest acc1

/-- The function `getLatestLocation` of `sw.js` (lines 241-259); `none` is the result `null`. -/
def getLatestLocation (rt : Builtins) (locations : JsVal) : Except JsError (Option JsVal) :=
  if !locations.truthy then Except.ok none
  else
    match latestLoop rt (objectValues locations) ⟨none, 0⟩ with
    | Except.error e => Except.error e
    | Except.ok acc => Except.ok acc.latestLocation

end ServiceWorker

/-! ## A concrete runtime

Exact arithmetic on rationals with `none` for `NaN`, used to run the definitions on concrete
inputs. -/

/-- Exact rational arithmetic, `none` being `NaN`.  The functions of `Math` are replaced by
their first-order approximations at 0 (`sqrt` by the identity, exact at 0 and 1), so that
`calculateDistance` is computed exactly when the two points are equal.  `toNumber` is exact on
numbers, booleans and `null`. -/
def exactOps : FloatOps (Option ℚ) where
  toNumber := fun v =>
    match v with
    | JsVal.num x => some x
    | JsVal.bool b => some (if b then 1 else 0)
    | JsVal.null => some 0
    | _ => none
  lit := fun q => some q
  add := fun a b => a.bind (fun x => b.map (fun y => x + y))
  sub := fun a b => a.bind (fun x => b.map (fun y => x - y))
  mul := fun a b => a.bind (fun x => b.map (fun y => x * y))
  div := fun a b => a.bind (fun x => b.bind (fun y => if y = 0 then none else some (x / y)))
  sin := fun a => a
  cos := fun a => a.map (fun _ => 1)
  sqrt := fun a => a
  atan2 := fun a b => a.bind (fun y => b.bind (fun x => if x = 0 then none else some (y / x)))
  pi := some (355 / 113)
  le := fun a b =>
    match a, b with
    | some x, some y => decide (x ≤ y)
    | _, _ => false
  lt := fun a b =>
    match a, b with
    | some x, some y => decide (x < y)
    | _, _ => false

/-- Doubling `m` while it is below 2^52, counting the exponent down. -/
def scaleUp : Nat → ℚ → Int → ℚ × Int
  | 0, m, e => (m, e)
  | fuel + 1, m, e => if m < 4503599627370496 then scaleUp fuel (m * 2) (e - 1) else (m, e)

/-- Halving `m` while it is at least 2^53, counting the exponent up. -/
def scaleDown : Nat → ℚ → Int → ℚ × Int
  | 0, m, e => (m, e)
  | fuel + 1, m, e => if 9007199254740992 ≤ m then scaleDown fuel (m / 2) (e + 1) else (m, e)

/-- The integer nearest to `m`, the even one of the two when `m` is half-way. -/
def roundHalfEven (m : ℚ) : Int :=
  let f := m.num / (m.den : Int)
  let r := m - f
  if r < 1 / 2 then f
  else if 1 / 2 < r then f + 1
  else if f % 2 = 0 then f else f + 1

/-- The power `2 ^ n`. -/
def twoPow : Nat → ℚ
  | 0 => 1
  | n + 1 => 2 * twoPow n

/-- The power `2 ^ e` for an integer `e`. -/
def twoPowInt : Int → ℚ
  | Int.ofNat n => twoPow n
  | Int.negSucc n => 1 / twoPow (n + 1)

/-- The number with a 53-bit significand nearest to `q`, ties to even: the rounding of IEEE 754
binary64 for results in the normal range. -/
def roundDouble (q : ℚ) : ℚ :=
  if q = 0 then 0
  else
    let a := if q < 0 then -q else q
    let up := scaleUp 1100 a 0
    let p := scaleDown 1100 up.1 up.2
    let r := (roundHalfEven p.1 : ℚ) * twoPowInt p.2
    if q < 0 then -r else r

/-- The arithmetic of JavaScript numbers on finite values of the normal range: each of `+`,
`-`, `*`, `/` gives the exact result rounded by `roundDouble`, comparisons are exact.  `none`
stands for a result that is not finite; the functions of `Math` are those of `exactOps`. -/
def doubleOps : FloatOps (Option ℚ) :=
  { exactOps with
    add := fun a b => a.bind (fun x => b.map (fun y => roundDouble (x + y)))
    sub := fun a b => a.bind (fun x => b.map (fun y => roundDouble (x - y)))
    mul := fun a b => a.bind (fun x => b.map (fun y => roundDouble (x * y)))
    div := fun a b =>
      a.bind (fun x => b.bind (fun y => if y = 0 then none else some (roundDouble (x / y)))) }

/-- A runtime whose `Date` reads a number as milliseconds and knows the two instants of the
resolver example; values other than strings convert to `"[object Object]"`. -/
def exampleRuntime : Builtins where
  dateGetTime := fun v =>
    match v with
    | JsVal.num x => some (Int.floor x)
    | JsVal.str s =>
      if s = "2024-01-01T00:00:00Z" then some 1704067200000
      else if s = "2024-01-02T00:00:00Z" then some 1704153600000
      else none
    | _ => none
  toStr := fun _ => "[object Object]"

/-! ## Concrete inputs -/

/-- A report at latitude 10.5, longitude 76.25. -/
def sampleReport : JsVal :=
  JsVal.obj [("latitude", JsVal.num (21 / 2)), ("longitude", JsVal.num (305 / 4)),
    ("timestamp", JsVal.str "2024-01-01T00:00:00Z")]

/-- The data of `/elephants.json` with one elephant that has the one report `sampleReport`. -/
def sampleElephants : JsVal :=
  JsVal.obj [("elephant1", JsVal.obj [("locations", JsVal.obj [("r1", sampleReport)])])]

/-- A subscriber at the place of `sampleReport` who gave a phone number. -/
def sampleSubscriber : Subscriber where
  ref := 0
  subscription := JsVal.obj [("endpoint", JsVal.str "https://push.example/0")]
  location := JsVal.obj [("latitude", JsVal.num (21 / 2)), ("longitude", JsVal.num (305 / 4))]
  userInfo := JsVal.obj [("name", JsVal.str "A"), ("phone", JsVal.str "9876543210"),
    ("email", JsVal.null)]
  subscribedAt := "2024-01-01T00:00:00.000Z"

/-- Every delivery succeeds. -/
def allDelivered : Subscriber → String → PushOutcome := fun _ _ => PushOutcome.delivered

/-- A report on the equator: latitude 0, with the given longitude and timestamp. -/
def equatorReport (lng timestamp : JsVal) : JsVal :=
  JsVal.obj [("latitude", JsVal.num 0), ("longitude", lng), ("timestamp", timestamp)]

/-- The report `equatorReport` with its coordinates under `lat` and `lng`. -/
def equatorReportShort (lng timestamp : JsVal) : JsVal :=
  JsVal.obj [("lat", JsVal.num 0), ("lng", lng), ("timestamp", timestamp)]

/-- The data of `/elephants.json` with one elephant that has the one report `report`. -/
def oneElephant (report : JsVal) : JsVal :=
  JsVal.obj [("elephant1", JsVal.obj [("locations", JsVal.obj [("r1", report)])])]

/-- A subscriber at the place of `sampleReport` who gave no contact data: `/subscribe` stores
`{}` as `userInfo`. -/
def anonymousSubscriber (ref : Nat) : Subscriber where
  ref := ref
  subscription := JsVal.obj [("endpoint", JsVal.str ("https://push.example/" ++ toString ref))]
  location := JsVal.obj [("latitude", JsVal.num (21 / 2)), ("longitude", JsVal.num (305 / 4))]
  userInfo := JsVal.obj []
  subscribedAt := "2024-01-01T00:00:00.000Z"

/-- The delivery to the subscriber with identity 1 fails with status code 410, every other
delivery succeeds. -/
def firstGone : Subscriber → String → PushOutcome :=
  fun s _ => if s.ref = 1 then PushOutcome.gone else PushOutcome.delivered

/-- The unit square `[(0,0),(0,1),(1,1),(1,0)]`. -/
def unitSquare : List (Option ℚ × Option ℚ) :=
  [(some 0, some 0), (some 0, some 1), (some 1, some 1), (some 1, some 0)]

/-- The point (2, 2), outside the unit square. -/
def pointOutside : LatLng (Option ℚ) := ⟨some 2, some 2⟩

/-- The point (0.5, 0.5), inside the unit square. -/
def pointInside : LatLng (Option ℚ) := ⟨some (1 / 2), some (1 / 2)⟩

/-- A geofence record as the dashboard stores it. -/
def sampleGeofence : JsVal :=
  JsVal.obj [("coordinates", JsVal.str "0,0|0,1|1,1|1,0|"), ("created_by", JsVal.str "ranger1")]

/-- The observations outside, outside, inside of the unit square. -/
def sampleObservations : List (LatLng (Option ℚ) × List (Option ℚ × Option ℚ)) :=
  [(pointOutside, unitSquare), (pointOutside, unitSquare), (pointInside, unitSquare)]

/-- The report collection of the resolver example: `r1` = (1, 1) at 2024-01-01 and `r2` =
(2, 2) at 2024-01-02. -/
def resolverExample : JsVal :=
  JsVal.obj
    [("r1", JsVal.obj [("lat", JsVal.num 1), ("lng", JsVal.num 1),
        ("timestamp", JsVal.str "2024-01-01T00:00:00Z")]),
      ("r2", JsVal.obj [("lat", JsVal.num 2), ("lng", JsVal.num 2),
        ("timestamp", JsVal.str "2024-01-02T00:00:00Z")])]

/-- A report collection whose one report has no timestamp. -/
def reportWithoutTimestamp : JsVal :=
  JsVal.obj [("r1", JsVal.obj [("latitude", JsVal.num 1), ("longitude", JsVal.num 1)])]

/-- The properties of `sampleReport`. -/
def sampleFields : List (String × JsVal) :=
  [("latitude", JsVal.num (21 / 2)), ("longitude", JsVal.num (305 / 4)),
    ("timestamp", JsVal.str "2024-01-01T00:00:00Z")]

/-- An older report at another place, in the short shape. -/
def olderReport : JsVal :=
  JsVal.obj [("lat", JsVal.num 10), ("lng", JsVal.num 76), ("timestamp", JsVal.num 1600000000000)]

/-- A string between two double-quote characters. -/
def quoted (s : String) : String :=
  String.singleton quoteChar ++ s ++ String.singleton quoteChar

/-- A `parseFloat` that reads a number as itself and knows the numeral `12.5`; `none` is
`NaN`. -/
def exampleParseFloat : JsVal → Option ℚ
  | JsVal.num x => some x
  | JsVal.str s => if s = "12.5" then some (25 / 2) else none
  | _ => none

/-- A `parseFloat` that reads a number as itself and knows the numerals `0`, `1`, `2` and
`12.5`; `none` is `NaN`. -/
def tableParseFloat : JsVal → Option ℚ
  | JsVal.num x => some x
  | JsVal.str s =>
    if s = "0" then some 0 else if s = "1" then some 1 else if s = "2" then some 2
    else if s = "12.5" then some (25 / 2) else none
  | _ => none

/-- The text of the numbers 0, 1, 2 and 12.5, and `NaN` for every other value. -/
def tableNumToStr : Option ℚ → String
  | some x =>
    if x = 0 then "0" else if x = 1 then "1" else if x = 2 then "2"
    else if x = 25 / 2 then "12.5" else "NaN"
  | none => "NaN"

/-- An elephant with the unit square as geofence and the live location (2, 2). -/
def fencedElephant : JsVal :=
  JsVal.obj [("geofence", sampleGeofence),
    ("livelocation", JsVal.obj [("lat", JsVal.num 2), ("lng", JsVal.num 2)])]

/-- A report at the place of `sampleReport` that carries the tag `running_detected`. -/
def runningReport : JsVal :=
  JsVal.obj [("latitude", JsVal.num (21 / 2)), ("longitude", JsVal.num (305 / 4)),
    ("timestamp", JsVal.str "2024-01-01T00:00:00Z"), ("alert_type", JsVal.str "running_detected")]

/-- An elephant whose one report is `runningReport`. -/
def runningElephant : JsVal :=
  JsVal.obj [("locations", JsVal.obj [("r1", runningReport)])]

/-- The dashboard page before any alert. -/
def emptyPage : PageState (Option ℚ) := ⟨⟨JsMap.empty, []⟩, JsMap.empty, []⟩

/-- An elephant without geofence whose one report is `sampleReport`. -/
def unfencedElephant : JsVal :=
  JsVal.obj [("locations", JsVal.obj [("r1", sampleReport)])]

/-- The elephant `unfencedElephant` with the unit square as geofence. -/
def unfencedElephantFenced : JsVal :=
  JsVal.obj [("locations", JsVal.obj [("r1", sampleReport)]), ("geofence", sampleGeofence)]

/-- The polygon drawn on the map whose text is `sampleGeofence`: the unit square. -/
def unitSquareLatLngs : List (LatLng (Option ℚ)) :=
  [⟨some 0, some 0⟩, ⟨some 0, some 1⟩, ⟨some 1, some 1⟩, ⟨some 1, some 0⟩]

/-- The body of a request to `/subscribe` for the endpoint `endpoint`, without location. -/
def subscribeBody (endpoint : String) : JsVal :=
  JsVal.obj [("subscription", JsVal.obj [("endpoint", JsVal.str endpoint)])]

/-- The body of a request to `/update-location` that moves `endpoint` to (10.5, 76.25). -/
def updateBody (endpoint : String) : JsVal :=
  JsVal.obj [("subscriptionEndpoint", JsVal.str endpoint),
    ("location", JsVal.obj [("latitude", JsVal.num (21 / 2)), ("longitude", JsVal.num (305 / 4))])]

/-- A subscriber with the endpoint `https://push.example/a`, as `/subscribe` stores it. -/
def subscriberA : Subscriber :=
  ⟨0, JsVal.obj [("endpoint", JsVal.str "https://push.example/a")], JsVal.null, JsVal.obj [], "t0"⟩

/-- A subscriber with the endpoint `https://push.example/b`, as `/subscribe` stores it. -/
def subscriberB : Subscriber :=
  ⟨1, JsVal.obj [("endpoint", JsVal.str "https://push.example/b")], JsVal.null, JsVal.obj [], "t1"⟩

/-- The server with the two subscribers `subscriberA` and `subscriberB`. -/
def registryAB : ServerState (Option ℚ) := ⟨[subscriberA, subscriberB], JsMap.empty, []⟩

/-- The body of a request to `/notify`. -/
def notifyBody : JsVal :=
  JsVal.obj [("title", JsVal.str "Alert"), ("body", JsVal.str "Elephant nearby")]

/-- A stand-in for `JSON.stringify`. -/
def sampleStringify : JsVal → String := fun _ => "payload"

/-- The server before any request. -/
def emptyServer : ServerState (Option ℚ) := ⟨[], JsMap.empty, []⟩

/-- A report collection whose one report is `sampleReport` inside the envelope
`uplink_message.decoded_payload`. -/
def wrappedCollection : JsVal :=
  JsVal.obj [("r1", JsVal.obj [("uplink_message", JsVal.obj [("decoded_payload", sampleReport)])])]

/-- A report collection whose one report has the quoted text `"12.5"` as coordinates. -/
def quotedCollection : JsVal :=
  JsVal.obj [("r1", JsVal.obj [("latitude", JsVal.str (quoted "12.5")),
    ("longitude", JsVal.str (quoted "12.5")), ("timestamp", JsVal.str "2024-01-01T00:00:00Z")])]

/-- A report collection with two reports in the long shape without envelope. -/
def plainCollection : JsVal :=
  JsVal.obj [("r1", sampleReport),
    ("r2", JsVal.obj [("latitude", JsVal.num 2), ("longitude", JsVal.num 2),
      ("timestamp", JsVal.str "2024-01-02T00:00:00Z")])]

/-- A report collection whose one entry is `null`. -/
def nullReportCollection : JsVal := JsVal.obj [("r1", JsVal.null)]

/-- The data of `/elephants.json` whose first entry is `null` and whose second entry is an
elephant with the one report `sampleReport`. -/
def elephantsAfterNull : JsVal :=
  JsVal.obj [("elephant0", JsVal.null),
    ("elephant1", JsVal.obj [("locations", JsVal.obj [("r1", sampleReport)])])]

/-- An update whose first elephant entry is `null` and whose second is `runningElephant`. -/
def runningAfterNull : JsVal :=
  JsVal.obj [("elephant0", JsVal.null), ("elephant1", runningElephant)]

/-- An update with the one elephant `runningElephant`. -/
def runningUpdate : JsVal := JsVal.obj [("elephant1", runningElephant)]

/-! ## Derived notions used in the statements and proofs -/

/-- The payload `unwrapReport` yields for an entry that is not nullish. -/
def payloadOf (locationData : JsVal) : JsVal :=
  if (locationData.field "uplink_message").truthy &&
      ((locationData.field "uplink_message").field "decoded_payload").truthy then
    (locationData.field "uplink_message").field "decoded_payload"
  else locationData

/-- The effect of `checkElephant` when the delivery succeeds and no exception is raised. -/
def deliveredStep {F : Type} (ops : FloatOps F) (rt : Builtins) (now : Int)
    (subscriber : Subscriber) (acc : ServerState F) (kv : String × JsVal) : ServerState F :=
  match getLatestLocation rt (kv.2.field "locations") with
  | Except.ok (some loc) =>
    if ops.le (calculateDistance ops (subscriber.location.field "latitude")
          (subscriber.location.field "longitude") loc.latitude loc.longitude) (ops.lit 5) &&
        !isInCooldown rt acc.alertCooldowns now (userIdOf subscriber) kv.1 then
      { subscribers := acc.subscribers
        alertCooldowns := setCooldown rt acc.alertCooldowns now (userIdOf subscriber) kv.1
        pushes := acc.pushes ++
          [⟨subscriber, kv.1, calculateDistance ops (subscriber.location.field "latitude")
            (subscriber.location.field "longitude") loc.latitude loc.longitude,
            PushOutcome.delivered⟩] }
    else acc
  | _ => acc

/-- The effect of one turn of `subscriberLoop` when every delivery succeeds and no exception is
raised. -/
def deliveredTurn {F : Type} (ops : FloatOps F) (rt : Builtins) (now : Int)
    (entries : List (String × JsVal)) (acc : ServerState F) (subscriber : Subscriber) :
    ServerState F :=
  if subscriber.location.truthy then entries.foldl (deliveredStep ops rt now subscriber) acc
  else acc

/-- The pairs of a subscriber and an elephant in the order in which a pass visits them. -/
def proximityPairs : List Subscriber → List (String × JsVal) → List (Subscriber × (String × JsVal))
  | [], _ => []
  | s :: rest, entries => entries.map (fun kv => (s, kv)) ++ proximityPairs rest entries

/-- The effect of a pass on one pair when every delivery succeeds and no exception is raised. -/
def deliveredPairStep {F : Type} (ops : FloatOps F) (rt : Builtins) (now : Int)
    (acc : ServerState F) (p : Subscriber × (String × JsVal)) : ServerState F :=
  if p.1.location.truthy then deliveredStep ops rt now p.1 acc p.2 else acc

/-- The kinds of the alerts one geofence evaluation emits, from the state recorded before and
the result of `isPointInPolygon`. -/
def geofenceKinds : Option Bool → Bool → List String
  | some true, false => ["breach"]
  | some false, true => ["return"]
  | none, false => ["breach"]
  | _, _ => []

/-- The kinds of a list of alerts are `breach`, `return`, `breach`, `return` and so on. -/
def AlternatesFromBreach (kinds : List String) : Prop :=
  ∀ (n : Nat) (h : n < kinds.length), kinds[n] = if n % 2 = 0 then "breach" else "return"

/-- The object `getLatestLocation` builds from a payload (lines 106-111). -/
def locationOf (location : JsVal) : LatestLocation where
  latitude := (location.field "latitude").or (location.field "lat")
  longitude := (location.field "longitude").or (location.field "lng")
  timestamp := location.field "timestamp"
  alert_type := (location.field "alert_type").or (JsVal.str "routine_update")

/-- The parsed timestamp of a payload that passes the test `timestamp && lat && lng` and whose
timestamp parses; `none` for every other payload. -/
def validTime (rt : Builtins) (location : JsVal) : Option Int :=
  if (location.field "timestamp").truthy &&
      ((location.field "latitude").or (location.field "lat")).truthy &&
      ((location.field "longitude").or (location.field "lng")).truthy then
    rt.dateGetTime (location.field "timestamp")
  else none

/-- What the accumulator of `getLatestLocation` satisfies when the entries `done` have been
processed: its timestamp bounds the parsed timestamps of the valid entries, and its location,
when there is one, is built from a valid entry with that timestamp. -/
def LatestInv (rt : Builtins) (done : List JsVal) (acc : Latest) : Prop :=
  (∀ r ∈ done, ∀ t, validTime rt (payloadOf r) = some t → t ≤ acc.latestTimestamp) ∧
  match acc.latestLocation with
  | none => acc.latestTimestamp = 0
  | some loc =>
    0 < acc.latestTimestamp ∧
      ∃ r ∈ done, validTime rt (payloadOf r) = some acc.latestTimestamp ∧
        loc = locationOf (payloadOf r)

/-- A report wrapped under `uplink_message.decoded_payload`. -/
def wrapReport (report : JsVal) : JsVal :=
  JsVal.obj [("uplink_message", JsVal.obj [("decoded_payload", report)])]

/-- The property name under which the short shape stores a property: `lat` for `latitude`,
`lng` for `longitude`. -/
def shortKey (k : String) : String :=
  if k = "latitude" then "lat" else if k = "longitude" then "lng" else k

/-- The properties of a report with its coordinates stored under `lat` and `lng` instead of
`latitude` and `longitude`. -/
def shortNames (fields : List (String × JsVal)) : List (String × JsVal) :=
  fields.map (fun kv => (shortKey kv.1, kv.2))

/-- The test `intersect` of `isPointInPolygon` for the edge from `vj` to `vi`. -/
def crosses {F : Type} (ops : FloatOps F) (x y : F) (vi vj : F × F) : Bool :=
  (ops.lt y vi.2 != ops.lt y vj.2) &&
    ops.lt x (ops.add (ops.div (ops.mul (ops.sub vj.1 vi.1) (ops.sub y vi.2)) (ops.sub vj.2 vi.2)) vi.1)

/-- Whether the number of edges that cross is odd, for the edges the loop of `isPointInPolygon`
visits from the vertex `vj` on. -/
def crossingParity {F : Type} (ops : FloatOps F) (x y : F) : List (F × F) → F × F → Bool
  | [], _ => false
  | vi :: rest, vj => xor (crosses ops x y vi vj) (crossingParity ops x y rest vi)

/-- The loop of `isPointInPolygon` in exact arithmetic with the division made partial: `&&`
evaluates its right operand only when the straddle test is true, and the result is `none` as
soon as a division by zero is evaluated. -/
def polygonLoopChecked (x y : Option ℚ) :
    List (Option ℚ × Option ℚ) → Option ℚ × Option ℚ → Bool → Option Bool
  | [], _, inside => some inside
  | vi :: rest, vj, inside =>
    if exactOps.lt y vi.2 != exactOps.lt y vj.2 then
      if exactOps.sub vj.2 vi.2 = some 0 then none
      else
        polygonLoopChecked x y rest vi
          (if exactOps.lt x (exactOps.add (exactOps.div (exactOps.mul (exactOps.sub vj.1 vi.1)
              (exactOps.sub y vi.2)) (exactOps.sub vj.2 vi.2)) vi.1) then !inside else inside)
    else polygonLoopChecked x y rest vi inside

/-- The function `isPointInPolygon` over `polygonLoopChecked`. -/
def isPointInPolygonChecked (point : LatLng (Option ℚ)) (polygon : List (Option ℚ × Option ℚ)) :
    Option Bool :=
  match polygon.getLast? with
  | none => some false
  | some last => polygonLoopChecked point.lat point.lng polygon last false

/-- The endpoint of the subscription of a subscriber, as `find` reads it. -/
def endpointOf (s : Subscriber) : JsVal := s.subscription.field "endpoint"

/-- No two elements of the array have the same endpoint. -/
def EndpointsUnique (subscribers : List Subscriber) : Prop :=
  subscribers.Pairwise (fun a b => strictEq (endpointOf a) (endpointOf b) = false)

/-- An operation on the registry: a request to `/subscribe`, a request to `/update-location`,
or a proximity pass, which removes the subscribers whose delivery fails with status 410. -/
inductive RegistryOp where
  | subscribe (ref : Nat) (subscribedAt : String) (body : JsVal) : RegistryOp
  | updateLocation (body : JsVal) : RegistryOp
  | pass (webPush : Subscriber → String → PushOutcome) (now : Int) (fetched : Option JsVal) :
      RegistryOp

/-- The state an operation leaves. -/
def applyOp {F : Type} (ops : FloatOps F) (rt : Builtins) (st : ServerState F) :
    RegistryOp → ServerState F
  | RegistryOp.subscribe ref subscribedAt body => (subscribe ref subscribedAt body st).2
  | RegistryOp.updateLocation body => (updateLocation body st).2
  | RegistryOp.pass webPush now fetched => checkProximityAndAlert ops rt webPush now fetched st

/-- The state a sequence of operations leaves. -/
def applyOps {F : Type} (ops : FloatOps F) (rt : Builtins) (requests : List RegistryOp)
    (st : ServerState F) : ServerState F :=
  requests.foldl (applyOp ops rt) st

/-- The subscriptions of the requests to `/subscribe` that are accepted, in order. -/
def acceptedSubscriptions : List RegistryOp → List JsVal
  | [] => []
  | RegistryOp.subscribe _ _ body :: rest =>
    if (body.field "subscription").truthy then
      body.field "subscription" :: acceptedSubscriptions rest
    else acceptedSubscriptions rest
  | _ :: rest => acceptedSubscriptions rest

/-- The passes in flight at time `t`, when pass number `k` takes `duration k` milliseconds:
those started at `t` or before and not completed at `t`.  A pass started at `t` or before has a
number of at most `t / MONITORING_INTERVAL`. -/
def inFlight (duration : Nat → Nat) (t : Nat) : List Nat :=
  (List.range (t / MONITORING_INTERVAL + 1)).filter
    (fun k => decide (passStart k ≤ t) && decide (t < passStart k + duration k))

/-- The location of the backend resolver as the dashboard resolver returns it: the coordinates
read as numbers. -/
def asNumbers {F : Type} (parseFloat : JsVal → F) (l : LatestLocation) : Dashboard.LatestLocation F where
  latitude := parseCoordinate parseFloat l.latitude
  longitude := parseCoordinate parseFloat l.longitude
  timestamp := l.timestamp
  alert_type := l.alert_type

/-- Latitude, longitude and timestamp of a location of the backend resolver. -/
def positionOf (l : LatestLocation) : JsVal × JsVal × JsVal := (l.latitude, l.longitude, l.timestamp)

/-- Latitude, longitude and timestamp of the report the service worker returns. -/
def positionOfReport (r : JsVal) : JsVal × JsVal × JsVal :=
  (r.field "latitude", r.field "longitude", r.field "timestamp")

/-- A report as the service worker can read it: it has no envelope and does not use the short
names `lat` and `lng`. -/
def PlainReport (r : JsVal) : Prop :=
  payloadOf r = r ∧ (r.field "lat").truthy = false ∧ (r.field "lng").truthy = false

/-- What the sign does in an arithmetic, `neg` being the change of sign: a difference taken the
other way round is the same number or its negative, the sign of a factor or of a dividend goes
to the result, the sine is odd, and the product does not depend on the order of its factors.
The arithmetic of IEEE doubles has these properties (its rounding is symmetric), with a sine
that is computed as an odd function. -/
structure SignSymmetric {F : Type} (ops : FloatOps F) (neg : F → F) : Prop where
  sub_swap : ∀ a b, ops.sub a b = neg (ops.sub b a) ∨ ops.sub a b = ops.sub b a
  neg_mul : ∀ x y, ops.mul (neg x) y = neg (ops.mul x y)
  mul_neg : ∀ x y, ops.mul x (neg y) = neg (ops.mul x y)
  neg_div : ∀ x y, ops.div (neg x) y = neg (ops.div x y)
  sin_neg : ∀ x, ops.sin (neg x) = neg (ops.sin x)
  neg_neg : ∀ x, neg (neg x) = x
  mul_comm : ∀ x y, ops.mul x y = ops.mul y x

/-- What an arithmetic computes exactly at 0 and 1, `finite` telling the finite numbers: the
difference of a finite number and itself is 0, products and quotients of 0 with the positive
constants of the formula are 0, the square of the cosine of a finite number, which is at most
1, times 0 is 0, and `sin 0 = 0`, `sqrt 0 = 0`, `sqrt 1 = 1`, `1 - 0 = 1`, `atan2(0, 1) = 0`.
The arithmetic of IEEE doubles has these properties, 0 being the positive zero. -/
structure ExactAtZero {F : Type} (ops : FloatOps F) (finite : F → Prop) : Prop where
  sub_self : ∀ x, finite x → ops.sub x x = ops.lit 0
  zero_mul_pi : ops.mul (ops.lit 0) ops.pi = ops.lit 0
  zero_div_pos : ∀ q : ℚ, 0 < q → ops.div (ops.lit 0) (ops.lit q) = ops.lit 0
  pos_mul_zero : ∀ q : ℚ, 0 < q → ops.mul (ops.lit q) (ops.lit 0) = ops.lit 0
  zero_mul_zero : ops.mul (ops.lit 0) (ops.lit 0) = ops.lit 0
  cos_sq_mul_zero : ∀ x, finite x →
    ops.mul (ops.mul (ops.cos x) (ops.cos x)) (ops.lit 0) = ops.lit 0
  zero_add_zero : ops.add (ops.lit 0) (ops.lit 0) = ops.lit 0
  one_sub_zero : ops.sub (ops.lit 1) (ops.lit 0) = ops.lit 1
  sin_zero : ops.sin (ops.lit 0) = ops.lit 0
  sqrt_zero : ops.sqrt (ops.lit 0) = ops.lit 0
  sqrt_one : ops.sqrt (ops.lit 1) = ops.lit 1
  atan2_zero_one : ops.atan2 (ops.lit 0) (ops.lit 1) = ops.lit 0

/-- The change of sign of a number of `exactOps` and `doubleOps`. -/
def negOption (a : Option ℚ) : Option ℚ := a.map (fun x => -x)

/-- The finite numbers of `exactOps` and `doubleOps`: every value but `none`. -/
def finiteOption (a : Option ℚ) : Prop := a ≠ none

/-- No entry of a cooldown store holds the time 0. -/
def NoZeroTime (alertCooldowns : JsMap Int) : Prop := ∀ key, alertCooldowns key ≠ some 0

/-- The clock of a sequence of operations never reads 0: every pass runs at a time `now` other
than 0, as `Date.now()` gives it. -/
def PassTimesNonzero : List RegistryOp → Prop
  | [] => True
  | RegistryOp.pass _ now _ :: rest => now ≠ 0 ∧ PassTimesNonzero rest
  | _ :: rest => PassTimesNonzero rest

/-- Whether the callback of `startRunningDetectionMonitoring` gets the latest location of the
elephant without an exception. -/
def resolvesRunning {F : Type} (rt : Builtins) (parseFloat : JsVal → F) (kv : String × JsVal) :
    Bool :=
  match runningLatestLocation rt parseFloat kv.2 with
  | Except.ok _ => true
  | Except.error _ => false

/-- The elephants whose callbacks run to their end in one update: those before the first one
whose callback raises an exception. -/
def reachedElephants {F : Type} (rt : Builtins) (parseFloat : JsVal → F) (elephants : JsVal) :
    List (String × JsVal) :=
  (objectEntries elephants).takeWhile (resolvesRunning rt parseFloat)

/-- The state one callback of `startRunningDetectionMonitoring` leaves. -/
def runningStep {F : Type} (rt : Builtins) (parseFloat : JsVal → F) (now : Int)
    (st : PageState F) (kv : String × JsVal) : PageState F :=
  match runningCheck rt parseFloat now st kv.1 kv.2 with
  | Except.ok st1 => st1
  | Except.error _ => st

/-! # Theorems -/

/-! ## Maps -/

theorem JsMap.set_same {α : Type} (m : JsMap α) (k : String) (v : α) : (m.set k v) k = some v := by
  simp [JsMap.set]

theorem JsMap.set_other {α : Type} (m : JsMap α) (k k1 : String) (v : α) (h : k1 ≠ k) :
    (m.set k v) k1 = m k1 := by
  simp [JsMap.set, h]

/-! ## Resolver -/

theorem unwrapReport_of_not_nullish {r : JsVal} (h : r.nullish = false) :
    unwrapReport r = Except.ok (payloadOf r) := by
  unfold unwrapReport getProp payloadOf
  simp only [h, Bool.false_eq_true, if_false]
  split <;> rfl

theorem unwrapReport_of_nullish {r : JsVal} (h : r.nullish = true) :
    unwrapReport r = Except.error JsError.typeError := by
  unfold unwrapReport getProp
  simp [h]

theorem latestLoop_of_not_nullish (rt : Builtins) (vals : List JsVal) (acc : Latest)
    (h : ∀ r ∈ vals, r.nullish = false) :
    latestLoop rt vals acc =
      Except.ok (vals.foldl (fun a r => considerReport rt a (payloadOf r)) acc) := by
  induction vals generalizing acc with
  | nil => rfl
  | cons r rest ih =>
    have hr : r.nullish = false := h r (List.mem_cons_self _ _)
    have hrest : ∀ x ∈ rest, x.nullish = false := fun x hx => h x (List.mem_cons_of_mem _ hx)
    simp only [latestLoop, unwrapReport_of_not_nullish hr, List.foldl_cons]
    exact ih _ hrest

theorem getLatestLocation_no_throw (rt : Builtins) (locations : JsVal)
    (h : ∀ r ∈ objectValues locations, r.nullish = false) :
    ∃ res, getLatestLocation rt locations = Except.ok res := by
  unfold getLatestLocation
  split
  · exact ⟨none, rfl⟩
  · rw [latestLoop_of_not_nullish rt _ _ h]
    exact ⟨_, rfl⟩

/-! ## Proximity pass when every delivery succeeds -/

theorem sendPush_delivered {F : Type} (webPush : Subscriber → String → PushOutcome)
    (st : ServerState F) (subscriber : Subscriber) (elephantId : String) (distance : F)
    (h : webPush subscriber elephantId = PushOutcome.delivered) :
    sendPushToSubscriber webPush st subscriber elephantId distance =
      (true, { st with pushes := st.pushes ++ [⟨subscriber, elephantId, distance, PushOutcome.delivered⟩] }) := by
  simp [sendPushToSubscriber, h]

theorem checkElephant_delivered {F : Type} (ops : FloatOps F) (rt : Builtins)
    (webPush : Subscriber → String → PushOutcome) (now : Int) (subscriber : Subscriber)
    (st : ServerState F) (elephantId : String) (elephant : JsVal)
    (hpush : ∀ s e, webPush s e = PushOutcome.delivered)
    (hel : elephant.nullish = false)
    (hrep : ∀ r ∈ objectValues (elephant.field "locations"), r.nullish = false) :
    checkElephant ops rt webPush now subscriber (userIdOf subscriber) st elephantId elephant =
      Except.ok (deliveredStep ops rt now subscriber st (elephantId, elephant)) := by
  obtain ⟨res, hres⟩ := getLatestLocation_no_throw rt _ hrep
  unfold checkElephant deliveredStep getProp
  simp only [hel, Bool.false_eq_true, if_false, hres]
  by_cases hloc : (elephant.field "locations").truthy = true
  · simp only [hloc, Bool.not_true, Bool.false_eq_true, if_false]
    cases res with
    | none => rfl
    | some loc =>
      simp only [sendPush_delivered _ _ _ _ _ (hpush _ _)]
      by_cases hle : ops.le (calculateDistance ops (subscriber.location.field "latitude")
          (subscriber.location.field "longitude") loc.latitude loc.longitude) (ops.lit 5) = true
      · by_cases hcd : isInCooldown rt st.alertCooldowns now (userIdOf subscriber) elephantId = true
        · simp [hle, hcd]
        · simp [hle, hcd]
      · simp [hle]
  · have hnone : res = none := by
      unfold getLatestLocation at hres
      simp only [hloc, Bool.not_false, if_true] at hres
      injection hres with h1
      exact h1.symm
    subst hnone
    simp [hloc]

theorem deliveredStep_subscribers {F : Type} (ops : FloatOps F) (rt : Builtins) (now : Int)
    (subscriber : Subscriber) (acc : ServerState F) (kv : String × JsVal) :
    (deliveredStep ops rt now subscriber acc kv).subscribers = acc.subscribers := by
  unfold deliveredStep
  split
  · split <;> rfl
  · rfl

theorem foldl_deliveredStep_subscribers {F : Type} (ops : FloatOps F) (rt : Builtins) (now : Int)
    (subscriber : Subscriber) (entries : List (String × JsVal)) (acc : ServerState F) :
    (entries.foldl (deliveredStep ops rt now subscriber) acc).subscribers = acc.subscribers := by
  induction entries generalizing acc with
  | nil => rfl
  | cons kv rest ih => rw [List.foldl_cons, ih, deliveredStep_subscribers]

theorem deliveredTurn_subscribers {F : Type} (ops : FloatOps F) (rt : Builtins) (now : Int)
    (entries : List (String × JsVal)) (acc : ServerState F) (subscriber : Subscriber) :
    (deliveredTurn ops rt now entries acc subscriber).subscribers = acc.subscribers := by
  unfold deliveredTurn
  split
  · exact foldl_deliveredStep_subscribers ops rt now subscriber entries acc
  · rfl

theorem elephantLoop_delivered {F : Type} (ops : FloatOps F) (rt : Builtins)
    (webPush : Subscriber → String → PushOutcome) (now : Int) (subscriber : Subscriber)
    (entries : List (String × JsVal)) (st : ServerState F)
    (hpush : ∀ s e, webPush s e = PushOutcome.delivered)
    (hel : ∀ kv ∈ entries, kv.2.nullish = false)
    (hrep : ∀ kv ∈ entries, ∀ r ∈ objectValues (kv.2.field "locations"), r.nullish = false) :
    elephantLoop ops rt webPush now subscriber (userIdOf subscriber) entries st =
      (Completion.normal, entries.foldl (deliveredStep ops rt now subscriber) st) := by
  induction entries generalizing st with
  | nil => rfl
  | cons kv rest ih =>
    obtain ⟨elephantId, elephant⟩ := kv
    have h1 := checkElephant_delivered ops rt webPush now subscriber st elephantId elephant hpush
      (hel _ (List.mem_cons_self _ _)) (hrep _ (List.mem_cons_self _ _))
    simp only [elephantLoop, h1, List.foldl_cons]
    exact ih _ (fun kv hkv => hel kv (List.mem_cons_of_mem _ hkv))
      (fun kv hkv => hrep kv (List.mem_cons_of_mem _ hkv))

theorem subscriberLoop_delivered {F : Type} (ops : FloatOps F) (rt : Builtins)
    (webPush : Subscriber → String → PushOutcome) (now : Int) (elephants : JsVal)
    (hpush : ∀ s e, webPush s e = PushOutcome.delivered)
    (hel : ∀ kv ∈ objectEntries elephants, kv.2.nullish = false)
    (hrep : ∀ kv ∈ objectEntries elephants,
      ∀ r ∈ objectValues (kv.2.field "locations"), r.nullish = false)
    (fuel i : Nat) (st : ServerState F) (hfuel : st.subscribers.length - i ≤ fuel) :
    subscriberLoop ops rt webPush now elephants fuel i st =
      (Completion.normal,
        (st.subscribers.drop i).foldl (deliveredTurn ops rt now (objectEntries elephants)) st) := by
  induction fuel generalizing i st with
  | zero =>
    have hdrop : st.subscribers.drop i = [] := List.drop_eq_nil_of_le (by omega)
    simp [subscriberLoop, hdrop]
  | succ fuel ih =>
    unfold subscriberLoop
    by_cases hi : i < st.subscribers.length
    · have hget : st.subscribers.get? i = some st.subscribers[i] := by
        simp [List.getElem?_eq_getElem hi]
      have hdrop : st.subscribers.drop i = st.subscribers[i] :: st.subscribers.drop (i + 1) :=
        List.drop_eq_getElem_cons hi
      simp only [hget, hdrop, List.foldl_cons]
      by_cases hloc : (st.subscribers[i]).location.truthy = true
      · have hturn : deliveredTurn ops rt now (objectEntries elephants) st st.subscribers[i] =
            (objectEntries elephants).foldl (deliveredStep ops rt now st.subscribers[i]) st := by
          simp [deliveredTurn, hloc]
        simp only [hloc, Bool.not_true, Bool.false_eq_true, if_false,
          elephantLoop_delivered ops rt webPush now _ _ st hpush hel hrep]
        have hsub := foldl_deliveredStep_subscribers ops rt now st.subscribers[i]
          (objectEntries elephants) st
        rw [ih (i + 1) _ (by rw [hsub]; omega), hsub, hturn]
      · have hturn : deliveredTurn ops rt now (objectEntries elephants) st st.subscribers[i] = st := by
          simp [deliveredTurn, hloc]
        simp only [hloc, Bool.not_false, if_true]
        rw [ih (i + 1) st (by omega), hturn]
    · have hget : st.subscribers.get? i = none := by
        simp [List.getElem?_eq_none (Nat.le_of_not_lt hi)]
      have hdrop : st.subscribers.drop i = [] := List.drop_eq_nil_of_le (Nat.le_of_not_lt hi)
      rw [hget, hdrop]
      rfl

theorem checkProximityAndAlert_delivered {F : Type} (ops : FloatOps F) (rt : Builtins)
    (webPush : Subscriber → String → PushOutcome) (now : Int) (elephants : JsVal)
    (st : ServerState F)
    (hpush : ∀ s e, webPush s e = PushOutcome.delivered)
    (hel : ∀ kv ∈ objectEntries elephants, kv.2.nullish = false)
    (hrep : ∀ kv ∈ objectEntries elephants,
      ∀ r ∈ objectValues (kv.2.field "locations"), r.nullish = false) :
    checkProximityAndAlert ops rt webPush now (some elephants) st =
      st.subscribers.foldl (deliveredTurn ops rt now (objectEntries elephants)) st := by
  unfold checkProximityAndAlert
  by_cases hlen : st.subscribers.length = 0
  · have hnil : st.subscribers = [] := List.length_eq_zero.mp hlen
    simp [hnil]
  · simp only [hlen, if_false]
    by_cases htr : elephants.truthy = true
    · simp only [htr, Bool.not_true, Bool.false_eq_true, if_false]
      rw [subscriberLoop_delivered ops rt webPush now elephants hpush hel hrep _ 0 st (by omega)]
      simp
    · have hent : objectEntries elephants = [] := by
        cases elephants with
        | undefined => rfl
        | null => rfl
        | bool b => rfl
        | num x => rfl
        | str s0 =>
          have hs : s0 = "" := by simpa [JsVal.truthy] using htr
          subst hs
          rfl
        | obj fields => simp [JsVal.truthy] at htr
      have hid : ∀ (l : List Subscriber) (acc : ServerState F),
          l.foldl (deliveredTurn ops rt now []) acc = acc := by
        intro l
        induction l with
        | nil => intro acc; rfl
        | cons s rest ih =>
          intro acc
          rw [List.foldl_cons, ih]
          unfold deliveredTurn
          split <;> rfl
      simp only [htr, Bool.not_false, if_true, hent, hid]

theorem proximityPairs_length (subs : List Subscriber) (entries : List (String × JsVal)) :
    (proximityPairs subs entries).length = subs.length * entries.length := by
  induction subs with
  | nil => simp [proximityPairs]
  | cons s rest ih =>
    simp only [proximityPairs, List.length_append, List.length_map, ih, List.length_cons]
    rw [Nat.succ_mul]
    omega

theorem proximityPairs_getElem? (subs : List Subscriber) (entries : List (String × JsVal))
    (i j : Nat) (hi : i < subs.length) (hj : j < entries.length) :
    (proximityPairs subs entries)[i * entries.length + j]? = some (subs[i], entries[j]) := by
  induction subs generalizing i with
  | nil => simp at hi
  | cons s rest ih =>
    cases i with
    | zero =>
      simp only [proximityPairs, Nat.zero_mul, Nat.zero_add, List.getElem_cons_zero]
      rw [List.getElem?_append_left (by simpa using hj)]
      simp [List.getElem?_eq_getElem hj]
    | succ i =>
      have hi1 : i < rest.length := by simpa using hi
      simp only [proximityPairs, List.getElem_cons_succ]
      rw [List.getElem?_append_right (by
        simp only [List.length_map]
        rw [Nat.succ_mul]
        omega)]
      have hidx : (i + 1) * entries.length + j - (List.map (fun kv => (s, kv)) entries).length =
          i * entries.length + j := by
        simp only [List.length_map]
        rw [Nat.succ_mul]
        omega
      rw [hidx]
      exact ih i hi1

theorem foldl_deliveredPairStep_map {F : Type} (ops : FloatOps F) (rt : Builtins) (now : Int)
    (s : Subscriber) (entries : List (String × JsVal)) (acc : ServerState F) :
    (entries.map (fun kv => (s, kv))).foldl (deliveredPairStep ops rt now) acc =
      deliveredTurn ops rt now entries acc s := by
  rw [List.foldl_map]
  unfold deliveredTurn
  by_cases hloc : s.location.truthy = true
  · simp only [hloc, if_true, deliveredPairStep]
  · simp only [hloc, Bool.false_eq_true, if_false, deliveredPairStep]
    induction entries with
    | nil => rfl
    | cons kv rest ih => simp

theorem foldl_proximityPairs {F : Type} (ops : FloatOps F) (rt : Builtins) (now : Int)
    (subs : List Subscriber) (entries : List (String × JsVal)) (acc : ServerState F) :
    (proximityPairs subs entries).foldl (deliveredPairStep ops rt now) acc =
      subs.foldl (deliveredTurn ops rt now entries) acc := by
  induction subs generalizing acc with
  | nil => rfl
  | cons s rest ih =>
    simp only [proximityPairs, List.foldl_append, List.foldl_cons, foldl_deliveredPairStep_map, ih]

/-- One pass of `checkProximityAndAlert` in which the fetch succeeds, every delivery succeeds
and no elephant or report entry is `null`.  The pass goes through the pairs of a subscriber
(index `i`) and an elephant (index `j`) in order; `states n` is the server state when `n` pairs
are done.  For each pair: when the subscriber has a location, the elephant resolves to a latest
location, the distance is at most 5 and the pair is not in cooldown in the state before, one
push (the alert) to that subscriber for that elephant is added and the cooldown entry of the
pair is set to `now`; when the subscriber has no location, or the elephant does not resolve, or
the distance is above 5, or the pair is in cooldown, the state, and with it the pushes and the
cooldown store, is unchanged. -/
theorem proximity_pass_alerts_exactly_within_radius_outside_cooldown {F : Type}
    (ops : FloatOps F) (rt : Builtins) (webPush : Subscriber → String → PushOutcome)
    (now : Int) (elephants : JsVal) (st : ServerState F)
    (hpush : ∀ s e, webPush s e = PushOutcome.delivered)
    (hel : ∀ kv ∈ objectEntries elephants, kv.2.nullish = false)
    (hrep : ∀ kv ∈ objectEntries elephants,
      ∀ r ∈ objectValues (kv.2.field "locations"), r.nullish = false) :
    ∃ states : Nat → ServerState F,
      states 0 = st ∧
      states (st.subscribers.length * (objectEntries elephants).length) =
        checkProximityAndAlert ops rt webPush now (some elephants) st ∧
      ∀ (i j : Nat) (hi : i < st.subscribers.length) (hj : j < (objectEntries elephants).length),
        (∀ loc : LatestLocation,
          (st.subscribers[i]).location.truthy = true →
          getLatestLocation rt (((objectEntries elephants)[j]).2.field "locations") =
            Except.ok (some loc) →
          ops.le (calculateDistance ops ((st.subscribers[i]).location.field "latitude")
            ((st.subscribers[i]).location.field "longitude") loc.latitude loc.longitude)
            (ops.lit 5) = true →
          isInCooldown rt (states (i * (objectEntries elephants).length + j)).alertCooldowns now
            (userIdOf st.subscribers[i]) ((objectEntries elephants)[j]).1 = false →
          (states (i * (objectEntries elephants).length + j + 1)).pushes =
              (states (i * (objectEntries elephants).length + j)).pushes ++
                [⟨st.subscribers[i], ((objectEntries elephants)[j]).1,
                  calculateDistance ops ((st.subscribers[i]).location.field "latitude")
                    ((st.subscribers[i]).location.field "longitude") loc.latitude loc.longitude,
                  PushOutcome.delivered⟩] ∧
            (states (i * (objectEntries elephants).length + j + 1)).alertCooldowns =
              (states (i * (objectEntries elephants).length + j)).alertCooldowns.set
                (cooldownKey rt (userIdOf st.subscribers[i]) ((objectEntries elephants)[j]).1) now ∧
            (states (i * (objectEntries elephants).length + j + 1)).subscribers =
              (states (i * (objectEntries elephants).length + j)).subscribers) ∧
        ((st.subscribers[i]).location.truthy = false →
          states (i * (objectEntries elephants).length + j + 1) =
            states (i * (objectEntries elephants).length + j)) ∧
        ((∀ loc : LatestLocation,
            getLatestLocation rt (((objectEntries elephants)[j]).2.field "locations") ≠
              Except.ok (some loc)) →
          states (i * (objectEntries elephants).length + j + 1) =
            states (i * (objectEntries elephants).length + j)) ∧
        (∀ loc : LatestLocation,
          getLatestLocation rt (((objectEntries elephants)[j]).2.field "locations") =
            Except.ok (some loc) →
          ops.le (calculateDistance ops ((st.subscribers[i]).location.field "latitude")
            ((st.subscribers[i]).location.field "longitude") loc.latitude loc.longitude)
            (ops.lit 5) = false →
          states (i * (objectEntries elephants).length + j + 1) =
            states (i * (objectEntries elephants).length + j)) ∧
        (isInCooldown rt (states (i * (objectEntries elephants).length + j)).alertCooldowns now
            (userIdOf st.subscribers[i]) ((objectEntries elephants)[j]).1 = true →
          states (i * (objectEntries elephants).length + j + 1) =
            states (i * (objectEntries elephants).length + j)) := by
  refine ⟨fun n => ((proximityPairs st.subscribers (objectEntries elephants)).take n).foldl
    (deliveredPairStep ops rt now) st, rfl, ?_, ?_⟩
  · rw [checkProximityAndAlert_delivered ops rt webPush now elephants st hpush hel hrep,
      ← foldl_proximityPairs, ← proximityPairs_length]
    show ((proximityPairs st.subscribers (objectEntries elephants)).take _).foldl _ st = _
    rw [List.take_length]
  · intro i j hi hj
    have hstep : ((proximityPairs st.subscribers (objectEntries elephants)).take
          (i * (objectEntries elephants).length + j + 1)).foldl (deliveredPairStep ops rt now) st =
        deliveredPairStep ops rt now
          (((proximityPairs st.subscribers (objectEntries elephants)).take
            (i * (objectEntries elephants).length + j)).foldl (deliveredPairStep ops rt now) st)
          (st.subscribers[i], (objectEntries elephants)[j]) := by
      rw [List.take_succ, proximityPairs_getElem? _ _ i j hi hj]
      simp [List.foldl_append]
    simp only [hstep]
    generalize ((proximityPairs st.subscribers (objectEntries elephants)).take
      (i * (objectEntries elephants).length + j)).foldl (deliveredPairStep ops rt now) st = before
    refine ⟨?_, ?_, ?_, ?_, ?_⟩
    · intro loc hloc hres hle hcd
      simp [deliveredPairStep, deliveredStep, hloc, hres, hle, hcd, setCooldown]
    · intro hloc
      simp [deliveredPairStep, hloc]
    · intro hres
      unfold deliveredPairStep deliveredStep
      split
      · split
        · next loc hloc => exact absurd hloc (hres loc)
        · rfl
      · rfl
    · intro loc hres hle
      simp [deliveredPairStep, deliveredStep, hres, hle]
    · intro hcd
      unfold deliveredPairStep deliveredStep
      split
      · split
        · simp [hcd]
        · rfl
      · rfl

/-- An instance of the pass on data without `null` entries: one subscriber at the place of the
one elephant, empty cooldown store; the pass sends one alert and sets the cooldown of the
pair. -/
theorem proximity_pass_alerts_exactly_within_radius_outside_cooldown_witness :
    (∀ s e, allDelivered s e = PushOutcome.delivered) ∧
    (∀ kv ∈ objectEntries sampleElephants, kv.2.nullish = false) ∧
    (∀ kv ∈ objectEntries sampleElephants,
      ∀ r ∈ objectValues (kv.2.field "locations"), r.nullish = false) ∧
    (checkProximityAndAlert exactOps exampleRuntime allDelivered 1704067230000
        (some sampleElephants) ⟨[sampleSubscriber], JsMap.empty, []⟩).pushes =
      [⟨sampleSubscriber, "elephant1", some 0, PushOutcome.delivered⟩] ∧
    (checkProximityAndAlert exactOps exampleRuntime allDelivered 1704067230000
        (some sampleElephants) ⟨[sampleSubscriber], JsMap.empty, []⟩).alertCooldowns
      "9876543210_elephant1" = some 1704067230000 := by
  have h1 : ∀ s e, allDelivered s e = PushOutcome.delivered := fun _ _ => rfl
  have h2 : ∀ kv ∈ objectEntries sampleElephants, kv.2.nullish = false := by
    intro kv hkv
    simp only [sampleElephants, objectEntries, List.mem_singleton] at hkv
    subst hkv
    rfl
  have h3 : ∀ kv ∈ objectEntries sampleElephants,
      ∀ r ∈ objectValues (kv.2.field "locations"), r.nullish = false := by
    intro kv hkv r hr
    simp only [sampleElephants, objectEntries, List.mem_singleton] at hkv
    subst hkv
    have hvals : objectValues ((JsVal.obj [("locations", JsVal.obj [("r1", sampleReport)])]).field
        "locations") = [sampleReport] := rfl
    rw [hvals, List.mem_singleton] at hr
    subst hr
    rfl
  obtain ⟨states, h0, hend, hstep⟩ :=
    proximity_pass_alerts_exactly_within_radius_outside_cooldown exactOps exampleRuntime
      allDelivered 1704067230000 sampleElephants ⟨[sampleSubscriber], JsMap.empty, []⟩ h1 h2 h3
  have hpair := (hstep 0 0 (by decide) (by decide)).1
    ⟨JsVal.num (21 / 2), JsVal.num (305 / 4), JsVal.str "2024-01-01T00:00:00Z",
      JsVal.str "routine_update"⟩
    (by rfl) (by with_unfolding_all rfl) (by with_unfolding_all rfl)
    (by
      show isInCooldown exampleRuntime (states 0).alertCooldowns _ _ _ = false
      rw [h0]
      rfl)
  have hlen : (objectEntries sampleElephants).length = 1 := rfl
  have hidx : 0 * (objectEntries sampleElephants).length + 0 + 1 =
      ([sampleSubscriber] : List Subscriber).length * (objectEntries sampleElephants).length := by
    rw [hlen]; rfl
  have hidx0 : 0 * (objectEntries sampleElephants).length + 0 = 0 := by rw [hlen]
  rw [hidx, hidx0, hend, h0] at hpair
  refine ⟨h1, h2, h3, ?_, ?_⟩
  · rw [hpair.1]
    with_unfolding_all rfl
  · rw [hpair.2.1]
    rfl

/-! ## Reports at latitude 0 -/

theorem considerReport_equator (rt : Builtins) (acc : Latest) (lng timestamp : JsVal) :
    considerReport rt acc (equatorReport lng timestamp) = acc ∧
      considerReport rt acc (equatorReportShort lng timestamp) = acc := by
  constructor <;>
    simp [considerReport, equatorReport, equatorReportShort, JsVal.field, JsVal.or, JsVal.truthy,
      List.lookup]

theorem getLatestLocation_equator (rt : Builtins) (lng timestamp : JsVal) :
    getLatestLocation rt (JsVal.obj [("r1", equatorReport lng timestamp)]) = Except.ok none ∧
      getLatestLocation rt (JsVal.obj [("r1", equatorReportShort lng timestamp)]) =
        Except.ok none := by
  have hp1 : payloadOf (equatorReport lng timestamp) = equatorReport lng timestamp := by
    simp [payloadOf, equatorReport, JsVal.field, JsVal.truthy, List.lookup]
  have hp2 : payloadOf (equatorReportShort lng timestamp) = equatorReportShort lng timestamp := by
    simp [payloadOf, equatorReportShort, JsVal.field, JsVal.truthy, List.lookup]
  have hn1 : (equatorReport lng timestamp).nullish = false := rfl
  have hn2 : (equatorReportShort lng timestamp).nullish = false := rfl
  constructor
  · simp [getLatestLocation, JsVal.truthy, objectValues, objectEntries, latestLoop,
      unwrapReport_of_not_nullish hn1, hp1, (considerReport_equator rt _ lng timestamp).1]
  · simp [getLatestLocation, JsVal.truthy, objectValues, objectEntries, latestLoop,
      unwrapReport_of_not_nullish hn2, hp2, (considerReport_equator rt _ lng timestamp).2]

theorem checkProximityAndAlert_unresolved {F : Type} (ops : FloatOps F) (rt : Builtins)
    (webPush : Subscriber → String → PushOutcome) (now : Int) (subscriber : Subscriber)
    (alertCooldowns : JsMap Int) (pushes : List (PushAttempt F)) (report : JsVal)
    (h : getLatestLocation rt (JsVal.obj [("r1", report)]) = Except.ok none) :
    checkProximityAndAlert ops rt webPush now (some (oneElephant report))
      ⟨[subscriber], alertCooldowns, pushes⟩ = ⟨[subscriber], alertCooldowns, pushes⟩ := by
  have hce : ∀ st : ServerState F,
      checkElephant ops rt webPush now subscriber (userIdOf subscriber) st "elephant1"
        (JsVal.obj [("locations", JsVal.obj [("r1", report)])]) = Except.ok st := by
    intro st
    have hf : (JsVal.obj [("locations", JsVal.obj [("r1", report)])]).field "locations" =
        JsVal.obj [("r1", report)] := rfl
    simp [checkElephant, getProp, JsVal.nullish, hf, h, JsVal.truthy]
  have htr : (oneElephant report).truthy = true := rfl
  have hent : objectEntries (oneElephant report) =
      [("elephant1", JsVal.obj [("locations", JsVal.obj [("r1", report)])])] := rfl
  by_cases hloc : subscriber.location.truthy = true
  · simp [checkProximityAndAlert, htr, hent, subscriberLoop, hloc, elephantLoop, hce]
  · simp [checkProximityAndAlert, htr, subscriberLoop, hloc]

/-- C2 (the code departs from the claim).  The example of the claim: a subscriber, for instance
at (0, 0), and one elephant whose report is at latitude 0 and longitude 0.01.  The report is
dropped by the resolver because its latitude 0 is falsy, so a pass sends no alert and changes
nothing, whatever the time, the cooldown store and the distance are: the first pass sends no
alert at all. -/
theorem proximity_example_on_equator_sends_no_alert {F : Type} (ops : FloatOps F)
    (rt : Builtins) (webPush : Subscriber → String → PushOutcome) (now : Int)
    (subscriber : Subscriber) (alertCooldowns : JsMap Int) (timestamp : JsVal) :
    checkProximityAndAlert ops rt webPush now
        (some (oneElephant (equatorReport (JsVal.num (1 / 100)) timestamp)))
        ⟨[subscriber], alertCooldowns, []⟩ = ⟨[subscriber], alertCooldowns, []⟩ ∧
      checkProximityAndAlert ops rt webPush now
        (some (oneElephant (equatorReportShort (JsVal.num (1 / 100)) timestamp)))
        ⟨[subscriber], alertCooldowns, []⟩ = ⟨[subscriber], alertCooldowns, []⟩ :=
  ⟨checkProximityAndAlert_unresolved ops rt webPush now subscriber alertCooldowns [] _
      (getLatestLocation_equator rt _ timestamp).1,
    checkProximityAndAlert_unresolved ops rt webPush now subscriber alertCooldowns [] _
      (getLatestLocation_equator rt _ timestamp).2⟩

/-! ## Cooldown keys of subscribers without contact data -/

theorem checkElephant_resolved {F : Type} (ops : FloatOps F) (rt : Builtins)
    (webPush : Subscriber → String → PushOutcome) (now : Int) (subscriber : Subscriber)
    (userId : JsVal) (st : ServerState F) (report : JsVal) (loc : LatestLocation)
    (h : getLatestLocation rt (JsVal.obj [("r1", report)]) = Except.ok (some loc))
    (hle : ops.le (calculateDistance ops (subscriber.location.field "latitude")
      (subscriber.location.field "longitude") loc.latitude loc.longitude) (ops.lit 5) = true) :
    checkElephant ops rt webPush now subscriber userId st "elephant1"
        (JsVal.obj [("locations", JsVal.obj [("r1", report)])]) =
      if isInCooldown rt st.alertCooldowns now userId "elephant1" then Except.ok st
      else
        if (sendPushToSubscriber webPush st subscriber "elephant1"
            (calculateDistance ops (subscriber.location.field "latitude")
              (subscriber.location.field "longitude") loc.latitude loc.longitude)).1 then
          Except.ok
            { (sendPushToSubscriber webPush st subscriber "elephant1"
                (calculateDistance ops (subscriber.location.field "latitude")
                  (subscriber.location.field "longitude") loc.latitude loc.longitude)).2 with
              alertCooldowns := setCooldown rt
                (sendPushToSubscriber webPush st subscriber "elephant1"
                  (calculateDistance ops (subscriber.location.field "latitude")
                    (subscriber.location.field "longitude") loc.latitude
                    loc.longitude)).2.alertCooldowns now userId "elephant1" }
        else
          Except.ok (sendPushToSubscriber webPush st subscriber "elephant1"
            (calculateDistance ops (subscriber.location.field "latitude")
              (subscriber.location.field "longitude") loc.latitude loc.longitude)).2 := by
  have hf : (JsVal.obj [("locations", JsVal.obj [("r1", report)])]).field "locations" =
      JsVal.obj [("r1", report)] := rfl
  simp [checkElephant, getProp, JsVal.nullish, hf, h, JsVal.truthy, hle]

theorem userIdOf_without_contact (s : Subscriber) (h : s.userInfo = JsVal.obj []) :
    userIdOf s = JsVal.str "unknown" := by
  simp [userIdOf, h, JsVal.optField, JsVal.nullish, JsVal.field, JsVal.or, JsVal.truthy]

theorem isInCooldown_after_set (rt : Builtins) (m : JsMap Int) (now : Int) (userId : JsVal)
    (elephantId : String) (hnow : now ≠ 0) :
    isInCooldown rt (setCooldown rt m now userId elephantId) now userId elephantId = true := by
  simp [isInCooldown, setCooldown, JsMap.set, hnow]

theorem isInCooldown_empty (rt : Builtins) (now : Int) (userId : JsVal) (elephantId : String) :
    isInCooldown rt JsMap.empty now userId elephantId = false := by
  simp [isInCooldown, JsMap.empty]

/-- C3 (the code departs from the claim).  Two distinct subscribers who gave neither phone nor
email both get the user id `'unknown'` and so share one cooldown key per elephant.  When both
are within 5 km of the same elephant, the cooldown store is empty and every delivery succeeds,
one pass alerts the first of them only: setting the cooldown for the first puts the second in
cooldown. -/
theorem cooldown_shared_by_subscribers_without_contact {F : Type} (ops : FloatOps F)
    (rt : Builtins) (webPush : Subscriber → String → PushOutcome) (now : Int)
    (s1 s2 : Subscriber) (report : JsVal) (loc : LatestLocation)
    (hpush : ∀ s e, webPush s e = PushOutcome.delivered)
    (hnow : now ≠ 0)
    (hu1 : s1.userInfo = JsVal.obj []) (hu2 : s2.userInfo = JsVal.obj [])
    (hloc1 : s1.location.truthy = true) (hloc2 : s2.location.truthy = true)
    (hres : getLatestLocation rt (JsVal.obj [("r1", report)]) = Except.ok (some loc))
    (hd1 : ops.le (calculateDistance ops (s1.location.field "latitude")
      (s1.location.field "longitude") loc.latitude loc.longitude) (ops.lit 5) = true)
    (hd2 : ops.le (calculateDistance ops (s2.location.field "latitude")
      (s2.location.field "longitude") loc.latitude loc.longitude) (ops.lit 5) = true) :
    (checkProximityAndAlert ops rt webPush now (some (oneElephant report))
        ⟨[s1, s2], JsMap.empty, []⟩).pushes =
      [⟨s1, "elephant1", calculateDistance ops (s1.location.field "latitude")
        (s1.location.field "longitude") loc.latitude loc.longitude, PushOutcome.delivered⟩] ∧
    isInCooldown rt (setCooldown rt JsMap.empty now (userIdOf s1) "elephant1") now
      (userIdOf s2) "elephant1" = true := by
  have htr : (oneElephant report).truthy = true := rfl
  have hent : objectEntries (oneElephant report) =
      [("elephant1", JsVal.obj [("locations", JsVal.obj [("r1", report)])])] := rfl
  have hid1 := userIdOf_without_contact s1 hu1
  have hid2 := userIdOf_without_contact s2 hu2
  have hcd := isInCooldown_after_set rt JsMap.empty now (JsVal.str "unknown") "elephant1" hnow
  refine ⟨?_, ?_⟩
  · simp [checkProximityAndAlert, htr, hent, subscriberLoop, hloc1, hloc2, elephantLoop,
      checkElephant_resolved ops rt webPush now _ _ _ report loc hres, hd1, hd2, hid1, hid2,
      isInCooldown_empty, sendPush_delivered _ _ _ _ _ (hpush _ _), hcd]
  · rw [hid1, hid2]
    exact hcd

/-- Witness of C3: two subscribers without contact data at the place of the elephant. -/
theorem cooldown_shared_by_subscribers_without_contact_witness :
    (checkProximityAndAlert exactOps exampleRuntime allDelivered 1704067230000
        (some (oneElephant sampleReport))
        ⟨[anonymousSubscriber 1, anonymousSubscriber 2], JsMap.empty, []⟩).pushes =
      [⟨anonymousSubscriber 1, "elephant1",
        calculateDistance exactOps ((anonymousSubscriber 1).location.field "latitude")
          ((anonymousSubscriber 1).location.field "longitude") (JsVal.num (21 / 2))
          (JsVal.num (305 / 4)), PushOutcome.delivered⟩] ∧
    isInCooldown exampleRuntime
      (setCooldown exampleRuntime JsMap.empty 1704067230000 (userIdOf (anonymousSubscriber 1))
        "elephant1") 1704067230000 (userIdOf (anonymousSubscriber 2)) "elephant1" = true :=
  cooldown_shared_by_subscribers_without_contact exactOps exampleRuntime allDelivered
    1704067230000 (anonymousSubscriber 1) (anonymousSubscriber 2) sampleReport
    ⟨JsVal.num (21 / 2), JsVal.num (305 / 4), JsVal.str "2024-01-01T00:00:00Z",
      JsVal.str "routine_update"⟩
    (fun _ _ => rfl) (by decide) rfl rfl rfl rfl (by with_unfolding_all rfl)
    (by with_unfolding_all rfl) (by with_unfolding_all rfl)

/-- What the cooldown does keep apart: setting the cooldown of one key leaves `isInCooldown`
unchanged for every pair with another key. -/
theorem isInCooldown_setCooldown_other_key (rt : Builtins) (m : JsMap Int) (now now1 : Int)
    (userId userId1 : JsVal) (elephantId elephantId1 : String)
    (hkey : cooldownKey rt userId1 elephantId1 ≠ cooldownKey rt userId elephantId) :
    isInCooldown rt (setCooldown rt m now userId elephantId) now1 userId1 elephantId1 =
      isInCooldown rt m now1 userId1 elephantId1 := by
  simp [isInCooldown, setCooldown, JsMap.set, hkey]

/-- The cooldown window for one subscriber and one elephant that resolves to a latest location
within 5 km, from an empty cooldown store, every delivery succeeding: the pass at time `t0`
sends one alert; a pass at a time `t` with `t - t0 < 300000` changes nothing, so that any
number of such passes sends no alert; a pass at a time `t` with `t - t0 >= 300000` sends one
alert again. -/
theorem cooldown_window_for_resolved_elephant {F : Type} (ops : FloatOps F) (rt : Builtins)
    (webPush : Subscriber → String → PushOutcome) (t0 t : Int) (s : Subscriber)
    (report : JsVal) (loc : LatestLocation)
    (hpush : ∀ s e, webPush s e = PushOutcome.delivered)
    (ht0 : t0 ≠ 0)
    (hloc : s.location.truthy = true)
    (hres : getLatestLocation rt (JsVal.obj [("r1", report)]) = Except.ok (some loc))
    (hd : ops.le (calculateDistance ops (s.location.field "latitude")
      (s.location.field "longitude") loc.latitude loc.longitude) (ops.lit 5) = true) :
    (checkProximityAndAlert ops rt webPush t0 (some (oneElephant report))
        ⟨[s], JsMap.empty, []⟩).pushes =
      [⟨s, "elephant1", calculateDistance ops (s.location.field "latitude")
        (s.location.field "longitude") loc.latitude loc.longitude, PushOutcome.delivered⟩] ∧
    (t - t0 < 300000 →
      checkProximityAndAlert ops rt webPush t (some (oneElephant report))
          (checkProximityAndAlert ops rt webPush t0 (some (oneElephant report))
            ⟨[s], JsMap.empty, []⟩) =
        checkProximityAndAlert ops rt webPush t0 (some (oneElephant report))
          ⟨[s], JsMap.empty, []⟩) ∧
    (300000 ≤ t - t0 →
      (checkProximityAndAlert ops rt webPush t (some (oneElephant report))
          (checkProximityAndAlert ops rt webPush t0 (some (oneElephant report))
            ⟨[s], JsMap.empty, []⟩)).pushes =
        [⟨s, "elephant1", calculateDistance ops (s.location.field "latitude")
            (s.location.field "longitude") loc.latitude loc.longitude, PushOutcome.delivered⟩,
          ⟨s, "elephant1", calculateDistance ops (s.location.field "latitude")
            (s.location.field "longitude") loc.latitude loc.longitude,
            PushOutcome.delivered⟩]) := by
  have htr : (oneElephant report).truthy = true := rfl
  have hent : objectEntries (oneElephant report) =
      [("elephant1", JsVal.obj [("locations", JsVal.obj [("r1", report)])])] := rfl
  have hfirst : checkProximityAndAlert ops rt webPush t0 (some (oneElephant report))
      ⟨[s], JsMap.empty, []⟩ =
      ⟨[s], setCooldown rt JsMap.empty t0 (userIdOf s) "elephant1",
        [⟨s, "elephant1", calculateDistance ops (s.location.field "latitude")
          (s.location.field "longitude") loc.latitude loc.longitude,
          PushOutcome.delivered⟩]⟩ := by
    simp [checkProximityAndAlert, htr, hent, subscriberLoop, hloc, elephantLoop,
      checkElephant_resolved ops rt webPush t0 _ _ _ report loc hres, hd,
      isInCooldown_empty, sendPush_delivered _ _ _ _ _ (hpush _ _)]
  rw [hfirst]
  refine ⟨rfl, ?_, ?_⟩
  · intro hlt
    have hcd : isInCooldown rt (setCooldown rt JsMap.empty t0 (userIdOf s) "elephant1") t
        (userIdOf s) "elephant1" = true := by
      simp [isInCooldown, setCooldown, JsMap.set, ht0, hlt]
    simp [checkProximityAndAlert, htr, hent, subscriberLoop, hloc, elephantLoop,
      checkElephant_resolved ops rt webPush t _ _ _ report loc hres, hd, hcd]
  · intro hge
    have hcd : isInCooldown rt (setCooldown rt JsMap.empty t0 (userIdOf s) "elephant1") t
        (userIdOf s) "elephant1" = false := by
      have : ¬ t - t0 < 300000 := by omega
      simp [isInCooldown, setCooldown, JsMap.set, ht0, this]
    simp [checkProximityAndAlert, htr, hent, subscriberLoop, hloc, elephantLoop,
      checkElephant_resolved ops rt webPush t _ _ _ report loc hres, hd, hcd,
      sendPush_delivered _ _ _ _ _ (hpush _ _)]

/-! ## Removal of a subscriber during the pass -/

/-- C4 (the code departs from the claim).  Two subscribers, both with a location within 5 km of
the one elephant, empty cooldown store.  The delivery to the first fails with status code 410,
so `sendPushToSubscriber` removes it from `subscribers` while the loop over `subscribers` runs;
the second moves to index 0, the iterator goes on to index 1 and the loop ends.  The pass makes
the one attempt for the first subscriber and none for the second, which stays subscribed. -/
theorem removal_during_pass_skips_next_subscriber {F : Type} (ops : FloatOps F)
    (rt : Builtins) (webPush : Subscriber → String → PushOutcome) (now : Int)
    (s1 s2 : Subscriber) (report : JsVal) (loc : LatestLocation)
    (hgone : webPush s1 "elephant1" = PushOutcome.gone)
    (href : s1.ref ≠ s2.ref)
    (hloc1 : s1.location.truthy = true) (_hloc2 : s2.location.truthy = true)
    (hres : getLatestLocation rt (JsVal.obj [("r1", report)]) = Except.ok (some loc))
    (hd1 : ops.le (calculateDistance ops (s1.location.field "latitude")
      (s1.location.field "longitude") loc.latitude loc.longitude) (ops.lit 5) = true)
    (_hd2 : ops.le (calculateDistance ops (s2.location.field "latitude")
      (s2.location.field "longitude") loc.latitude loc.longitude) (ops.lit 5) = true) :
    isInCooldown rt JsMap.empty now (userIdOf s2) "elephant1" = false ∧
    (checkProximityAndAlert ops rt webPush now (some (oneElephant report))
        ⟨[s1, s2], JsMap.empty, []⟩).pushes =
      [⟨s1, "elephant1", calculateDistance ops (s1.location.field "latitude")
        (s1.location.field "longitude") loc.latitude loc.longitude, PushOutcome.gone⟩] ∧
    (checkProximityAndAlert ops rt webPush now (some (oneElephant report))
        ⟨[s1, s2], JsMap.empty, []⟩).subscribers = [s2] := by
  have htr : (oneElephant report).truthy = true := rfl
  have hent : objectEntries (oneElephant report) =
      [("elephant1", JsVal.obj [("locations", JsVal.obj [("r1", report)])])] := rfl
  have hsend : ∀ d : F, sendPushToSubscriber webPush ⟨[s1, s2], JsMap.empty, []⟩ s1 "elephant1" d =
      (false, ⟨[s2], JsMap.empty, [⟨s1, "elephant1", d, PushOutcome.gone⟩]⟩) := by
    intro d
    have hne : (s2.ref == s1.ref) = false := by
      simpa using fun h : s2.ref = s1.ref => href h.symm
    simp [sendPushToSubscriber, hgone, List.eraseP_cons, hne]
  refine ⟨isInCooldown_empty rt now _ _, ?_, ?_⟩
  · simp [checkProximityAndAlert, htr, hent, subscriberLoop, hloc1, elephantLoop,
      checkElephant_resolved ops rt webPush now _ _ _ report loc hres, hd1,
      isInCooldown_empty, hsend]
  · simp [checkProximityAndAlert, htr, hent, subscriberLoop, hloc1, elephantLoop,
      checkElephant_resolved ops rt webPush now _ _ _ report loc hres, hd1,
      isInCooldown_empty, hsend]

/-- Witness of C4: two subscribers at the place of the elephant, the first one gone. -/
theorem removal_during_pass_skips_next_subscriber_witness :
    isInCooldown exampleRuntime JsMap.empty 1704067230000 (userIdOf sampleSubscriber)
      "elephant1" = false ∧
    (checkProximityAndAlert exactOps exampleRuntime firstGone 1704067230000
        (some (oneElephant sampleReport))
        ⟨[anonymousSubscriber 1, sampleSubscriber], JsMap.empty, []⟩).pushes =
      [⟨anonymousSubscriber 1, "elephant1",
        calculateDistance exactOps ((anonymousSubscriber 1).location.field "latitude")
          ((anonymousSubscriber 1).location.field "longitude") (JsVal.num (21 / 2))
          (JsVal.num (305 / 4)), PushOutcome.gone⟩] ∧
    (checkProximityAndAlert exactOps exampleRuntime firstGone 1704067230000
        (some (oneElephant sampleReport))
        ⟨[anonymousSubscriber 1, sampleSubscriber], JsMap.empty, []⟩).subscribers =
      [sampleSubscriber] :=
  removal_during_pass_skips_next_subscriber exactOps exampleRuntime firstGone
    1704067230000 (anonymousSubscriber 1) sampleSubscriber sampleReport
    ⟨JsVal.num (21 / 2), JsVal.num (305 / 4), JsVal.str "2024-01-01T00:00:00Z",
      JsVal.str "routine_update"⟩
    rfl (by decide) rfl rfl (by with_unfolding_all rfl)
    (by with_unfolding_all rfl) (by with_unfolding_all rfl)

/-! ## Geofence engine -/

theorem geofenceCheck_alerts {F : Type} (ops : FloatOps F) (st : DashboardState F)
    (elephantKey : String) (geofence : JsVal) (latestLocation : LatLng F)
    (polygon : List (F × F)) :
    (geofenceCheck ops st elephantKey geofence latestLocation polygon).alerts =
      st.alerts ++
        (geofenceKinds (st.geofenceBreaches (elephantKey ++ "_breach"))
          (isPointInPolygon ops latestLocation polygon)).map
          (fun kind => ⟨elephantKey, kind, geofence, latestLocation⟩) := by
  cases hprev : st.geofenceBreaches (elephantKey ++ "_breach") with
  | none =>
    cases hin : isPointInPolygon ops latestLocation polygon <;>
      simp [geofenceCheck, hprev, hin, geofenceKinds]
  | some b =>
    cases b <;> cases hin : isPointInPolygon ops latestLocation polygon <;>
      simp [geofenceCheck, hprev, hin, geofenceKinds]

theorem geofenceCheck_state {F : Type} (ops : FloatOps F) (st : DashboardState F)
    (elephantKey : String) (geofence : JsVal) (latestLocation : LatLng F)
    (polygon : List (F × F)) :
    (geofenceCheck ops st elephantKey geofence latestLocation polygon).geofenceBreaches
        (elephantKey ++ "_breach") = some (isPointInPolygon ops latestLocation polygon) := by
  cases hprev : st.geofenceBreaches (elephantKey ++ "_breach") with
  | none =>
    cases hin : isPointInPolygon ops latestLocation polygon <;>
      simp [geofenceCheck, hprev, hin, JsMap.set]
  | some b =>
    cases b <;> cases hin : isPointInPolygon ops latestLocation polygon <;>
      simp [geofenceCheck, hprev, hin, JsMap.set]

/-- C5.  In one evaluation of an elephant with a geofence and a latest location, the alerts
emitted are a function `f` of the state recorded before and of the current `isInside` only:
recorded inside and now outside gives exactly one `breach`; recorded outside and now inside
gives exactly one `return`; inside and inside, outside and outside, and nothing recorded and
now inside give no alert.  The alerts carry the key, geofence and location of the elephant. -/
theorem geofence_alert_is_function_of_previous_state_and_inside :
    ∃ f : Option Bool → Bool → List String,
      f (some true) false = ["breach"] ∧
      f (some false) true = ["return"] ∧
      f (some true) true = [] ∧
      f (some false) false = [] ∧
      f none true = [] ∧
      ∀ {F : Type} (ops : FloatOps F) (st : DashboardState F) (elephantKey : String)
        (geofence : JsVal) (latestLocation : LatLng F) (polygon : List (F × F)),
        (geofenceCheck ops st elephantKey geofence latestLocation polygon).alerts =
          st.alerts ++
            (f (st.geofenceBreaches (elephantKey ++ "_breach"))
              (isPointInPolygon ops latestLocation polygon)).map
              (fun kind => ⟨elephantKey, kind, geofence, latestLocation⟩) :=
  ⟨geofenceKinds, rfl, rfl, rfl, rfl, rfl,
    fun ops st elephantKey geofence latestLocation polygon =>
      geofenceCheck_alerts ops st elephantKey geofence latestLocation polygon⟩

/-- C6.  When no state is recorded for an elephant: if its latest location is outside the
polygon, the evaluation records `false` (outside) and emits exactly one `breach` alert with the
key and the location of the elephant; if it is inside, the evaluation records `true` (inside)
and emits nothing. -/
theorem geofence_first_observation {F : Type} (ops : FloatOps F) (st : DashboardState F)
    (elephantKey : String) (geofence : JsVal) (latestLocation : LatLng F)
    (polygon : List (F × F))
    (hfirst : st.geofenceBreaches (elephantKey ++ "_breach") = none) :
    (isPointInPolygon ops latestLocation polygon = false →
      (geofenceCheck ops st elephantKey geofence latestLocation polygon).geofenceBreaches
          (elephantKey ++ "_breach") = some false ∧
        (geofenceCheck ops st elephantKey geofence latestLocation polygon).alerts =
          st.alerts ++ [⟨elephantKey, "breach", geofence, latestLocation⟩]) ∧
    (isPointInPolygon ops latestLocation polygon = true →
      (geofenceCheck ops st elephantKey geofence latestLocation polygon).geofenceBreaches
          (elephantKey ++ "_breach") = some true ∧
        (geofenceCheck ops st elephantKey geofence latestLocation polygon).alerts =
          st.alerts) := by
  constructor
  · intro hin
    refine ⟨?_, ?_⟩
    · rw [geofenceCheck_state, hin]
    · rw [geofenceCheck_alerts, hfirst, hin]
      rfl
  · intro hin
    refine ⟨?_, ?_⟩
    · rw [geofenceCheck_state, hin]
    · rw [geofenceCheck_alerts, hfirst, hin]
      simp [geofenceKinds]

/-- Witness of C6: the unit square, first observation at (2, 2) and first observation at
(0.5, 0.5). -/
theorem geofence_first_observation_witness :
    (⟨JsMap.empty, []⟩ : DashboardState (Option ℚ)).geofenceBreaches ("elephant1" ++ "_breach") =
      none ∧
    isPointInPolygon exactOps pointOutside unitSquare = false ∧
    ((geofenceCheck exactOps ⟨JsMap.empty, []⟩ "elephant1" sampleGeofence pointOutside
        unitSquare).geofenceBreaches ("elephant1" ++ "_breach") = some false ∧
      (geofenceCheck exactOps ⟨JsMap.empty, []⟩ "elephant1" sampleGeofence pointOutside
        unitSquare).alerts = [] ++ [⟨"elephant1", "breach", sampleGeofence, pointOutside⟩]) ∧
    isPointInPolygon exactOps pointInside unitSquare = true ∧
    ((geofenceCheck exactOps ⟨JsMap.empty, []⟩ "elephant1" sampleGeofence pointInside
        unitSquare).geofenceBreaches ("elephant1" ++ "_breach") = some true ∧
      (geofenceCheck exactOps ⟨JsMap.empty, []⟩ "elephant1" sampleGeofence pointInside
        unitSquare).alerts = []) :=
  ⟨rfl, by with_unfolding_all rfl,
    (geofence_first_observation exactOps ⟨JsMap.empty, []⟩ "elephant1" sampleGeofence
      pointOutside unitSquare rfl).1 (by with_unfolding_all rfl),
    by with_unfolding_all rfl,
    (geofence_first_observation exactOps ⟨JsMap.empty, []⟩ "elephant1" sampleGeofence
      pointInside unitSquare rfl).2 (by with_unfolding_all rfl)⟩

theorem geofenceRun_append {F : Type} (ops : FloatOps F) (elephantKey : String)
    (geofence : JsVal) (st : DashboardState F) (l1 l2 : List (LatLng F × List (F × F))) :
    geofenceRun ops elephantKey geofence st (l1 ++ l2) =
      geofenceRun ops elephantKey geofence (geofenceRun ops elephantKey geofence st l1) l2 := by
  induction l1 generalizing st with
  | nil => rfl
  | cons o rest ih =>
    show geofenceRun ops elephantKey geofence
      (geofenceCheck ops st elephantKey geofence o.1 o.2) (rest ++ l2) = _
    rw [ih]
    rfl

theorem geofenceRun_take_succ {F : Type} (ops : FloatOps F) (elephantKey : String)
    (geofence : JsVal) (st : DashboardState F) (obs : List (LatLng F × List (F × F)))
    (k : Nat) (hk : k < obs.length) :
    geofenceRun ops elephantKey geofence st (obs.take (k + 1)) =
      geofenceCheck ops (geofenceRun ops elephantKey geofence st (obs.take k)) elephantKey
        geofence obs[k].1 obs[k].2 := by
  rw [List.take_succ, List.getElem?_eq_getElem hk, geofenceRun_append]
  rfl

theorem geofenceRun_state_before {F : Type} (ops : FloatOps F) (elephantKey : String)
    (geofence : JsVal) (st : DashboardState F) (obs : List (LatLng F × List (F × F)))
    (hfirst : st.geofenceBreaches (elephantKey ++ "_breach") = none)
    (k : Nat) (hk : k ≤ obs.length) :
    (geofenceRun ops elephantKey geofence st (obs.take k)).geofenceBreaches
        (elephantKey ++ "_breach") =
      if k = 0 then none
      else (obs[k - 1]?).map (fun o => isPointInPolygon ops o.1 o.2) := by
  cases k with
  | zero => simpa [geofenceRun] using hfirst
  | succ k =>
    have hk1 : k < obs.length := hk
    rw [geofenceRun_take_succ ops elephantKey geofence st obs k hk1, geofenceCheck_state]
    simp [List.getElem?_eq_getElem hk1]

theorem geofenceKinds_at (k : Nat) (p : Option Bool) (cur : Bool)
    (hp : k ≠ 0 → ∃ b, p = some b) :
    geofenceKinds (if k = 0 then none else p) cur =
      if cur = false ∧ (k = 0 ∨ p = some true) then ["breach"]
      else if cur = true ∧ k ≠ 0 ∧ p = some false then ["return"]
      else [] := by
  by_cases hk : k = 0
  · cases cur <;> simp [hk, geofenceKinds]
  · obtain ⟨b, hb⟩ := hp hk
    subst hb
    cases b <;> cases cur <;> simp [hk, geofenceKinds]

theorem alternatesFromBreach_snoc (l : List String) (x : String)
    (hl : AlternatesFromBreach l)
    (hx : x = if l.length % 2 = 0 then "breach" else "return") :
    AlternatesFromBreach (l ++ [x]) := by
  intro n hn
  by_cases hlt : n < l.length
  · rw [List.getElem_append_left hlt]
    exact hl n hlt
  · have hn1 : n = l.length := by
      simp only [List.length_append, List.length_singleton] at hn
      omega
    subst hn1
    simp [hx]

theorem geofenceRun_alternates_aux {F : Type} (ops : FloatOps F) (elephantKey : String)
    (geofence : JsVal) (base : List (GeofenceAlert F))
    (obs : List (LatLng F × List (F × F))) :
    ∀ (st : DashboardState F) (em : List (GeofenceAlert F)),
      st.alerts = base ++ em →
      AlternatesFromBreach (em.map (fun a => a.alertType)) →
      (em.length % 2 = 1 ↔ st.geofenceBreaches (elephantKey ++ "_breach") = some false) →
      ∃ em1, (geofenceRun ops elephantKey geofence st obs).alerts = base ++ em1 ∧
        AlternatesFromBreach (em1.map (fun a => a.alertType)) := by
  induction obs with
  | nil =>
    intro st em hal halt _
    exact ⟨em, hal, halt⟩
  | cons o rest ih =>
    intro st em hal halt hpar
    have ha := geofenceCheck_alerts ops st elephantKey geofence o.1 o.2
    have hs := geofenceCheck_state ops st elephantKey geofence o.1 o.2
    show ∃ em1, (geofenceRun ops elephantKey geofence
      (geofenceCheck ops st elephantKey geofence o.1 o.2) rest).alerts = base ++ em1 ∧ _
    cases hprev : st.geofenceBreaches (elephantKey ++ "_breach") with
    | none =>
      have heven : em.length % 2 = 0 := by
        have : ¬ em.length % 2 = 1 := fun h => by simpa [hprev] using hpar.mp h
        omega
      cases hin : isPointInPolygon ops o.1 o.2 with
      | false =>
        rw [hprev, hin] at ha
        rw [hin] at hs
        refine ih _ (em ++ [⟨elephantKey, "breach", geofence, o.1⟩]) ?_ ?_ ?_
        · rw [ha, hal]; simp [geofenceKinds]
        · rw [List.map_append]
          exact alternatesFromBreach_snoc _ _ halt (by simp [heven])
        · simp only [List.length_append, List.length_singleton, hs]
          constructor
          · intro _; trivial
          · intro _; omega
      | true =>
        rw [hprev, hin] at ha
        rw [hin] at hs
        refine ih _ em ?_ halt ?_
        · rw [ha, hal]; simp [geofenceKinds]
        · rw [hs]
          constructor
          · intro h; omega
          · intro h; simp at h
    | some b =>
      cases b with
      | true =>
        have heven : em.length % 2 = 0 := by
          have : ¬ em.length % 2 = 1 := fun h => by simpa [hprev] using hpar.mp h
          omega
        cases hin : isPointInPolygon ops o.1 o.2 with
        | false =>
          rw [hprev, hin] at ha
          rw [hin] at hs
          refine ih _ (em ++ [⟨elephantKey, "breach", geofence, o.1⟩]) ?_ ?_ ?_
          · rw [ha, hal]; simp [geofenceKinds]
          · rw [List.map_append]
            exact alternatesFromBreach_snoc _ _ halt (by simp [heven])
          · simp only [List.length_append, List.length_singleton, hs]
            constructor
            · intro _; trivial
            · intro _; omega
        | true =>
          rw [hprev, hin] at ha
          rw [hin] at hs
          refine ih _ em ?_ halt ?_
          · rw [ha, hal]; simp [geofenceKinds]
          · rw [hs]
            constructor
            · intro h; omega
            · intro h; simp at h
      | false =>
        have hodd : em.length % 2 = 1 := hpar.mpr hprev
        cases hin : isPointInPolygon ops o.1 o.2 with
        | false =>
          rw [hprev, hin] at ha
          rw [hin] at hs
          refine ih _ em ?_ halt ?_
          · rw [ha, hal]; simp [geofenceKinds]
          · rw [hs]
            constructor
            · intro _; rfl
            · intro _; exact hodd
        | true =>
          rw [hprev, hin] at ha
          rw [hin] at hs
          refine ih _ (em ++ [⟨elephantKey, "return", geofence, o.1⟩]) ?_ ?_ ?_
          · rw [ha, hal]; simp [geofenceKinds]
          · rw [List.map_append]
            refine alternatesFromBreach_snoc _ _ halt ?_
            have hne : ¬ em.length % 2 = 0 := by omega
            simp [hne]
          · simp only [List.length_append, List.length_singleton, hs]
            constructor
            · intro h; omega
            · intro h; simp at h

/-- C7.  A finite sequence `obs` of observations of one elephant with a geofence, processed
one after the other from a state with nothing recorded for the elephant.  The observation
number `k` emits exactly one `breach` when it is outside and is the first one or follows an
inside observation, exactly one `return` when it is inside and follows an outside observation,
and nothing otherwise.  The kinds of the alerts emitted by the whole sequence are `breach`,
`return`, `breach`, ... in turn, and the state recorded at the end is that of the last
observation. -/
theorem geofence_sequence_alerts_alternate {F : Type} (ops : FloatOps F) (elephantKey : String)
    (geofence : JsVal) (st : DashboardState F) (obs : List (LatLng F × List (F × F)))
    (hfirst : st.geofenceBreaches (elephantKey ++ "_breach") = none) :
    (∀ (k : Nat) (hk : k < obs.length),
      (geofenceRun ops elephantKey geofence st (obs.take (k + 1))).alerts =
        (geofenceRun ops elephantKey geofence st (obs.take k)).alerts ++
          (if isPointInPolygon ops obs[k].1 obs[k].2 = false ∧
                (k = 0 ∨
                  (obs[k - 1]?).map (fun o => isPointInPolygon ops o.1 o.2) = some true) then
              ["breach"]
            else if isPointInPolygon ops obs[k].1 obs[k].2 = true ∧ k ≠ 0 ∧
                (obs[k - 1]?).map (fun o => isPointInPolygon ops o.1 o.2) = some false then
              ["return"]
            else []).map (fun kind => ⟨elephantKey, kind, geofence, obs[k].1⟩)) ∧
    AlternatesFromBreach
      (((geofenceRun ops elephantKey geofence st obs).alerts.drop st.alerts.length).map
        (fun a => a.alertType)) ∧
    (∀ last, obs.getLast? = some last →
      (geofenceRun ops elephantKey geofence st obs).geofenceBreaches (elephantKey ++ "_breach") =
        some (isPointInPolygon ops last.1 last.2)) := by
  refine ⟨?_, ?_, ?_⟩
  · intro k hk
    rw [geofenceRun_take_succ ops elephantKey geofence st obs k hk, geofenceCheck_alerts,
      geofenceRun_state_before ops elephantKey geofence st obs hfirst k (Nat.le_of_lt hk),
      geofenceKinds_at]
    intro hk0
    have hk1 : k - 1 < obs.length := by omega
    exact ⟨_, by rw [List.getElem?_eq_getElem hk1]; rfl⟩
  · obtain ⟨em1, hal, halt⟩ := geofenceRun_alternates_aux ops elephantKey geofence st.alerts obs
      st [] (by simp) (by intro n hn; simp at hn) (by simp [hfirst])
    rw [hal]
    simpa using halt
  · intro last hlast
    have hne : obs ≠ [] := by
      intro h
      simp [h] at hlast
    have hlen : 0 < obs.length := List.length_pos.mpr hne
    have htake : obs.take (obs.length - 1 + 1) = obs := by
      rw [Nat.sub_add_cancel hlen, List.take_length]
    have hstep := geofenceRun_take_succ ops elephantKey geofence st obs (obs.length - 1)
      (by omega)
    rw [htake] at hstep
    rw [hstep, geofenceCheck_state]
    have hl : obs[obs.length - 1] = last := by
      rw [List.getLast?_eq_getElem?, List.getElem?_eq_getElem (by omega)] at hlast
      exact Option.some.inj hlast
    rw [hl]

/-- Witness of C7: the observations outside, outside, inside of the unit square give `breach`,
nothing, `return` and end in the state inside. -/
theorem geofence_sequence_alerts_alternate_witness :
    (⟨JsMap.empty, []⟩ : DashboardState (Option ℚ)).geofenceBreaches ("elephant1" ++ "_breach") =
      none ∧
    (geofenceRun exactOps "elephant1" sampleGeofence ⟨JsMap.empty, []⟩
        (sampleObservations.take (0 + 1))).alerts =
      [⟨"elephant1", "breach", sampleGeofence, pointOutside⟩] ∧
    (geofenceRun exactOps "elephant1" sampleGeofence ⟨JsMap.empty, []⟩
        (sampleObservations.take (1 + 1))).alerts =
      [⟨"elephant1", "breach", sampleGeofence, pointOutside⟩] ∧
    (geofenceRun exactOps "elephant1" sampleGeofence ⟨JsMap.empty, []⟩
        (sampleObservations.take (2 + 1))).alerts =
      [⟨"elephant1", "breach", sampleGeofence, pointOutside⟩,
        ⟨"elephant1", "return", sampleGeofence, pointInside⟩] ∧
    (geofenceRun exactOps "elephant1" sampleGeofence ⟨JsMap.empty, []⟩
        sampleObservations).geofenceBreaches ("elephant1" ++ "_breach") = some true :=
  ⟨rfl,
    ((geofence_sequence_alerts_alternate exactOps "elephant1" sampleGeofence ⟨JsMap.empty, []⟩
      sampleObservations rfl).1 0 (by decide)).trans (by with_unfolding_all rfl),
    ((geofence_sequence_alerts_alternate exactOps "elephant1" sampleGeofence ⟨JsMap.empty, []⟩
      sampleObservations rfl).1 1 (by decide)).trans (by with_unfolding_all rfl),
    ((geofence_sequence_alerts_alternate exactOps "elephant1" sampleGeofence ⟨JsMap.empty, []⟩
      sampleObservations rfl).1 2 (by decide)).trans (by with_unfolding_all rfl),
    ((geofence_sequence_alerts_alternate exactOps "elephant1" sampleGeofence ⟨JsMap.empty, []⟩
      sampleObservations rfl).2.2 (pointInside, unitSquare) rfl).trans
      (by with_unfolding_all rfl)⟩

/-! ## Resolver: what the loop keeps -/

theorem considerReport_eq (rt : Builtins) (acc : Latest) (location : JsVal) :
    considerReport rt acc location =
      match validTime rt location with
      | some t => if t > acc.latestTimestamp then ⟨some (locationOf location), t⟩ else acc
      | none => acc := by
  unfold considerReport validTime locationOf
  by_cases hc : ((location.field "timestamp").truthy &&
      ((location.field "latitude").or (location.field "lat")).truthy &&
      ((location.field "longitude").or (location.field "lng")).truthy) = true
  · simp only [hc, if_true]
  · simp [hc]

theorem latestInv_step (rt : Builtins) (done : List JsVal) (acc : Latest) (r : JsVal)
    (h : LatestInv rt done acc) :
    LatestInv rt (done ++ [r]) (considerReport rt acc (payloadOf r)) := by
  obtain ⟨hb, hl⟩ := h
  have h0 : 0 ≤ acc.latestTimestamp := by
    cases hloc : acc.latestLocation with
    | none => rw [hloc] at hl; simp only at hl; omega
    | some loc => rw [hloc] at hl; simp only at hl; omega
  rw [considerReport_eq]
  cases hv : validTime rt (payloadOf r) with
  | none =>
    refine ⟨?_, ?_⟩
    · intro x hx t ht
      rcases List.mem_append.mp hx with hx | hx
      · exact hb x hx t ht
      · rw [List.mem_singleton] at hx
        subst hx
        rw [hv] at ht
        cases ht
    · show match acc.latestLocation with
        | none => acc.latestTimestamp = 0
        | some loc => _
      cases hloc : acc.latestLocation with
      | none => rw [hloc] at hl; exact hl
      | some loc =>
        rw [hloc] at hl
        obtain ⟨hpos, x, hx, hxt, hxl⟩ := hl
        exact ⟨hpos, x, List.mem_append_left _ hx, hxt, hxl⟩
  | some t =>
    by_cases hgt : t > acc.latestTimestamp
    · simp only [hgt, if_true]
      refine ⟨?_, ?_⟩
      · intro x hx t1 ht1
        rcases List.mem_append.mp hx with hx | hx
        · have := hb x hx t1 ht1
          show t1 ≤ t
          omega
        · rw [List.mem_singleton] at hx
          subst hx
          rw [hv] at ht1
          cases ht1
          exact le_refl _
      · show 0 < t ∧ ∃ x ∈ done ++ [r], validTime rt (payloadOf x) = some t ∧
          locationOf (payloadOf r) = locationOf (payloadOf x)
        exact ⟨by omega, r, List.mem_append_right _ (List.mem_singleton_self r), hv, rfl⟩
    · simp only [hgt, if_false]
      refine ⟨?_, ?_⟩
      · intro x hx t1 ht1
        rcases List.mem_append.mp hx with hx | hx
        · exact hb x hx t1 ht1
        · rw [List.mem_singleton] at hx
          subst hx
          rw [hv] at ht1
          cases ht1
          omega
      · show match acc.latestLocation with
          | none => acc.latestTimestamp = 0
          | some loc => _
        cases hloc : acc.latestLocation with
        | none => rw [hloc] at hl; exact hl
        | some loc =>
          rw [hloc] at hl
          obtain ⟨hpos, x, hx, hxt, hxl⟩ := hl
          exact ⟨hpos, x, List.mem_append_left _ hx, hxt, hxl⟩

theorem latestInv_foldl (rt : Builtins) (rest : List JsVal) :
    ∀ (done : List JsVal) (acc : Latest), LatestInv rt done acc →
      LatestInv rt (done ++ rest)
        (rest.foldl (fun a r => considerReport rt a (payloadOf r)) acc) := by
  induction rest with
  | nil => intro done acc h; simpa using h
  | cons r rest ih =>
    intro done acc h
    have := ih (done ++ [r]) _ (latestInv_step rt done acc r h)
    simpa using this

theorem latestInv_init (rt : Builtins) : LatestInv rt [] ⟨none, 0⟩ :=
  ⟨fun r hr => by simp at hr, rfl⟩

theorem latestLoop_ok_not_nullish (rt : Builtins) (vals : List JsVal) :
    ∀ (acc acc1 : Latest), latestLoop rt vals acc = Except.ok acc1 →
      ∀ r ∈ vals, r.nullish = false := by
  induction vals with
  | nil => intro _ _ _ r hr; simp at hr
  | cons x rest ih =>
    intro acc acc1 h r hr
    have hx : x.nullish = false := by
      cases hn : x.nullish with
      | false => rfl
      | true =>
        simp only [latestLoop, unwrapReport_of_nullish hn] at h
        cases h
    rcases List.mem_cons.mp hr with hr | hr
    · rw [hr]; exact hx
    · simp only [latestLoop, unwrapReport_of_not_nullish hx] at h
      exact ih _ _ h r hr

theorem getLatestLocation_inv (rt : Builtins) (locations : JsVal)
    (res : Option LatestLocation) (h : getLatestLocation rt locations = Except.ok res) :
    res = none ∨
      ((∀ r ∈ objectValues locations, r.nullish = false) ∧
        ∃ acc, LatestInv rt (objectValues locations) acc ∧ acc.latestLocation = res) := by
  unfold getLatestLocation at h
  split at h
  · left
    cases h
    rfl
  · right
    cases hloop : latestLoop rt (objectValues locations) ⟨none, 0⟩ with
    | error e => rw [hloop] at h; cases h
    | ok acc =>
      rw [hloop] at h
      have hnn := latestLoop_ok_not_nullish rt _ _ _ hloop
      rw [latestLoop_of_not_nullish rt _ _ hnn] at hloop
      have hinv := latestInv_foldl rt (objectValues locations) [] _ (latestInv_init rt)
      simp only [List.nil_append] at hinv
      refine ⟨hnn, acc, ?_, ?_⟩
      · have hacc : acc = _ := (Except.ok.inj hloop).symm
        rw [hacc]
        exact hinv
      · exact Except.ok.inj h

/-- What `getLatestLocation` does select: when the collection is truthy, no entry is `null`
and some entry passes the test `timestamp && lat && lng` with a timestamp that parses to a
positive number, the result is built from an entry whose parsed timestamp is greatest among
the entries that pass the test. -/
theorem getLatestLocation_greatest_valid (rt : Builtins) (locations : JsVal)
    (htr : locations.truthy = true)
    (hnn : ∀ r ∈ objectValues locations, r.nullish = false)
    (hsome : ∃ r ∈ objectValues locations, ∃ t, validTime rt (payloadOf r) = some t ∧ 0 < t) :
    ∃ r ∈ objectValues locations, ∃ t, validTime rt (payloadOf r) = some t ∧
      getLatestLocation rt locations = Except.ok (some (locationOf (payloadOf r))) ∧
      ∀ r1 ∈ objectValues locations, ∀ t1, validTime rt (payloadOf r1) = some t1 → t1 ≤ t := by
  have hinv := latestInv_foldl rt (objectValues locations) [] _ (latestInv_init rt)
  simp only [List.nil_append] at hinv
  have hget : getLatestLocation rt locations = Except.ok
      ((objectValues locations).foldl (fun a r => considerReport rt a (payloadOf r))
        ⟨none, 0⟩).latestLocation := by
    unfold getLatestLocation
    simp only [htr, Bool.not_true, Bool.false_eq_true, if_false,
      latestLoop_of_not_nullish rt _ _ hnn]
  obtain ⟨hb, hl⟩ := hinv
  obtain ⟨r0, hr0, t0, ht0, hpos⟩ := hsome
  have hle := hb r0 hr0 t0 ht0
  cases hloc : ((objectValues locations).foldl (fun a r => considerReport rt a (payloadOf r))
      ⟨none, 0⟩).latestLocation with
  | none =>
    rw [hloc] at hl
    simp only at hl
    omega
  | some loc =>
    rw [hloc] at hl
    obtain ⟨_, r, hr, hrt, hrl⟩ := hl
    exact ⟨r, hr, _, hrt, by rw [hget, hloc, hrl], hb⟩

/-- C8 (the code departs from the claim).  A collection with the one report at latitude 0,
which carries a latitude, a longitude and a timestamp: `getLatestLocation` returns `null`,
because the test `timestamp && lat && lng` takes the latitude 0 for a missing one. -/
theorem resolver_drops_report_at_latitude_zero (rt : Builtins) (lng timestamp : JsVal) :
    (equatorReport lng timestamp).field "latitude" = JsVal.num 0 ∧
    (equatorReport lng timestamp).field "longitude" = lng ∧
    (equatorReport lng timestamp).field "timestamp" = timestamp ∧
    getLatestLocation rt (JsVal.obj [("r1", equatorReport lng timestamp)]) = Except.ok none :=
  ⟨rfl, rfl, rfl, (getLatestLocation_equator rt lng timestamp).1⟩

theorem latestLoop_throws_on_null (rt : Builtins) (vals : List JsVal)
    (h : ∃ r ∈ vals, r.nullish = true) :
    ∀ acc, latestLoop rt vals acc = Except.error JsError.typeError := by
  intro acc
  cases hres : latestLoop rt vals acc with
  | error e => cases e; rfl
  | ok acc1 =>
    obtain ⟨r, hr, hn⟩ := h
    have := latestLoop_ok_not_nullish rt vals acc acc1 hres r hr
    rw [hn] at this
    cases this

theorem getLatestLocation_throws_on_null (rt : Builtins) (locations : JsVal)
    (htr : locations.truthy = true) (h : ∃ r ∈ objectValues locations, r.nullish = true) :
    getLatestLocation rt locations = Except.error JsError.typeError := by
  unfold getLatestLocation
  simp only [htr, Bool.not_true, Bool.false_eq_true, if_false,
    latestLoop_throws_on_null rt _ h]

/-- Counterexample to C9 as stated: on the collection whose one entry is `null`, which holds
no report with a timestamp, a latitude and a longitude, `getLatestLocation` does not return
`null`: reading `uplink_message` of the entry raises a `TypeError`. -/
theorem resolver_throws_on_null_report :
    objectValues nullReportCollection = [JsVal.null] ∧
    getLatestLocation exampleRuntime nullReportCollection = Except.error JsError.typeError ∧
    getLatestLocation exampleRuntime nullReportCollection ≠ Except.ok none :=
  ⟨rfl, rfl, by intro h; cases h⟩

/-- C9, amended.  `getLatestLocation` returns `null` when the collection is absent or otherwise
falsy, or when every entry of it (none, when it is empty) is a report, not `null`, that lacks a
timestamp, a latitude under both names or a longitude under both names.  Whenever it returns a
location, there is a report in the collection whose payload has all three and from which the
latitude, longitude and timestamp of the location are taken.  When an entry of the collection
is `null` or `undefined`, it raises a `TypeError` whatever the other entries are. -/
theorem resolver_ignores_incomplete_reports (rt : Builtins) (locations : JsVal) :
    ((locations.truthy = false ∨
        ∀ r ∈ objectValues locations, ∃ payload, unwrapReport r = Except.ok payload ∧
          (payload.field "timestamp" = JsVal.undefined ∨
            (payload.field "latitude" = JsVal.undefined ∧
              payload.field "lat" = JsVal.undefined) ∨
            (payload.field "longitude" = JsVal.undefined ∧
              payload.field "lng" = JsVal.undefined))) →
      getLatestLocation rt locations = Except.ok none) ∧
    (∀ loc : LatestLocation, getLatestLocation rt locations = Except.ok (some loc) →
      ∃ r ∈ objectValues locations, ∃ payload, unwrapReport r = Except.ok payload ∧
        payload.field "timestamp" ≠ JsVal.undefined ∧
        (payload.field "latitude" ≠ JsVal.undefined ∨ payload.field "lat" ≠ JsVal.undefined) ∧
        (payload.field "longitude" ≠ JsVal.undefined ∨ payload.field "lng" ≠ JsVal.undefined) ∧
        loc.latitude = (payload.field "latitude").or (payload.field "lat") ∧
        loc.longitude = (payload.field "longitude").or (payload.field "lng") ∧
        loc.timestamp = payload.field "timestamp") ∧
    (locations.truthy = true → (∃ r ∈ objectValues locations, r.nullish = true) →
      getLatestLocation rt locations = Except.error JsError.typeError) := by
  have hvalid : ∀ payload t, validTime rt payload = some t →
      payload.field "timestamp" ≠ JsVal.undefined ∧
      (payload.field "latitude" ≠ JsVal.undefined ∨ payload.field "lat" ≠ JsVal.undefined) ∧
      (payload.field "longitude" ≠ JsVal.undefined ∨
        payload.field "lng" ≠ JsVal.undefined) := by
    intro payload t ht
    unfold validTime at ht
    split at ht
    · next hc =>
      simp only [Bool.and_eq_true] at hc
      obtain ⟨⟨h1, h2⟩, h3⟩ := hc
      refine ⟨?_, ?_, ?_⟩
      · intro h
        rw [h] at h1
        exact absurd h1 (by decide)
      · by_contra hcon
        push_neg at hcon
        rw [hcon.1, hcon.2] at h2
        exact absurd h2 (by decide)
      · by_contra hcon
        push_neg at hcon
        rw [hcon.1, hcon.2] at h3
        exact absurd h3 (by decide)
    · cases ht
  refine ⟨?_, ?_, getLatestLocation_throws_on_null rt locations⟩
  · intro h
    rcases h with h | h
    · unfold getLatestLocation
      simp [h]
    · cases hres : getLatestLocation rt locations with
      | error e =>
        have hnn : ∀ r ∈ objectValues locations, r.nullish = false := by
          intro r hr
          obtain ⟨payload, hp, _⟩ := h r hr
          cases hn : r.nullish with
          | false => rfl
          | true => rw [unwrapReport_of_nullish hn] at hp; cases hp
        obtain ⟨res, hok⟩ := getLatestLocation_no_throw rt locations hnn
        rw [hok] at hres
        cases hres
      | ok res =>
        rcases getLatestLocation_inv rt locations res hres with hnone | ⟨hnn, acc, hinv, hacc⟩
        · rw [hnone]
        · cases res with
          | none => rfl
          | some loc =>
            exfalso
            obtain ⟨_, hl⟩ := hinv
            rw [hacc] at hl
            obtain ⟨_, r, hr, hrt, _⟩ := hl
            obtain ⟨payload, hp, hlack⟩ := h r hr
            rw [unwrapReport_of_not_nullish (hnn r hr)] at hp
            have hpe : payloadOf r = payload := Except.ok.inj hp
            rw [hpe] at hrt
            obtain ⟨h1, h2, h3⟩ := hvalid payload _ hrt
            rcases hlack with hl1 | hl2 | hl3
            · exact h1 hl1
            · rcases h2 with h2 | h2
              · exact h2 hl2.1
              · exact h2 hl2.2
            · rcases h3 with h3 | h3
              · exact h3 hl3.1
              · exact h3 hl3.2
  · intro loc hres
    rcases getLatestLocation_inv rt locations _ hres with hnone | ⟨hnn, acc, hinv, hacc⟩
    · cases hnone
    · obtain ⟨_, hl⟩ := hinv
      rw [hacc] at hl
      obtain ⟨_, r, hr, hrt, hrl⟩ := hl
      obtain ⟨h1, h2, h3⟩ := hvalid _ _ hrt
      exact ⟨r, hr, payloadOf r, unwrapReport_of_not_nullish (hnn r hr), h1, h2, h3,
        by rw [hrl]; rfl, by rw [hrl]; rfl, by rw [hrl]; rfl⟩

/-- Witness of C9, amended: a report without timestamp, an absent collection, and the resolver
example, whose result is built from `r2`. -/
theorem resolver_ignores_incomplete_reports_witness :
    getLatestLocation exampleRuntime reportWithoutTimestamp = Except.ok none ∧
    getLatestLocation exampleRuntime JsVal.undefined = Except.ok none ∧
    ∃ r ∈ objectValues resolverExample, ∃ payload, unwrapReport r = Except.ok payload ∧
      payload.field "timestamp" ≠ JsVal.undefined ∧
      (payload.field "latitude" ≠ JsVal.undefined ∨ payload.field "lat" ≠ JsVal.undefined) ∧
      (payload.field "longitude" ≠ JsVal.undefined ∨ payload.field "lng" ≠ JsVal.undefined) ∧
      JsVal.num 2 = (payload.field "latitude").or (payload.field "lat") ∧
      JsVal.num 2 = (payload.field "longitude").or (payload.field "lng") ∧
      JsVal.str "2024-01-02T00:00:00Z" = payload.field "timestamp" :=
  ⟨(resolver_ignores_incomplete_reports exampleRuntime reportWithoutTimestamp).1
      (Or.inr (by
        intro r hr
        simp only [reportWithoutTimestamp, objectValues, objectEntries, List.map_cons,
          List.map_nil, List.mem_singleton] at hr
        subst hr
        exact ⟨_, rfl, Or.inl rfl⟩)),
    (resolver_ignores_incomplete_reports exampleRuntime JsVal.undefined).1 (Or.inl rfl),
    (resolver_ignores_incomplete_reports exampleRuntime resolverExample).2.1
      ⟨JsVal.num 2, JsVal.num 2, JsVal.str "2024-01-02T00:00:00Z", JsVal.str "routine_update"⟩
      rfl⟩

/-! ## Resolver: report shapes -/

theorem beq_shortKey_other (q k : String)
    (h1 : q ≠ "latitude") (h2 : q ≠ "longitude") (h3 : q ≠ "lat") (h4 : q ≠ "lng") :
    (q == shortKey k) = (q == k) := by
  unfold shortKey
  split_ifs with a b
  · subst a
    simp [h1, h3]
  · subst b
    simp [h2, h4]
  · rfl

theorem lookup_shortNames_other (fields : List (String × JsVal)) (q : String)
    (h1 : q ≠ "latitude") (h2 : q ≠ "longitude") (h3 : q ≠ "lat") (h4 : q ≠ "lng") :
    (shortNames fields).lookup q = fields.lookup q := by
  induction fields with
  | nil => rfl
  | cons kv rest ih =>
    obtain ⟨k, v⟩ := kv
    show List.lookup q ((shortKey k, v) :: shortNames rest) = List.lookup q ((k, v) :: rest)
    rw [List.lookup_cons, List.lookup_cons, ih, beq_shortKey_other q k h1 h2 h3 h4]

theorem shortKey_ne_long (k : String) : shortKey k ≠ "latitude" ∧ shortKey k ≠ "longitude" := by
  unfold shortKey
  split_ifs with a b
  · exact ⟨by decide, by decide⟩
  · exact ⟨by decide, by decide⟩
  · exact ⟨a, b⟩

theorem lookup_shortNames_long (fields : List (String × JsVal)) :
    (shortNames fields).lookup "latitude" = none ∧
      (shortNames fields).lookup "longitude" = none := by
  induction fields with
  | nil => exact ⟨rfl, rfl⟩
  | cons kv rest ih =>
    obtain ⟨k, v⟩ := kv
    have e1 : ("latitude" == shortKey k) = false := by
      simpa using fun h : "latitude" = shortKey k => (shortKey_ne_long k).1 h.symm
    have e2 : ("longitude" == shortKey k) = false := by
      simpa using fun h : "longitude" = shortKey k => (shortKey_ne_long k).2 h.symm
    constructor
    · show List.lookup "latitude" ((shortKey k, v) :: shortNames rest) = none
      rw [List.lookup_cons, e1]
      exact ih.1
    · show List.lookup "longitude" ((shortKey k, v) :: shortNames rest) = none
      rw [List.lookup_cons, e2]
      exact ih.2

theorem lookup_shortNames_short (fields : List (String × JsVal))
    (hlat : fields.lookup "lat" = none) (hlng : fields.lookup "lng" = none) :
    (shortNames fields).lookup "lat" = fields.lookup "latitude" ∧
      (shortNames fields).lookup "lng" = fields.lookup "longitude" := by
  induction fields with
  | nil => exact ⟨rfl, rfl⟩
  | cons kv rest ih =>
    obtain ⟨k, v⟩ := kv
    rw [List.lookup_cons] at hlat hlng
    have hk3 : ("lat" == k) = false := by
      cases h : ("lat" == k) with
      | false => rfl
      | true => rw [h] at hlat; cases hlat
    have hk4 : ("lng" == k) = false := by
      cases h : ("lng" == k) with
      | false => rfl
      | true => rw [h] at hlng; cases hlng
    rw [hk3] at hlat
    rw [hk4] at hlng
    obtain ⟨ih1, ih2⟩ := ih hlat hlng
    have hk3n : ¬ "lat" = k := by simpa using hk3
    have hk4n : ¬ "lng" = k := by simpa using hk4
    have a1 : ("lat" == shortKey k) = ("latitude" == k) := by
      unfold shortKey
      split_ifs with a b
      · subst a; rfl
      · subst b; rfl
      · have : ¬ "latitude" = k := fun h => a h.symm
        simp [hk3n, this]
    have a2 : ("lng" == shortKey k) = ("longitude" == k) := by
      unfold shortKey
      split_ifs with a b
      · subst a; rfl
      · subst b; rfl
      · have : ¬ "longitude" = k := fun h => b h.symm
        simp [hk4n, this]
    constructor
    · show List.lookup "lat" ((shortKey k, v) :: shortNames rest) =
        List.lookup "latitude" ((k, v) :: rest)
      rw [List.lookup_cons, List.lookup_cons, a1, ih1]
    · show List.lookup "lng" ((shortKey k, v) :: shortNames rest) =
        List.lookup "longitude" ((k, v) :: rest)
      rw [List.lookup_cons, List.lookup_cons, a2, ih2]

theorem latestLoop_replace (rt : Builtins) (x y : JsVal)
    (hx : x.nullish = false) (hy : y.nullish = false)
    (h : ∀ acc, considerReport rt acc (payloadOf x) = considerReport rt acc (payloadOf y))
    (l1 l2 : List JsVal) (acc : Latest) :
    latestLoop rt (l1 ++ x :: l2) acc = latestLoop rt (l1 ++ y :: l2) acc := by
  induction l1 generalizing acc with
  | nil =>
    simp only [List.nil_append, latestLoop, unwrapReport_of_not_nullish hx,
      unwrapReport_of_not_nullish hy, h]
  | cons r rest ih =>
    simp only [List.cons_append, latestLoop]
    cases unwrapReport r with
    | error e => rfl
    | ok location => exact ih _

theorem getLatestLocation_replace (rt : Builtins) (x y : JsVal)
    (hx : x.nullish = false) (hy : y.nullish = false)
    (h : ∀ acc, considerReport rt acc (payloadOf x) = considerReport rt acc (payloadOf y))
    (pre post : List (String × JsVal)) (k : String) :
    getLatestLocation rt (JsVal.obj (pre ++ (k, x) :: post)) =
      getLatestLocation rt (JsVal.obj (pre ++ (k, y) :: post)) := by
  unfold getLatestLocation
  simp only [JsVal.truthy, Bool.not_true, Bool.false_eq_true, if_false, objectValues,
    objectEntries, List.map_append, List.map_cons]
  rw [latestLoop_replace rt x y hx hy h]

theorem payloadOf_wrapReport (fields : List (String × JsVal)) :
    payloadOf (wrapReport (JsVal.obj fields)) = JsVal.obj fields := by
  simp [payloadOf, wrapReport, JsVal.field, JsVal.truthy]

theorem payloadOf_flat (report : JsVal)
    (hflat : ((report.field "uplink_message").truthy &&
      ((report.field "uplink_message").field "decoded_payload").truthy) = false) :
    payloadOf report = report := by
  unfold payloadOf
  simp only [hflat, Bool.false_eq_true, if_false]

theorem field_shortNames_other (fields : List (String × JsVal)) (q : String)
    (h1 : q ≠ "latitude") (h2 : q ≠ "longitude") (h3 : q ≠ "lat") (h4 : q ≠ "lng") :
    (JsVal.obj (shortNames fields)).field q = (JsVal.obj fields).field q := by
  simp only [JsVal.field, lookup_shortNames_other fields q h1 h2 h3 h4]

theorem or_undefined_truthy (a : JsVal) : (a.or JsVal.undefined).truthy = a.truthy := by
  unfold JsVal.or
  split
  · rfl
  · next h => simp only [Bool.not_eq_true] at h; rw [h]; rfl

theorem undefined_or (a : JsVal) : JsVal.undefined.or a = a := rfl

theorem considerReport_shortNames (rt : Builtins) (acc : Latest)
    (fields : List (String × JsVal))
    (hlat : fields.lookup "lat" = none) (hlng : fields.lookup "lng" = none) :
    considerReport rt acc (JsVal.obj (shortNames fields)) =
      considerReport rt acc (JsVal.obj fields) := by
  have hts := field_shortNames_other fields "timestamp" (by decide) (by decide) (by decide)
    (by decide)
  have hat := field_shortNames_other fields "alert_type" (by decide) (by decide) (by decide)
    (by decide)
  have hl1 : (JsVal.obj (shortNames fields)).field "latitude" = JsVal.undefined := by
    simp only [JsVal.field, (lookup_shortNames_long fields).1, Option.getD_none]
  have hl2 : (JsVal.obj (shortNames fields)).field "longitude" = JsVal.undefined := by
    simp only [JsVal.field, (lookup_shortNames_long fields).2, Option.getD_none]
  have hs1 : (JsVal.obj (shortNames fields)).field "lat" = (JsVal.obj fields).field "latitude" := by
    simp only [JsVal.field, (lookup_shortNames_short fields hlat hlng).1]
  have hs2 : (JsVal.obj (shortNames fields)).field "lng" = (JsVal.obj fields).field "longitude" := by
    simp only [JsVal.field, (lookup_shortNames_short fields hlat hlng).2]
  have ho1 : (JsVal.obj fields).field "lat" = JsVal.undefined := by
    simp only [JsVal.field, hlat, Option.getD_none]
  have ho2 : (JsVal.obj fields).field "lng" = JsVal.undefined := by
    simp only [JsVal.field, hlng, Option.getD_none]
  unfold considerReport
  simp only [hts, hat, hl1, hl2, hs1, hs2, ho1, ho2, undefined_or, or_undefined_truthy]
  by_cases ha : ((JsVal.obj fields).field "latitude").truthy = true
  · by_cases hb : ((JsVal.obj fields).field "longitude").truthy = true
    · simp [JsVal.or, ha, hb]
    · simp [hb]
  · simp [ha]

/-- C10.  The backend `getLatestLocation` gives the same result, and so the same latitude,
longitude, timestamp and alert type, whichever accepted shape a report of the collection has:
a flat report (`fields`, not itself an envelope) may be replaced by the same report wrapped
under `uplink_message.decoded_payload`, and a report that stores its coordinates under
`latitude` and `longitude` (it has no property `lat` or `lng`) may be replaced by the same
report with the coordinates under `lat` and `lng`, flat or wrapped. -/
theorem resolver_invariant_under_report_shapes (rt : Builtins)
    (pre post : List (String × JsVal)) (k : String) (fields : List (String × JsVal))
    (hflat : (((JsVal.obj fields).field "uplink_message").truthy &&
      (((JsVal.obj fields).field "uplink_message").field "decoded_payload").truthy) = false) :
    getLatestLocation rt (JsVal.obj (pre ++ (k, wrapReport (JsVal.obj fields)) :: post)) =
      getLatestLocation rt (JsVal.obj (pre ++ (k, JsVal.obj fields) :: post)) ∧
    (fields.lookup "lat" = none → fields.lookup "lng" = none →
      getLatestLocation rt (JsVal.obj (pre ++ (k, JsVal.obj (shortNames fields)) :: post)) =
        getLatestLocation rt (JsVal.obj (pre ++ (k, JsVal.obj fields) :: post)) ∧
      getLatestLocation rt
          (JsVal.obj (pre ++ (k, wrapReport (JsVal.obj (shortNames fields))) :: post)) =
        getLatestLocation rt (JsVal.obj (pre ++ (k, JsVal.obj fields) :: post))) := by
  have hp := payloadOf_flat _ hflat
  refine ⟨?_, ?_⟩
  · apply getLatestLocation_replace rt (wrapReport (JsVal.obj fields)) (JsVal.obj fields) rfl rfl
    intro acc
    rw [payloadOf_wrapReport, hp]
  · intro hlat hlng
    have hflat1 : (((JsVal.obj (shortNames fields)).field "uplink_message").truthy &&
        (((JsVal.obj (shortNames fields)).field "uplink_message").field
          "decoded_payload").truthy) = false := by
      rw [field_shortNames_other fields "uplink_message" (by decide) (by decide) (by decide)
        (by decide)]
      exact hflat
    have hp1 := payloadOf_flat _ hflat1
    refine ⟨?_, ?_⟩
    · apply getLatestLocation_replace rt (JsVal.obj (shortNames fields)) (JsVal.obj fields)
        rfl rfl
      intro acc
      rw [hp1, hp, considerReport_shortNames rt acc fields hlat hlng]
    · apply getLatestLocation_replace rt (wrapReport (JsVal.obj (shortNames fields)))
        (JsVal.obj fields) rfl rfl
      intro acc
      rw [payloadOf_wrapReport, hp, considerReport_shortNames rt acc fields hlat hlng]

/-- Witness of C10: the report `sampleReport` after an older report, in its four shapes. -/
theorem resolver_invariant_under_report_shapes_witness :
    (((JsVal.obj sampleFields).field "uplink_message").truthy &&
      (((JsVal.obj sampleFields).field "uplink_message").field "decoded_payload").truthy) =
      false ∧
    sampleFields.lookup "lat" = none ∧
    sampleFields.lookup "lng" = none ∧
    getLatestLocation exampleRuntime
        (JsVal.obj ([("r0", olderReport)] ++ ("r1", wrapReport (JsVal.obj sampleFields)) :: [])) =
      getLatestLocation exampleRuntime
        (JsVal.obj ([("r0", olderReport)] ++ ("r1", JsVal.obj sampleFields) :: [])) ∧
    getLatestLocation exampleRuntime
        (JsVal.obj ([("r0", olderReport)] ++ ("r1", JsVal.obj (shortNames sampleFields)) :: [])) =
      getLatestLocation exampleRuntime
        (JsVal.obj ([("r0", olderReport)] ++ ("r1", JsVal.obj sampleFields) :: [])) ∧
    getLatestLocation exampleRuntime
        (JsVal.obj ([("r0", olderReport)] ++
          ("r1", wrapReport (JsVal.obj (shortNames sampleFields))) :: [])) =
      getLatestLocation exampleRuntime
        (JsVal.obj ([("r0", olderReport)] ++ ("r1", JsVal.obj sampleFields) :: [])) :=
  ⟨rfl, rfl, rfl,
    (resolver_invariant_under_report_shapes exampleRuntime [("r0", olderReport)] [] "r1"
      sampleFields rfl).1,
    ((resolver_invariant_under_report_shapes exampleRuntime [("r0", olderReport)] [] "r1"
      sampleFields rfl).2 rfl rfl).1,
    ((resolver_invariant_under_report_shapes exampleRuntime [("r0", olderReport)] [] "r1"
      sampleFields rfl).2 rfl rfl).2⟩

/-! ## Dashboard resolver: coordinates given as strings -/

theorem stripQuotes_of_no_quote (s : String) (h : quoteChar ∉ s.data) : stripQuotes s = s := by
  unfold stripQuotes
  have hf : s.data.filter (fun c => c != quoteChar) = s.data := by
    rw [List.filter_eq_self]
    intro c hc
    have hne : c ≠ quoteChar := fun e => h (e ▸ hc)
    simpa using hne
  rw [hf]

theorem stripQuotes_quoted (s : String) (h : quoteChar ∉ s.data) : stripQuotes (quoted s) = s := by
  unfold stripQuotes quoted
  have hf : (String.singleton quoteChar ++ s ++ String.singleton quoteChar).data.filter
      (fun c => c != quoteChar) = s.data := by
    have hs : (s.data.filter (fun c => c != quoteChar)) = s.data := by
      rw [List.filter_eq_self]
      intro c hc
      have hne : c ≠ quoteChar := fun e => h (e ▸ hc)
      simpa using hne
    simp only [String.data_append, List.filter_append, hs]
    simp [String.singleton, List.filter]
  rw [hf]

theorem quoted_truthy (s : String) : (JsVal.str (quoted s)).truthy = true := by
  have hne : quoted s ≠ "" := by
    intro h
    have hd := congrArg String.data h
    simp [quoted, String.data_append, String.singleton] at hd
  simpa [JsVal.truthy] using hne

theorem dashboard_single_report {F : Type} (rt : Builtins) (parseFloat : JsVal → F)
    (lat lng timestamp : JsVal) (t : Int)
    (hlat : lat.truthy = true) (hlng : lng.truthy = true) (hts : timestamp.truthy = true)
    (hdate : rt.dateGetTime timestamp = some t) (hpos : 0 < t) :
    Dashboard.getLatestLocation rt parseFloat
        (JsVal.obj [("r1", JsVal.obj [("latitude", lat), ("longitude", lng),
          ("timestamp", timestamp)])]) =
      Except.ok (some ⟨parseCoordinate parseFloat lat, parseCoordinate parseFloat lng, timestamp,
        JsVal.str "routine_update"⟩) := by
  have hn : (JsVal.obj [("latitude", lat), ("longitude", lng),
      ("timestamp", timestamp)]).nullish = false := rfl
  have hp : payloadOf (JsVal.obj [("latitude", lat), ("longitude", lng),
      ("timestamp", timestamp)]) = JsVal.obj [("latitude", lat), ("longitude", lng),
      ("timestamp", timestamp)] := by
    simp [payloadOf, JsVal.field, JsVal.truthy, List.lookup]
  have hgt : t > 0 := hpos
  simp [Dashboard.getLatestLocation, Dashboard.latestLoop, Dashboard.considerReport,
    objectValues, objectEntries, unwrapReport_of_not_nullish hn, hp, JsVal.field, List.lookup,
    JsVal.or, hlat, hlng, hts, hdate, hgt]
  simp [JsVal.truthy]

/-- C11.  A collection with one report whose latitude (or longitude) is a string holding a
numeral, bare or between double quotes, whose other coordinate is present and whose timestamp
parses to a time after the epoch: the dashboard `getLatestLocation` returns that coordinate as
the number `parseFloat` reads from the numeral, the quotes stripped. -/
theorem dashboard_resolver_reads_string_coordinate {F : Type} (rt : Builtins)
    (parseFloat : JsVal → F) (numeral : String) (other timestamp : JsVal) (t : Int)
    (hnum : quoteChar ∉ numeral.data) (hne : numeral ≠ "")
    (hother : other.truthy = true) (hts : timestamp.truthy = true)
    (hdate : rt.dateGetTime timestamp = some t) (hpos : 0 < t) :
    Dashboard.getLatestLocation rt parseFloat
        (JsVal.obj [("r1", JsVal.obj [("latitude", JsVal.str (quoted numeral)),
          ("longitude", other), ("timestamp", timestamp)])]) =
      Except.ok (some ⟨parseFloat (JsVal.str numeral), parseCoordinate parseFloat other,
        timestamp, JsVal.str "routine_update"⟩) ∧
    Dashboard.getLatestLocation rt parseFloat
        (JsVal.obj [("r1", JsVal.obj [("latitude", JsVal.str numeral),
          ("longitude", other), ("timestamp", timestamp)])]) =
      Except.ok (some ⟨parseFloat (JsVal.str numeral), parseCoordinate parseFloat other,
        timestamp, JsVal.str "routine_update"⟩) ∧
    Dashboard.getLatestLocation rt parseFloat
        (JsVal.obj [("r1", JsVal.obj [("latitude", other),
          ("longitude", JsVal.str (quoted numeral)), ("timestamp", timestamp)])]) =
      Except.ok (some ⟨parseCoordinate parseFloat other, parseFloat (JsVal.str numeral),
        timestamp, JsVal.str "routine_update"⟩) ∧
    Dashboard.getLatestLocation rt parseFloat
        (JsVal.obj [("r1", JsVal.obj [("latitude", other),
          ("longitude", JsVal.str numeral), ("timestamp", timestamp)])]) =
      Except.ok (some ⟨parseCoordinate parseFloat other, parseFloat (JsVal.str numeral),
        timestamp, JsVal.str "routine_update"⟩) := by
  have hbare : (JsVal.str numeral).truthy = true := by simpa [JsVal.truthy] using hne
  have hq := quoted_truthy numeral
  have e1 : parseCoordinate parseFloat (JsVal.str (quoted numeral)) =
      parseFloat (JsVal.str numeral) := by
    simp only [parseCoordinate, stripQuotes_quoted numeral hnum]
  have e2 : parseCoordinate parseFloat (JsVal.str numeral) = parseFloat (JsVal.str numeral) := by
    simp only [parseCoordinate, stripQuotes_of_no_quote numeral hnum]
  refine ⟨?_, ?_, ?_, ?_⟩
  · rw [dashboard_single_report rt parseFloat _ _ _ t hq hother hts hdate hpos, e1]
  · rw [dashboard_single_report rt parseFloat _ _ _ t hbare hother hts hdate hpos, e2]
  · rw [dashboard_single_report rt parseFloat _ _ _ t hother hq hts hdate hpos, e1]
  · rw [dashboard_single_report rt parseFloat _ _ _ t hother hbare hts hdate hpos, e2]

/-- Witness of C11: the string `"12.5"` between double quotes as latitude gives the number
12.5. -/
theorem dashboard_resolver_reads_string_coordinate_witness :
    Dashboard.getLatestLocation exampleRuntime exampleParseFloat
        (JsVal.obj [("r1", JsVal.obj [("latitude", JsVal.str (quoted "12.5")),
          ("longitude", JsVal.num 76), ("timestamp", JsVal.str "2024-01-01T00:00:00Z")])]) =
      Except.ok (some ⟨some (25 / 2), some 76, JsVal.str "2024-01-01T00:00:00Z",
        JsVal.str "routine_update"⟩) :=
  (dashboard_resolver_reads_string_coordinate exampleRuntime exampleParseFloat "12.5"
    (JsVal.num 76) (JsVal.str "2024-01-01T00:00:00Z") 1704067200000
    (by decide) (by decide) (by rfl) (by rfl) (by rfl) (by decide)).1

/-! ## Point in polygon -/

theorem polygonLoop_eq_parity {F : Type} (ops : FloatOps F) (x y : F) (polygon : List (F × F))
    (vj : F × F) (inside : Bool) :
    polygonLoop ops x y polygon vj inside = xor inside (crossingParity ops x y polygon vj) := by
  induction polygon generalizing vj inside with
  | nil => simp [polygonLoop, crossingParity]
  | cons vi rest ih =>
    simp only [polygonLoop, crossingParity, ih]
    show xor (if crosses ops x y vi vj = true then !inside else inside) _ = _
    cases crosses ops x y vi vj <;> cases inside <;> cases crossingParity ops x y rest vi <;> rfl

theorem isPointInPolygon_eq_parity {F : Type} (ops : FloatOps F) (point : LatLng F)
    (v : F × F) (rest : List (F × F)) :
    isPointInPolygon ops point (v :: rest) =
      crossingParity ops point.lat point.lng (v :: rest) ((v :: rest).getLast (by simp)) := by
  unfold isPointInPolygon
  rw [List.getLast?_eq_getLast _ (by simp)]
  simp [polygonLoop_eq_parity]

theorem crosses_exact (x y xi yi xj yj : ℚ) :
    crosses exactOps (some x) (some y) (some xi, some yi) (some xj, some yj) =
      ((decide (y < yi) != decide (y < yj)) &&
        decide (x < (xj - xi) * (y - yi) / (yj - yi) + xi)) := by
  unfold crosses
  by_cases h : yj - yi = 0
  · have hy : yj = yi := by linarith
    subst hy
    simp
  · simp [exactOps, h]

/-- C12.  In exact arithmetic, for the rectangle `[(a,b),(a,d),(c,d),(c,b)]` with `a < c` and
`b < d`, `isPointInPolygon` returns true for every point with `a < x < c` and `b < y < d`, and
false for every point with `x < a` or `x > c` or `y < b` or `y > d`. -/
theorem rectangle_inside_and_outside (a b c d x y : ℚ) (hac : a < c) (hbd : b < d) :
    (a < x ∧ x < c ∧ b < y ∧ y < d →
      isPointInPolygon exactOps ⟨some x, some y⟩
        [(some a, some b), (some a, some d), (some c, some d), (some c, some b)] = true) ∧
    (x < a ∨ c < x ∨ y < b ∨ d < y →
      isPointInPolygon exactOps ⟨some x, some y⟩
        [(some a, some b), (some a, some d), (some c, some d), (some c, some b)] = false) := by
  have hform : isPointInPolygon exactOps ⟨some x, some y⟩
      [(some a, some b), (some a, some d), (some c, some d), (some c, some b)] =
      xor ((decide (y < d) != decide (y < b)) && decide (x < a))
        ((decide (y < b) != decide (y < d)) && decide (x < c)) := by
    rw [isPointInPolygon_eq_parity]
    simp [crossingParity, crosses_exact]
  rw [hform]
  constructor
  · rintro ⟨h1, h2, h3, h4⟩
    have n1 : ¬ y < b := not_lt.mpr (le_of_lt h3)
    have n2 : ¬ x < a := not_lt.mpr (le_of_lt h1)
    simp [h4, n1, n2, h2]
  · intro h
    rcases h with h | h | h | h
    · have h2 : x < c := lt_trans h hac
      simp [h, h2]
    · have n1 : ¬ x < c := not_lt.mpr (le_of_lt h)
      have n2 : ¬ x < a := not_lt.mpr (le_of_lt (lt_trans hac h))
      simp [n1, n2]
    · have h2 : y < d := lt_trans h hbd
      simp [h, h2]
    · have n1 : ¬ y < d := not_lt.mpr (le_of_lt h)
      have n2 : ¬ y < b := not_lt.mpr (le_of_lt (lt_trans hbd h))
      simp [n1, n2]

/-- Witness of C12: the unit square, (0.5, 0.5) inside and (2, 2) outside. -/
theorem rectangle_inside_and_outside_witness :
    isPointInPolygon exactOps pointInside unitSquare = true ∧
    isPointInPolygon exactOps pointOutside unitSquare = false :=
  ⟨(rectangle_inside_and_outside 0 0 1 1 (1 / 2) (1 / 2) (by norm_num) (by norm_num)).1
      ⟨by norm_num, by norm_num, by norm_num, by norm_num⟩,
    (rectangle_inside_and_outside 0 0 1 1 2 2 (by norm_num) (by norm_num)).2
      (Or.inr (Or.inl (by norm_num)))⟩

theorem crosses_same_vertex {F : Type} (ops : FloatOps F) (x y : F) (v : F × F) :
    crosses ops x y v v = false := by
  simp [crosses]

theorem crosses_exact_symm (x y : Option ℚ) (vi vj : Option ℚ × Option ℚ) :
    crosses exactOps x y vi vj = crosses exactOps x y vj vi := by
  obtain ⟨xi, yi⟩ := vi
  obtain ⟨xj, yj⟩ := vj
  cases y with
  | none => simp [crosses, exactOps]
  | some y =>
    cases yi with
    | none =>
      cases yj with
      | none => simp [crosses, exactOps]
      | some yj => cases x <;> cases xi <;> cases xj <;> simp [crosses, exactOps]
    | some yi =>
      cases yj with
      | none => cases x <;> cases xi <;> cases xj <;> simp [crosses, exactOps]
      | some yj =>
        cases x with
        | none => simp [crosses, exactOps]
        | some x =>
          cases xi with
          | none => cases xj <;> simp [crosses, exactOps]
          | some xi =>
            cases xj with
            | none => simp [crosses, exactOps]
            | some xj =>
              rw [crosses_exact, crosses_exact]
              by_cases hy : yi = yj
              · subst hy
                simp
              · have h1 : yj - yi ≠ 0 := fun h => hy (by linarith)
                have h2 : yi - yj ≠ 0 := fun h => hy (by linarith)
                have habs : (xj - xi) * (y - yi) / (yj - yi) + xi =
                    (xi - xj) * (y - yj) / (yi - yj) + xj := by
                  field_simp
                  ring
                rw [habs]
                cases decide (y < yi) <;> cases decide (y < yj) <;> rfl

/-- C13, amended.  `isPointInPolygon` is total, so it does not fail.  For every point it
returns false on a vertex list with 0 or 1 vertex in every arithmetic, and on a vertex list
with 2 vertices in exact arithmetic, where the one edge is met twice with the same crossing
test. -/
theorem degenerate_polygon_is_outside :
    (∀ {F : Type} (ops : FloatOps F) (point : LatLng F) (polygon : List (F × F)),
      polygon.length < 2 → isPointInPolygon ops point polygon = false) ∧
    (∀ (point : LatLng (Option ℚ)) (polygon : List (Option ℚ × Option ℚ)),
      polygon.length < 3 → isPointInPolygon exactOps point polygon = false) := by
  constructor
  · intro F ops point polygon hlen
    match polygon, hlen with
    | [], _ => rfl
    | [v], _ =>
      rw [isPointInPolygon_eq_parity]
      simp [crossingParity, crosses_same_vertex]
  · intro point polygon hlen
    match polygon, hlen with
    | [], _ => rfl
    | [v], _ =>
      rw [isPointInPolygon_eq_parity]
      simp [crossingParity, crosses_same_vertex]
    | [v0, v1], _ =>
      rw [isPointInPolygon_eq_parity]
      simp [crossingParity, crosses_exact_symm point.lat point.lng v1 v0]

/-- Witness of C13: the two vertices (0,0) and (1,1) and the point (0.5, 0.5). -/
theorem degenerate_polygon_is_outside_witness :
    ([(some 0, some 0), (some 1, some 1)] : List (Option ℚ × Option ℚ)).length < 3 ∧
    isPointInPolygon exactOps pointInside [(some 0, some 0), (some 1, some 1)] = false :=
  ⟨by decide, degenerate_polygon_is_outside.2 pointInside _ (by decide)⟩

set_option maxRecDepth 1000000 in
theorem roundDouble_one_tenth :
    roundDouble (1 / 10) = 3602879701896397 / 36028797018963968 := by
  with_unfolding_all rfl

set_option maxRecDepth 1000000 in
/-- The abscissa of the edge between (1,1) and (5,8) at `y = 2`, as the two visits of the edge
compute it in double arithmetic: 1.5714285714285714 from (1,1) and 1.5714285714285716 from
(5,8). -/
theorem double_abscissas_of_one_edge :
    doubleOps.add (doubleOps.div (doubleOps.mul (doubleOps.sub (some 5) (some 1))
        (doubleOps.sub (some 2) (some 1))) (doubleOps.sub (some 8) (some 1))) (some 1) =
      some (7077085128725065 / 4503599627370496) ∧
    doubleOps.add (doubleOps.div (doubleOps.mul (doubleOps.sub (some 1) (some 5))
        (doubleOps.sub (some 2) (some 8))) (doubleOps.sub (some 1) (some 8))) (some 5) =
      some (3538542564362533 / 2251799813685248) :=
  ⟨by with_unfolding_all rfl, by with_unfolding_all rfl⟩

set_option maxRecDepth 1000000 in
/-- C13 as stated fails in double arithmetic: for the two vertices (1,1) and (5,8) and the
point with `lat` 1.5714285714285714 (the double nearest to 11/7) and `lng` 2, the two visits of
the one edge compute the abscissas 1.5714285714285714 and 1.5714285714285716, the point is
left of the second only, and `isPointInPolygon` returns true. -/
theorem two_vertex_polygon_contains_point_in_double_arithmetic :
    ([(some 1, some 1), (some 5, some 8)] : List (Option ℚ × Option ℚ)).length < 3 ∧
    isPointInPolygon doubleOps ⟨some (7077085128725065 / 4503599627370496), some 2⟩
      [(some 1, some 1), (some 5, some 8)] = true :=
  ⟨by decide, by with_unfolding_all rfl⟩

theorem crossingParity_append_singleton {F : Type} (ops : FloatOps F) (x y : F)
    (l : List (F × F)) (w u : F × F) :
    crossingParity ops x y (l ++ [w]) u =
      xor (crossingParity ops x y l u) (crosses ops x y w ((u :: l).getLast (by simp))) := by
  induction l generalizing u with
  | nil => simp [crossingParity]
  | cons a rest ih =>
    show xor (crosses ops x y a u) (crossingParity ops x y (rest ++ [w]) a) =
      xor (xor (crosses ops x y a u) (crossingParity ops x y rest a))
        (crosses ops x y w ((u :: a :: rest).getLast (by simp)))
    rw [ih a, List.getLast_cons_cons, Bool.xor_assoc]

/-- C14.  `isPointInPolygon` treats the vertex list as a closed ring: for every arithmetic,
every point and every non-empty vertex list `v :: rest`, the result is the same on the list
with a copy of its first vertex `v` appended. -/
theorem closing_vertex_changes_nothing {F : Type} (ops : FloatOps F) (point : LatLng F)
    (v : F × F) (rest : List (F × F)) :
    isPointInPolygon ops point ((v :: rest) ++ [v]) = isPointInPolygon ops point (v :: rest) := by
  rw [List.cons_append, isPointInPolygon_eq_parity, isPointInPolygon_eq_parity]
  have hlast : (v :: (rest ++ [v])).getLast (by simp) = v := by
    simp [List.getLast_cons, List.getLast_append]
  rw [hlast]
  simp only [crossingParity, crosses_same_vertex, crossingParity_append_singleton]
  cases crossingParity ops point.lat point.lng rest v <;>
    cases crosses ops point.lat point.lng v ((v :: rest).getLast (by simp)) <;> rfl

/-! ## Cooldown test -/

/-- For every user id, elephant id, time `now` and cooldown store, `isInCooldown` is true if and
only if the store holds for the pair a last-alert time `t` other than 0 with
`now - t < 300000`; with no recorded time for the pair it is false. -/
theorem isInCooldown_eq_true_iff (rt : Builtins) (alertCooldowns : JsMap Int) (now : Int)
    (userId : JsVal) (elephantId : String) :
    (isInCooldown rt alertCooldowns now userId elephantId = true ↔
      ∃ t : Int, alertCooldowns (cooldownKey rt userId elephantId) = some t ∧ t ≠ 0 ∧
        now - t < 300000) ∧
    (alertCooldowns (cooldownKey rt userId elephantId) = none →
      isInCooldown rt alertCooldowns now userId elephantId = false) := by
  constructor
  · unfold isInCooldown
    cases hget : alertCooldowns (cooldownKey rt userId elephantId) with
    | none => simp
    | some t =>
      by_cases ht : t = 0
      · simp [ht]
      · simp [ht]
  · intro hnone
    simp [isInCooldown, hnone]

/-! ## Push delivery -/

/-- C19.  `sendPushToSubscriber` returns true and leaves the subscriber list unchanged when the
delivery succeeds.  When the delivery fails with status code 410 it returns false and the list
afterwards is the previous list without that subscriber (the first element with its identity),
the others kept in their order, and unchanged when the subscriber is not in it.  When the
delivery fails otherwise it returns false and the list is unchanged.  The cooldown store is
unchanged in every case. -/
theorem sendPushToSubscriber_outcomes {F : Type} (webPush : Subscriber → String → PushOutcome)
    (st : ServerState F) (subscriber : Subscriber) (elephantId : String) (distance : F) :
    (webPush subscriber elephantId = PushOutcome.delivered →
      (sendPushToSubscriber webPush st subscriber elephantId distance).1 = true ∧
      (sendPushToSubscriber webPush st subscriber elephantId distance).2.subscribers =
        st.subscribers) ∧
    (webPush subscriber elephantId = PushOutcome.gone →
      (sendPushToSubscriber webPush st subscriber elephantId distance).1 = false ∧
      (∀ (l1 l2 : List Subscriber) (s : Subscriber), st.subscribers = l1 ++ s :: l2 →
        s.ref = subscriber.ref → (∀ x ∈ l1, x.ref ≠ subscriber.ref) →
        (sendPushToSubscriber webPush st subscriber elephantId distance).2.subscribers =
          l1 ++ l2) ∧
      ((∀ x ∈ st.subscribers, x.ref ≠ subscriber.ref) →
        (sendPushToSubscriber webPush st subscriber elephantId distance).2.subscribers =
          st.subscribers)) ∧
    (webPush subscriber elephantId = PushOutcome.failed →
      (sendPushToSubscriber webPush st subscriber elephantId distance).1 = false ∧
      (sendPushToSubscriber webPush st subscriber elephantId distance).2.subscribers =
        st.subscribers) ∧
    (sendPushToSubscriber webPush st subscriber elephantId distance).2.alertCooldowns =
      st.alertCooldowns := by
  refine ⟨?_, ?_, ?_, ?_⟩
  · intro h
    simp [sendPushToSubscriber, h]
  · intro h
    refine ⟨by simp [sendPushToSubscriber, h], ?_, ?_⟩
    · intro l1 l2 s hsplit hs hl1
      have hl1p : ∀ x ∈ l1, ¬ ((fun x : Subscriber => x.ref == subscriber.ref) x = true) := by
        intro x hx
        simpa using hl1 x hx
      have hsp : (fun x : Subscriber => x.ref == subscriber.ref) s = true := by
        simpa using hs
      simp only [sendPushToSubscriber, h, hsplit]
      rw [List.eraseP_append_right _ hl1p,
        List.eraseP_cons_of_pos (p := fun x : Subscriber => x.ref == subscriber.ref) hsp]
    · intro hall
      have hp : ∀ x ∈ st.subscribers,
          ¬ ((fun x : Subscriber => x.ref == subscriber.ref) x = true) := by
        intro x hx
        simpa using hall x hx
      simp only [sendPushToSubscriber, h]
      exact List.eraseP_of_forall_not hp
  · intro h
    simp [sendPushToSubscriber, h]
  · unfold sendPushToSubscriber
    cases webPush subscriber elephantId <;> rfl

/-- Witness of C19: three subscribers, the delivery to the one with identity 1 fails with
status code 410. -/
theorem sendPushToSubscriber_outcomes_witness :
    firstGone (anonymousSubscriber 1) "elephant1" = PushOutcome.gone ∧
    (sendPushToSubscriber firstGone
        (⟨[sampleSubscriber, anonymousSubscriber 1, anonymousSubscriber 2], JsMap.empty, []⟩ :
          ServerState (Option ℚ))
        (anonymousSubscriber 1) "elephant1" (some 0)).2.subscribers =
      [sampleSubscriber] ++ [anonymousSubscriber 2] ∧
    firstGone sampleSubscriber "elephant1" = PushOutcome.delivered ∧
    (sendPushToSubscriber firstGone
        (⟨[sampleSubscriber, anonymousSubscriber 1, anonymousSubscriber 2], JsMap.empty, []⟩ :
          ServerState (Option ℚ))
        sampleSubscriber "elephant1" (some 0)).1 = true :=
  ⟨rfl,
    ((sendPushToSubscriber_outcomes firstGone
      (⟨[sampleSubscriber, anonymousSubscriber 1, anonymousSubscriber 2], JsMap.empty, []⟩ :
        ServerState (Option ℚ))
      (anonymousSubscriber 1) "elephant1" (some 0)).2.1 rfl).2.1
      [sampleSubscriber] [anonymousSubscriber 2] (anonymousSubscriber 1) rfl rfl
      (by
        intro x hx
        rw [List.mem_singleton] at hx
        subst hx
        decide),
    rfl,
    ((sendPushToSubscriber_outcomes firstGone
      (⟨[sampleSubscriber, anonymousSubscriber 1, anonymousSubscriber 2], JsMap.empty, []⟩ :
        ServerState (Option ℚ))
      sampleSubscriber "elephant1" (some 0)).1 rfl).1⟩

/-! ## Fetch failure -/

/-- C20.  When fetching the elephant data fails (`fetchElephantLocations` rejects) or yields no
data (`null`), `checkProximityAndAlert` returns normally, as it always does, with the state it
started from: no push is made, and the subscriber list and the cooldown store are unchanged. -/
theorem fetch_failure_changes_nothing {F : Type} (ops : FloatOps F) (rt : Builtins)
    (webPush : Subscriber → String → PushOutcome) (now : Int) (st : ServerState F) :
    checkProximityAndAlert ops rt webPush now none st = st ∧
    checkProximityAndAlert ops rt webPush now (some JsVal.null) st = st := by
  constructor
  · unfold checkProximityAndAlert
    split <;> rfl
  · unfold checkProximityAndAlert
    split
    · rfl
    · simp [JsVal.truthy]

/-! ## Division in the ray casting -/

theorem exact_sub_zero (a b : Option ℚ) (h : exactOps.sub a b = some 0) : a = b := by
  cases a with
  | none => simp [exactOps] at h
  | some x =>
    cases b with
    | none => simp [exactOps] at h
    | some y =>
      simp [exactOps] at h
      have hxy : x = y := by linarith
      rw [hxy]

theorem polygonLoopChecked_eq (x y : Option ℚ) (polygon : List (Option ℚ × Option ℚ)) :
    ∀ (vj : Option ℚ × Option ℚ) (inside : Bool),
      polygonLoopChecked x y polygon vj inside = some (polygonLoop exactOps x y polygon vj inside) := by
  induction polygon with
  | nil => intro vj inside; rfl
  | cons vi rest ih =>
    intro vj inside
    by_cases hs : (exactOps.lt y vi.2 != exactOps.lt y vj.2) = true
    · have hz : exactOps.sub vj.2 vi.2 ≠ some 0 := by
        intro h0
        have := exact_sub_zero _ _ h0
        rw [this] at hs
        simp at hs
      simp only [polygonLoopChecked, polygonLoop, hs, if_true, hz, if_false, Bool.true_and]
      exact ih _ _
    · have hs2 : (exactOps.lt y vi.2 != exactOps.lt y vj.2) = false := by
        simpa using hs
      simp only [polygonLoopChecked, polygonLoop, hs2, Bool.false_and]
      exact ih _ _

/-- C29.  The straddle test of `isPointInPolygon` is false for an edge whose two ends have the
same ordinate, whatever the arithmetic, so `&&` never evaluates the crossing abscissa of such
an edge; and in exact arithmetic the function with a partial division, which fails when it
divides by zero, never fails and returns the boolean `isPointInPolygon` returns, for every
point and every vertex list. -/
theorem isPointInPolygon_never_divides_by_zero :
    (∀ (F : Type) (ops : FloatOps F) (y yi : F), (ops.lt y yi != ops.lt y yi) = false) ∧
    ∀ (point : LatLng (Option ℚ)) (polygon : List (Option ℚ × Option ℚ)),
      isPointInPolygonChecked point polygon = some (isPointInPolygon exactOps point polygon) := by
  refine ⟨fun F ops y yi => by simp, fun point polygon => ?_⟩
  unfold isPointInPolygonChecked isPointInPolygon
  cases polygon.getLast? with
  | none => rfl
  | some last => exact polygonLoopChecked_eq _ _ _ _ _

/-! ## Geofence state after an evaluation -/

theorem append_breach_injective (a b : String) (h : a ++ "_breach" = b ++ "_breach") : a = b := by
  have h2 := congrArg String.data h
  simp only [String.data_append] at h2
  exact String.ext (List.append_cancel_right h2)

theorem geofenceCheck_other_key {F : Type} (ops : FloatOps F) (st : DashboardState F)
    (elephantKey : String) (geofence : JsVal) (latestLocation : LatLng F)
    (polygon : List (F × F)) (key : String) (hkey : key ≠ elephantKey ++ "_breach") :
    (geofenceCheck ops st elephantKey geofence latestLocation polygon).geofenceBreaches key =
      st.geofenceBreaches key := by
  cases hprev : st.geofenceBreaches (elephantKey ++ "_breach") with
  | none =>
    cases hin : isPointInPolygon ops latestLocation polygon <;>
      simp [geofenceCheck, hprev, hin, JsMap.set, hkey]
  | some b =>
    cases b <;> cases hin : isPointInPolygon ops latestLocation polygon <;>
      simp [geofenceCheck, hprev, hin, JsMap.set, hkey]

theorem geofenceMonitorElephant_evaluates {F : Type} (ops : FloatOps F) (rt : Builtins)
    (parseFloat : JsVal → F) (st : DashboardState F) (elephantKey : String) (elephant : JsVal)
    (text : String) (latestLocation : LatLng F)
    (hnn : elephant.nullish = false)
    (hcoords : (elephant.field "geofence").field "coordinates" = JsVal.str text)
    (htext : text ≠ "")
    (hloc : monitoredLocation rt parseFloat elephant = Except.ok (some latestLocation)) :
    geofenceMonitorElephant ops rt parseFloat st elephantKey elephant =
      Except.ok (geofenceCheck ops st elephantKey (elephant.field "geofence") latestLocation
        (parseGeofenceCoords parseFloat text)) := by
  have hg : (elephant.field "geofence").truthy = true := by
    cases hgf : elephant.field "geofence" with
    | obj fields => rfl
    | undefined => rw [hgf] at hcoords; simp [JsVal.field] at hcoords
    | null => rw [hgf] at hcoords; simp [JsVal.field] at hcoords
    | bool b => rw [hgf] at hcoords; simp [JsVal.field] at hcoords
    | num x => rw [hgf] at hcoords; simp [JsVal.field] at hcoords
    | str s => rw [hgf] at hcoords; simp [JsVal.field] at hcoords
  have hc : (JsVal.str text).truthy = true := by
    simp [JsVal.truthy, htext]
  have hgp : getProp elephant "geofence" = Except.ok (elephant.field "geofence") := by
    simp [getProp, hnn]
  simp only [geofenceMonitorElephant, hgp]
  simp [hg, hc, hloc, hcoords]

/-- C28.  When `startGeofenceMonitoring` evaluates an elephant that has a geofence with the
coordinates `text` and the resolved location `latestLocation`, the callback completes, the
state it leaves for that elephant is the result of `isPointInPolygon` for that location and
the polygon parsed from `text`, and the state stored for every other elephant is the one
stored before. -/
theorem geofence_state_tracks_latest_observation {F : Type} (ops : FloatOps F) (rt : Builtins)
    (parseFloat : JsVal → F) (st : DashboardState F) (elephantKey : String) (elephant : JsVal)
    (text : String) (latestLocation : LatLng F)
    (hnn : elephant.nullish = false)
    (hcoords : (elephant.field "geofence").field "coordinates" = JsVal.str text)
    (htext : text ≠ "")
    (hloc : monitoredLocation rt parseFloat elephant = Except.ok (some latestLocation)) :
    ∃ st1, geofenceMonitorElephant ops rt parseFloat st elephantKey elephant = Except.ok st1 ∧
      st1.geofenceBreaches (elephantKey ++ "_breach") =
        some (isPointInPolygon ops latestLocation (parseGeofenceCoords parseFloat text)) ∧
      ∀ other : String, other ≠ elephantKey →
        st1.geofenceBreaches (other ++ "_breach") = st.geofenceBreaches (other ++ "_breach") := by
  refine ⟨_, geofenceMonitorElephant_evaluates ops rt parseFloat st elephantKey elephant text
    latestLocation hnn hcoords htext hloc, geofenceCheck_state _ _ _ _ _ _, ?_⟩
  intro other hother
  apply geofenceCheck_other_key
  intro h
  exact hother (append_breach_injective _ _ h)

/-- Witness of C28: the elephant `fencedElephant`, evaluated in the empty state. -/
theorem geofence_state_tracks_latest_observation_witness :
    fencedElephant.nullish = false ∧
    (fencedElephant.field "geofence").field "coordinates" = JsVal.str "0,0|0,1|1,1|1,0|" ∧
    monitoredLocation exampleRuntime tableParseFloat fencedElephant = Except.ok (some pointOutside) ∧
    ∃ st1, geofenceMonitorElephant exactOps exampleRuntime tableParseFloat ⟨JsMap.empty, []⟩
        "elephant1" fencedElephant = Except.ok st1 ∧
      st1.geofenceBreaches ("elephant1" ++ "_breach") =
        some (isPointInPolygon exactOps pointOutside
          (parseGeofenceCoords tableParseFloat "0,0|0,1|1,1|1,0|")) ∧
      ∀ other : String, other ≠ "elephant1" →
        st1.geofenceBreaches (other ++ "_breach") =
          (⟨JsMap.empty, []⟩ : DashboardState (Option ℚ)).geofenceBreaches (other ++ "_breach") :=
  ⟨rfl, rfl, rfl,
    geofence_state_tracks_latest_observation exactOps exampleRuntime tableParseFloat
      ⟨JsMap.empty, []⟩ "elephant1" fencedElephant "0,0|0,1|1,1|1,0|" pointOutside rfl rfl
      (by decide) rfl⟩

theorem parseGeofenceCoords_unitSquare :
    parseGeofenceCoords tableParseFloat "0,0|0,1|1,1|1,0|" = unitSquare := by
  rfl

/-! ## Running detection -/

theorem isRunningDetected_iff (v : JsVal) :
    isRunningDetected v = true ↔ v = JsVal.str "running_detected" := by
  cases v <;> simp [isRunningDetected]

theorem runningCheck_geofence_frame {F : Type} (rt : Builtins) (parseFloat : JsVal → F) (now : Int)
    (st : PageState F) (elephantKey : String) (elephant : JsVal) (g : DashboardState F) :
    runningCheck rt parseFloat now { st with geofence := g } elephantKey elephant =
      (runningCheck rt parseFloat now st elephantKey elephant).map
        (fun s => { s with geofence := g }) := by
  unfold runningCheck
  cases runningLatestLocation rt parseFloat elephant with
  | error e => rfl
  | ok latest =>
    cases latest with
    | none => rfl
    | some l =>
      simp only []
      split
      · rfl
      · split
        · split <;> rfl
        · rfl

/-- One callback of `startRunningDetectionMonitoring`, for an elephant whose latest report the
dashboard resolver gives as `latest`: it calls `showRunningAlert` and records `now` when the
report has `alert_type` `running_detected` and the time recorded for the elephant is absent, or
0, or more than 300000 ms before `now`; in every other case it changes nothing.  The geofence
state is passed through. -/
theorem runningCheck_outcome {F : Type} (rt : Builtins) (parseFloat : JsVal → F) (now : Int)
    (st : PageState F) (elephantKey : String) (elephant : JsVal)
    (latest : Option (Dashboard.LatestLocation F))
    (hlatest : runningLatestLocation rt parseFloat elephant = Except.ok latest) :
    ((∃ l, latest = some l ∧ l.alert_type = JsVal.str "running_detected" ∧
        (∀ t, st.lastRunningAlert elephantKey = some t → t = 0 ∨ now - t > 300000) ∧
        runningCheck rt parseFloat now st elephantKey elephant = Except.ok
          { st with
            runningAlerts := st.runningAlerts ++
              [⟨elephantKey, ⟨l.latitude, l.longitude⟩, l.timestamp⟩]
            lastRunningAlert := st.lastRunningAlert.set elephantKey now }) ∨
      ((¬ ∃ l, latest = some l ∧ l.alert_type = JsVal.str "running_detected" ∧
          ∀ t, st.lastRunningAlert elephantKey = some t → t = 0 ∨ now - t > 300000) ∧
        runningCheck rt parseFloat now st elephantKey elephant = Except.ok st)) ∧
    (∀ g : DashboardState F,
      runningCheck rt parseFloat now { st with geofence := g } elephantKey elephant =
        (runningCheck rt parseFloat now st elephantKey elephant).map
          (fun s => { s with geofence := g })) ∧
    ∀ st1, runningCheck rt parseFloat now st elephantKey elephant = Except.ok st1 →
      st1.geofence = st.geofence := by
  have hmain : (∃ l, latest = some l ∧ l.alert_type = JsVal.str "running_detected" ∧
        (∀ t, st.lastRunningAlert elephantKey = some t → t = 0 ∨ now - t > 300000) ∧
        runningCheck rt parseFloat now st elephantKey elephant = Except.ok
          { st with
            runningAlerts := st.runningAlerts ++
              [⟨elephantKey, ⟨l.latitude, l.longitude⟩, l.timestamp⟩]
            lastRunningAlert := st.lastRunningAlert.set elephantKey now }) ∨
      ((¬ ∃ l, latest = some l ∧ l.alert_type = JsVal.str "running_detected" ∧
          ∀ t, st.lastRunningAlert elephantKey = some t → t = 0 ∨ now - t > 300000) ∧
        runningCheck rt parseFloat now st elephantKey elephant = Except.ok st) := by
    cases latest with
    | none =>
      right
      refine ⟨by simp, ?_⟩
      simp [runningCheck, hlatest]
    | some l =>
      by_cases hrun : l.alert_type = JsVal.str "running_detected"
      · have htr : l.alert_type.truthy = true := by rw [hrun]; decide
        have hdet : isRunningDetected l.alert_type = true := (isRunningDetected_iff _).mpr hrun
        cases hlast : st.lastRunningAlert elephantKey with
        | none =>
          left
          refine ⟨l, rfl, hrun, by simp, ?_⟩
          simp [runningCheck, hlatest, htr, hdet, hlast]
        | some t =>
          by_cases hdue : t = 0 ∨ now - t > 300000
          · left
            refine ⟨l, rfl, hrun, ?_, ?_⟩
            · intro t1 ht1
              cases ht1
              exact hdue
            · have hb : (t == 0 || decide (now - t > 5 * 60 * 1000)) = true := by
                have h5 : (5 * 60 * 1000 : Int) = 300000 := by norm_num
                rcases hdue with h0 | h1
                · simp [h0]
                · have hd : decide (now - t > 5 * 60 * 1000) = true := by
                    rw [h5]
                    exact decide_eq_true h1
                  rw [hd, Bool.or_true]
              simp only [runningCheck, hlatest, htr, hdet, hlast]
              simp only [Bool.not_true, Bool.false_eq_true, if_false, if_true, hb]
          · right
            refine ⟨?_, ?_⟩
            · rintro ⟨l1, _, _, h⟩
              exact hdue (h t rfl)
            · have hb : (t == 0 || decide (now - t > 5 * 60 * 1000)) = false := by
                have h5 : (5 * 60 * 1000 : Int) = 300000 := by norm_num
                push_neg at hdue
                have hd : decide (now - t > 5 * 60 * 1000) = false := by
                  rw [h5]
                  exact decide_eq_false (not_lt.mpr hdue.2)
                have h0 : (t == 0) = false := by simpa using hdue.1
                rw [hd, h0]
                rfl
              simp only [runningCheck, hlatest, htr, hdet, hlast]
              simp only [Bool.not_true, Bool.false_eq_true, if_false, if_true, hb]
      · right
        refine ⟨?_, ?_⟩
        · rintro ⟨l1, h1, h2, _⟩
          cases h1
          exact hrun h2
        · have hdet : isRunningDetected l.alert_type = false := by
            cases h : isRunningDetected l.alert_type with
            | false => rfl
            | true => exact absurd ((isRunningDetected_iff _).mp h) hrun
          simp [runningCheck, hlatest, hdet]
  refine ⟨hmain, fun g => runningCheck_geofence_frame rt parseFloat now st elephantKey elephant g, ?_⟩
  intro st1 hst1
  rcases hmain with ⟨l, _, _, _, h⟩ | ⟨_, h⟩
  · rw [h] at hst1
    cases hst1
    rfl
  · rw [h] at hst1
    cases hst1
    rfl

/-! ## Elephants without geofence -/

theorem checkElephant_depends_on_locations {G : Type} (bops : FloatOps G) (rt : Builtins)
    (webPush : Subscriber → String → PushOutcome) (now : Int) (subscriber : Subscriber)
    (userId : JsVal) (sst : ServerState G) (elephantId : String) (a b : JsVal)
    (ha : a.nullish = false) (hb : b.nullish = false)
    (hloc : a.field "locations" = b.field "locations") :
    checkElephant bops rt webPush now subscriber userId sst elephantId a =
      checkElephant bops rt webPush now subscriber userId sst elephantId b := by
  simp only [checkElephant, getProp, ha, hb, hloc]

/-- C23.  For an elephant record without geofence, or whose geofence has no coordinates, the
callback of `startGeofenceMonitoring` completes and leaves the alerts and the stored states as
they were, whatever the locations of the record; and the backend evaluates the record as it
evaluates every record with the same `locations`, for instance the same record with a geofence:
the body of its elephant loop reads `locations` only. -/
theorem elephant_without_geofence {F G : Type} (ops : FloatOps F) (rt : Builtins)
    (parseFloat : JsVal → F) (st : DashboardState F) (elephantKey : String) (elephant : JsVal)
    (hnn : elephant.nullish = false)
    (hg : (elephant.field "geofence").truthy = false ∨
      ((elephant.field "geofence").field "coordinates").truthy = false) :
    geofenceMonitorElephant ops rt parseFloat st elephantKey elephant = Except.ok st ∧
    ∀ (bops : FloatOps G) (brt : Builtins) (webPush : Subscriber → String → PushOutcome)
      (now : Int) (subscriber : Subscriber) (userId : JsVal) (sst : ServerState G)
      (elephantId : String) (fenced : JsVal),
      fenced.nullish = false → fenced.field "locations" = elephant.field "locations" →
        checkElephant bops brt webPush now subscriber userId sst elephantId elephant =
          checkElephant bops brt webPush now subscriber userId sst elephantId fenced := by
  refine ⟨?_, ?_⟩
  · have hgp : getProp elephant "geofence" = Except.ok (elephant.field "geofence") := by
      simp [getProp, hnn]
    simp only [geofenceMonitorElephant, hgp]
    rcases hg with h | h <;> simp [h]
  · intro bops brt webPush now subscriber userId sst elephantId fenced hf hloc
    exact checkElephant_depends_on_locations bops brt webPush now subscriber userId sst
      elephantId elephant fenced hnn hf hloc.symm

/-- Witness of C23: the elephant `unfencedElephant`, and the same record with a geofence. -/
theorem elephant_without_geofence_witness :
    unfencedElephant.nullish = false ∧
    ((unfencedElephant.field "geofence").truthy = false ∨
      ((unfencedElephant.field "geofence").field "coordinates").truthy = false) ∧
    unfencedElephantFenced.nullish = false ∧
    unfencedElephantFenced.field "locations" = unfencedElephant.field "locations" ∧
    geofenceMonitorElephant exactOps exampleRuntime tableParseFloat ⟨JsMap.empty, []⟩ "elephant1"
      unfencedElephant = Except.ok ⟨JsMap.empty, []⟩ ∧
    checkElephant exactOps exampleRuntime allDelivered 0 sampleSubscriber
        (userIdOf sampleSubscriber) (⟨[sampleSubscriber], JsMap.empty, []⟩ : ServerState (Option ℚ))
        "elephant1" unfencedElephant =
      checkElephant exactOps exampleRuntime allDelivered 0 sampleSubscriber
        (userIdOf sampleSubscriber) ⟨[sampleSubscriber], JsMap.empty, []⟩ "elephant1"
        unfencedElephantFenced :=
  ⟨rfl, Or.inl rfl, rfl, rfl,
    (elephant_without_geofence (G := Option ℚ) exactOps exampleRuntime tableParseFloat
      ⟨JsMap.empty, []⟩ "elephant1" unfencedElephant rfl (Or.inl rfl)).1,
    (elephant_without_geofence (F := Option ℚ) exactOps exampleRuntime tableParseFloat
      ⟨JsMap.empty, []⟩ "elephant1" unfencedElephant rfl (Or.inl rfl)).2
      exactOps exampleRuntime allDelivered 0 sampleSubscriber (userIdOf sampleSubscriber)
      ⟨[sampleSubscriber], JsMap.empty, []⟩ "elephant1" unfencedElephantFenced rfl rfl⟩

/-! ## Geofence coordinates as text -/

theorem splitChars_no_sep (sep : Char) (l : List Char) (h : sep ∉ l) :
    splitChars sep l = [l] := by
  induction l with
  | nil => rfl
  | cons c rest ih =>
    have hc : c ≠ sep := fun e => h (by rw [e]; exact List.mem_cons_self _ _)
    have hrest : sep ∉ rest := fun e => h (List.mem_cons_of_mem _ e)
    simp [splitChars, hc, ih hrest]

theorem splitChars_append_sep (sep : Char) (a b : List Char) (h : sep ∉ a) :
    splitChars sep (a ++ sep :: b) = a :: splitChars sep b := by
  induction a with
  | nil => simp [splitChars]
  | cons c rest ih =>
    have hc : c ≠ sep := fun e => h (by rw [e]; exact List.mem_cons_self _ _)
    have hrest : sep ∉ rest := fun e => h (List.mem_cons_of_mem _ e)
    simp [splitChars, hc, ih hrest]

theorem splitChars_joinChars (sep : Char) (pieces : List (List Char)) (hne : pieces ≠ [])
    (h : ∀ p ∈ pieces, sep ∉ p) : splitChars sep (joinChars sep pieces) = pieces := by
  induction pieces with
  | nil => exact absurd rfl hne
  | cons p rest ih =>
    cases rest with
    | nil => exact splitChars_no_sep sep p (h p (List.mem_cons_self _ _))
    | cons q rest1 =>
      show splitChars sep (p ++ sep :: joinChars sep (q :: rest1)) = _
      rw [splitChars_append_sep sep p _ (h p (List.mem_cons_self _ _)),
        ih (by simp) (fun r hr => h r (List.mem_cons_of_mem _ hr))]

theorem joinChars_getLast (sep : Char) (pieces : List (List Char)) (hne : pieces ≠ []) :
    ∃ pre last, pieces.getLast? = some last ∧ joinChars sep pieces = pre ++ last := by
  induction pieces with
  | nil => exact absurd rfl hne
  | cons p rest ih =>
    cases rest with
    | nil => exact ⟨[], p, rfl, by simp [joinChars]⟩
    | cons q rest1 =>
      obtain ⟨pre, last, hl, hpre⟩ := ih (by simp)
      refine ⟨p ++ sep :: pre, last, ?_, ?_⟩
      · rw [List.getLast?_cons_cons]
        exact hl
      · show p ++ sep :: joinChars sep (q :: rest1) = _
        rw [hpre]
        simp

theorem jsEndsWith_append_singleton (s : String) (c : Char) :
    jsEndsWith (s ++ String.singleton c) c = true := by
  simp [jsEndsWith, String.data_append, String.singleton]

theorem jsSliceInit_append_singleton (s : String) (c : Char) :
    jsSliceInit (s ++ String.singleton c) = s := by
  simp [jsSliceInit, String.data_append, String.singleton]

theorem jsSplit_pair (a b : String) (ha : commaChar ∉ a.data) (hb : commaChar ∉ b.data) :
    jsSplit commaChar (a ++ String.singleton commaChar ++ b) = [a, b] := by
  simp only [jsSplit, String.data_append, String.singleton, List.append_assoc]
  show List.map String.mk (splitChars commaChar (a.data ++ commaChar :: b.data)) = _
  rw [splitChars_append_sep commaChar _ _ ha, splitChars_no_sep commaChar _ hb]
  rfl

theorem jsEndsWith_jsJoin (sep : Char) (pieces : List String) (hne : pieces ≠ [])
    (h : ∀ p ∈ pieces, p.data ≠ [] ∧ sep ∉ p.data) : jsEndsWith (jsJoin sep pieces) sep = false := by
  obtain ⟨pre, last, hl, hpre⟩ := joinChars_getLast sep (pieces.map String.data) (by simpa using hne)
  have hmem : last ∈ pieces.map String.data := List.mem_of_getLast?_eq_some hl
  obtain ⟨p, hp, rfl⟩ := List.mem_map.mp hmem
  obtain ⟨hne1, hsep⟩ := h p hp
  have hlast : (pre ++ p.data).getLast? = some (p.data.getLast hne1) := by
    rw [List.getLast?_append_of_ne_nil _ hne1, List.getLast?_eq_getLast _ hne1]
  have hc : p.data.getLast hne1 ≠ sep := fun e => hsep (e ▸ List.getLast_mem hne1)
  simp only [jsEndsWith, jsJoin, hpre, hlast]
  simpa using hc

theorem jsSplit_jsJoin (sep : Char) (pieces : List String) (hne : pieces ≠ [])
    (h : ∀ p ∈ pieces, sep ∉ p.data) : jsSplit sep (jsJoin sep pieces) = pieces := by
  simp only [jsSplit, jsJoin]
  rw [splitChars_joinChars sep _ (by simpa using hne)]
  · rw [List.map_map]
    conv_rhs => rw [← List.map_id pieces]
    apply List.map_congr_left
    intro p _
    rfl
  · intro q hq
    obtain ⟨p, hp, rfl⟩ := List.mem_map.mp hq
    exact h p hp

theorem parse_vertex_texts {F : Type} (numToStr : F → String) (parseFloat : JsVal → F)
    (latlngs : List (LatLng F))
    (hread : ∀ p ∈ latlngs, parseFloat (JsVal.str (numToStr p.lat)) = p.lat ∧
      parseFloat (JsVal.str (numToStr p.lng)) = p.lng)
    (hcomma : ∀ p ∈ latlngs, commaChar ∉ (numToStr p.lat).data ∧ commaChar ∉ (numToStr p.lng).data) :
    (latlngs.map (fun latlng =>
        numToStr latlng.lat ++ String.singleton commaChar ++ numToStr latlng.lng)).map
      (fun pair =>
        (parseFloat (arrayItem (jsSplit commaChar pair) 0),
          parseFloat (arrayItem (jsSplit commaChar pair) 1))) =
      latlngs.map (fun p => (p.lat, p.lng)) := by
  rw [List.map_map]
  apply List.map_congr_left
  intro p hp
  simp only [Function.comp]
  rw [jsSplit_pair _ _ (hcomma p hp).1 (hcomma p hp).2]
  simp [arrayItem, (hread p hp).1, (hread p hp).2]

theorem vertex_texts_plain {F : Type} (numToStr : F → String) (latlngs : List (LatLng F))
    (hpipe : ∀ p ∈ latlngs, pipeChar ∉ (numToStr p.lat).data ∧ pipeChar ∉ (numToStr p.lng).data) :
    ∀ t ∈ latlngs.map (fun latlng =>
        numToStr latlng.lat ++ String.singleton commaChar ++ numToStr latlng.lng),
      t.data ≠ [] ∧ pipeChar ∉ t.data := by
  intro t ht
  obtain ⟨p, hp, rfl⟩ := List.mem_map.mp ht
  have hcp : pipeChar ≠ commaChar := by decide
  refine ⟨by simp [String.data_append, String.singleton], ?_⟩
  simp [String.data_append, String.singleton, (hpipe p hp).1, (hpipe p hp).2, hcp]

/-- C22.  Let `numToStr` be the conversion of a number to text and `parseFloat` the reading of
a number from a text, such that for every coordinate of the vertices `latlngs` the text of the
coordinate holds neither a comma nor a `|` and is read back as the coordinate.  Then for a
vertex list that is not empty, the text `saveGeofence` stores is parsed by the geofence engine
and by `loadGeofence` to the same vertices in the same order, and so is that text without its
last character, the trailing `|`. -/
theorem coordinates_round_trip {F : Type} (numToStr : F → String) (parseFloat : JsVal → F)
    (latlngs : List (LatLng F)) (hne : latlngs ≠ [])
    (hread : ∀ p ∈ latlngs, parseFloat (JsVal.str (numToStr p.lat)) = p.lat ∧
      parseFloat (JsVal.str (numToStr p.lng)) = p.lng)
    (hcomma : ∀ p ∈ latlngs, commaChar ∉ (numToStr p.lat).data ∧ commaChar ∉ (numToStr p.lng).data)
    (hpipe : ∀ p ∈ latlngs, pipeChar ∉ (numToStr p.lat).data ∧ pipeChar ∉ (numToStr p.lng).data) :
    parseGeofenceCoords parseFloat (saveGeofenceCoordinates numToStr latlngs) =
      latlngs.map (fun p => (p.lat, p.lng)) ∧
    loadGeofenceCoordinates parseFloat (saveGeofenceCoordinates numToStr latlngs) =
      latlngs.map (fun p => (p.lat, p.lng)) ∧
    parseGeofenceCoords parseFloat (jsSliceInit (saveGeofenceCoordinates numToStr latlngs)) =
      latlngs.map (fun p => (p.lat, p.lng)) ∧
    loadGeofenceCoordinates parseFloat (jsSliceInit (saveGeofenceCoordinates numToStr latlngs)) =
      latlngs.map (fun p => (p.lat, p.lng)) := by
  have hplain := vertex_texts_plain numToStr latlngs hpipe
  have hne1 : latlngs.map (fun latlng =>
      numToStr latlng.lat ++ String.singleton commaChar ++ numToStr latlng.lng) ≠ [] := by
    simpa using hne
  have hsplit := jsSplit_jsJoin pipeChar _ hne1 (fun t ht => (hplain t ht).2)
  have hends := jsEndsWith_jsJoin pipeChar _ hne1 hplain
  have hparse := parse_vertex_texts numToStr parseFloat latlngs hread hcomma
  have hwith : parseGeofenceCoords parseFloat (saveGeofenceCoordinates numToStr latlngs) =
      latlngs.map (fun p => (p.lat, p.lng)) := by
    simp only [parseGeofenceCoords, saveGeofenceCoordinates, jsEndsWith_append_singleton,
      jsSliceInit_append_singleton, if_true, hsplit]
    exact hparse
  have hwithout : parseGeofenceCoords parseFloat
      (jsSliceInit (saveGeofenceCoordinates numToStr latlngs)) =
      latlngs.map (fun p => (p.lat, p.lng)) := by
    simp only [parseGeofenceCoords, saveGeofenceCoordinates, jsSliceInit_append_singleton, hends,
      Bool.false_eq_true, if_false, hsplit]
    exact hparse
  exact ⟨hwith, hwith, hwithout, hwithout⟩

theorem tableNumToStr_values :
    tableNumToStr (some 0) = "0" ∧ tableNumToStr (some 1) = "1" := by
  refine ⟨?_, ?_⟩ <;> simp [tableNumToStr]

/-- Witness of C22: the unit square, with the texts `0` and `1` of its coordinates. -/
theorem coordinates_round_trip_witness :
    unitSquareLatLngs ≠ [] ∧
    (∀ p ∈ unitSquareLatLngs, tableParseFloat (JsVal.str (tableNumToStr p.lat)) = p.lat ∧
      tableParseFloat (JsVal.str (tableNumToStr p.lng)) = p.lng) ∧
    (∀ p ∈ unitSquareLatLngs, commaChar ∉ (tableNumToStr p.lat).data ∧
      commaChar ∉ (tableNumToStr p.lng).data) ∧
    (∀ p ∈ unitSquareLatLngs, pipeChar ∉ (tableNumToStr p.lat).data ∧
      pipeChar ∉ (tableNumToStr p.lng).data) ∧
    saveGeofenceCoordinates tableNumToStr unitSquareLatLngs = "0,0|0,1|1,1|1,0|" ∧
    (parseGeofenceCoords tableParseFloat (saveGeofenceCoordinates tableNumToStr unitSquareLatLngs) =
      unitSquareLatLngs.map (fun p => (p.lat, p.lng)) ∧
    loadGeofenceCoordinates tableParseFloat (saveGeofenceCoordinates tableNumToStr unitSquareLatLngs) =
      unitSquareLatLngs.map (fun p => (p.lat, p.lng)) ∧
    parseGeofenceCoords tableParseFloat
        (jsSliceInit (saveGeofenceCoordinates tableNumToStr unitSquareLatLngs)) =
      unitSquareLatLngs.map (fun p => (p.lat, p.lng)) ∧
    loadGeofenceCoordinates tableParseFloat
        (jsSliceInit (saveGeofenceCoordinates tableNumToStr unitSquareLatLngs)) =
      unitSquareLatLngs.map (fun p => (p.lat, p.lng))) := by
  have h0 : tableNumToStr (some 0) = "0" := tableNumToStr_values.1
  have h1 : tableNumToStr (some 1) = "1" := tableNumToStr_values.2
  have hread : ∀ p ∈ unitSquareLatLngs,
      tableParseFloat (JsVal.str (tableNumToStr p.lat)) = p.lat ∧
      tableParseFloat (JsVal.str (tableNumToStr p.lng)) = p.lng := by
    intro p hp
    simp only [unitSquareLatLngs, List.mem_cons, List.mem_singleton, List.not_mem_nil,
      or_false] at hp
    rcases hp with rfl | rfl | rfl | rfl <;> simp [h0, h1, tableParseFloat]
  have hcomma : ∀ p ∈ unitSquareLatLngs, commaChar ∉ (tableNumToStr p.lat).data ∧
      commaChar ∉ (tableNumToStr p.lng).data := by
    intro p hp
    simp only [unitSquareLatLngs, List.mem_cons, List.mem_singleton, List.not_mem_nil,
      or_false] at hp
    rcases hp with rfl | rfl | rfl | rfl <;> simp only [h0, h1] <;> decide
  have hpipe : ∀ p ∈ unitSquareLatLngs, pipeChar ∉ (tableNumToStr p.lat).data ∧
      pipeChar ∉ (tableNumToStr p.lng).data := by
    intro p hp
    simp only [unitSquareLatLngs, List.mem_cons, List.mem_singleton, List.not_mem_nil,
      or_false] at hp
    rcases hp with rfl | rfl | rfl | rfl <;> simp only [h0, h1] <;> decide
  have hsaved : saveGeofenceCoordinates tableNumToStr unitSquareLatLngs = "0,0|0,1|1,1|1,0|" := by
    simp only [saveGeofenceCoordinates, unitSquareLatLngs, List.map, h0, h1]
    decide
  exact ⟨by simp [unitSquareLatLngs], hread, hcomma, hpipe, hsaved,
    coordinates_round_trip tableNumToStr tableParseFloat unitSquareLatLngs
      (by simp [unitSquareLatLngs]) hread hcomma hpipe⟩

/-! ## The subscriber registry -/

theorem sendPush_sublist {F : Type} (webPush : Subscriber → String → PushOutcome)
    (st : ServerState F) (subscriber : Subscriber) (elephantId : String) (distance : F) :
    (sendPushToSubscriber webPush st subscriber elephantId distance).2.subscribers.Sublist
      st.subscribers := by
  unfold sendPushToSubscriber
  cases webPush subscriber elephantId with
  | delivered => exact List.Sublist.refl _
  | gone => exact List.eraseP_sublist _
  | failed => exact List.Sublist.refl _

theorem checkElephant_sublist {F : Type} (ops : FloatOps F) (rt : Builtins)
    (webPush : Subscriber → String → PushOutcome) (now : Int)
    (subscriber : Subscriber) (userId : JsVal) (st st1 : ServerState F)
    (elephantId : String) (elephant : JsVal)
    (h : checkElephant ops rt webPush now subscriber userId st elephantId elephant = Except.ok st1) :
    st1.subscribers.Sublist st.subscribers := by
  unfold checkElephant at h
  split at h
  · cases h
  · split at h
    · cases h; exact List.Sublist.refl _
    · split at h
      · cases h
      · cases h; exact List.Sublist.refl _
      · simp only at h
        split at h
        · split at h
          · cases h; exact List.Sublist.refl _
          · split at h
            · cases h; exact sendPush_sublist _ _ _ _ _
            · cases h; exact sendPush_sublist _ _ _ _ _
        · cases h; exact List.Sublist.refl _

theorem elephantLoop_sublist {F : Type} (ops : FloatOps F) (rt : Builtins)
    (webPush : Subscriber → String → PushOutcome) (now : Int)
    (subscriber : Subscriber) (userId : JsVal) (entries : List (String × JsVal)) :
    ∀ st : ServerState F,
      (elephantLoop ops rt webPush now subscriber userId entries st).2.subscribers.Sublist
        st.subscribers := by
  induction entries with
  | nil => intro st; exact List.Sublist.refl _
  | cons entry rest ih =>
    intro st
    obtain ⟨elephantId, elephant⟩ := entry
    unfold elephantLoop
    cases h : checkElephant ops rt webPush now subscriber userId st elephantId elephant with
    | error e => exact List.Sublist.refl _
    | ok st1 =>
      exact (ih st1).trans (checkElephant_sublist ops rt webPush now subscriber userId st st1
        elephantId elephant h)

theorem subscriberLoop_sublist {F : Type} (ops : FloatOps F) (rt : Builtins)
    (webPush : Subscriber → String → PushOutcome) (now : Int) (elephants : JsVal) (fuel : Nat) :
    ∀ (i : Nat) (st : ServerState F),
      (subscriberLoop ops rt webPush now elephants fuel i st).2.subscribers.Sublist
        st.subscribers := by
  induction fuel with
  | zero => intro i st; exact List.Sublist.refl _
  | succ fuel ih =>
    intro i st
    unfold subscriberLoop
    cases hget : st.subscribers.get? i with
    | none => exact List.Sublist.refl _
    | some subscriber =>
      simp only []
      split
      · exact ih _ _
      · have hsub := elephantLoop_sublist ops rt webPush now subscriber (userIdOf subscriber)
          (objectEntries elephants) st
        cases hloop : elephantLoop ops rt webPush now subscriber (userIdOf subscriber)
            (objectEntries elephants) st with
        | mk completion st1 =>
          rw [hloop] at hsub
          cases completion with
          | thrown => exact hsub
          | normal => exact (ih _ _).trans hsub

theorem checkProximityAndAlert_sublist {F : Type} (ops : FloatOps F) (rt : Builtins)
    (webPush : Subscriber → String → PushOutcome) (now : Int) (fetched : Option JsVal)
    (st : ServerState F) :
    (checkProximityAndAlert ops rt webPush now fetched st).subscribers.Sublist st.subscribers := by
  unfold checkProximityAndAlert
  split
  · exact List.Sublist.refl _
  · cases fetched with
    | none => exact List.Sublist.refl _
    | some elephants =>
      simp only []
      split
      · exact List.Sublist.refl _
      · exact subscriberLoop_sublist _ _ _ _ _ _ _ _

theorem assignLocation_subscriptions (location : JsVal) (subscribers : List Subscriber) :
    ∀ i, (assignLocation location subscribers i).map (fun s => s.subscription) =
      subscribers.map (fun s => s.subscription) := by
  induction subscribers with
  | nil => intro i; rfl
  | cons s rest ih =>
    intro i
    cases i with
    | zero => rfl
    | succ i => simp [assignLocation, ih i]

theorem updateLocation_subscriptions {F : Type} (body : JsVal) (st : ServerState F) :
    (updateLocation body st).2.subscribers.map (fun s => s.subscription) =
      st.subscribers.map (fun s => s.subscription) := by
  unfold updateLocation
  simp only []
  split
  · rfl
  · split
    · rfl
    · exact assignLocation_subscriptions _ _ _
    · rfl

theorem applyOps_subscriptions_sublist {F : Type} (ops : FloatOps F) (rt : Builtins)
    (requests : List RegistryOp) :
    ∀ (st : ServerState F) (before : List JsVal),
      (st.subscribers.map (fun s => s.subscription)).Sublist before →
      ((applyOps ops rt requests st).subscribers.map (fun s => s.subscription)).Sublist
        (before ++ acceptedSubscriptions requests) := by
  induction requests with
  | nil => intro st before h; simpa [applyOps, acceptedSubscriptions] using h
  | cons request rest ih =>
    intro st before h
    show ((applyOps ops rt rest (applyOp ops rt st request)).subscribers.map _).Sublist _
    cases request with
    | subscribe ref subscribedAt body =>
      by_cases hs : (body.field "subscription").truthy = true
      · have hacc : acceptedSubscriptions (RegistryOp.subscribe ref subscribedAt body :: rest) =
            body.field "subscription" :: acceptedSubscriptions rest := by
          simp [acceptedSubscriptions, hs]
        rw [hacc]
        have hstep : ((applyOp ops rt st (RegistryOp.subscribe ref subscribedAt body)).subscribers.map
            (fun s => s.subscription)).Sublist (before ++ [body.field "subscription"]) := by
          simp only [applyOp, subscribe, hs, Bool.not_true, Bool.false_eq_true, if_false,
            List.map_append, List.map_cons, List.map_nil]
          exact List.Sublist.append h (List.Sublist.refl _)
        have := ih _ _ hstep
        simpa using this
      · have hs2 : (body.field "subscription").truthy = false := by simpa using hs
        have hacc : acceptedSubscriptions (RegistryOp.subscribe ref subscribedAt body :: rest) =
            acceptedSubscriptions rest := by
          simp [acceptedSubscriptions, hs2]
        rw [hacc]
        apply ih
        simpa [applyOp, subscribe, hs2] using h
    | updateLocation body =>
      apply ih
      show ((updateLocation body st).2.subscribers.map _).Sublist _
      rw [updateLocation_subscriptions]
      exact h
    | pass webPush now fetched =>
      apply ih
      exact ((checkProximityAndAlert_sublist ops rt webPush now fetched st).map _).trans h

/-- C24, amended.  Starting from the empty registry, after every sequence of requests to
`/subscribe`, requests to `/update-location` and proximity passes with their removals, the
subscriptions of the registry are, in order, some of the subscriptions of the accepted
requests to `/subscribe`; so when no two accepted requests carried the same endpoint, no two
subscriber records have the same endpoint. -/
theorem registry_endpoints_unique_when_subscribed_once {F : Type} (ops : FloatOps F)
    (rt : Builtins) (requests : List RegistryOp) :
    ((applyOps ops rt requests (⟨[], JsMap.empty, []⟩ : ServerState F)).subscribers.map
        (fun s => s.subscription)).Sublist (acceptedSubscriptions requests) ∧
    ((acceptedSubscriptions requests).Pairwise
        (fun a b => strictEq (a.field "endpoint") (b.field "endpoint") = false) →
      EndpointsUnique (applyOps ops rt requests (⟨[], JsMap.empty, []⟩ : ServerState F)).subscribers) := by
  have hsub := applyOps_subscriptions_sublist ops rt requests
    (⟨[], JsMap.empty, []⟩ : ServerState F) [] (List.Sublist.refl _)
  rw [List.nil_append] at hsub
  refine ⟨hsub, fun hpw => ?_⟩
  have := hpw.sublist hsub
  rw [List.pairwise_map] at this
  exact this

/-- Witness of C24, amended: two subscriptions with different endpoints, a location update and
a pass. -/
theorem registry_endpoints_unique_when_subscribed_once_witness :
    (acceptedSubscriptions
        [RegistryOp.subscribe 0 "t0" (subscribeBody "https://push.example/a"),
          RegistryOp.subscribe 1 "t1" (subscribeBody "https://push.example/b"),
          RegistryOp.updateLocation (updateBody "https://push.example/a"),
          RegistryOp.pass firstGone 0 (some sampleElephants)]).Pairwise
      (fun a b => strictEq (a.field "endpoint") (b.field "endpoint") = false) ∧
    EndpointsUnique (applyOps exactOps exampleRuntime
        [RegistryOp.subscribe 0 "t0" (subscribeBody "https://push.example/a"),
          RegistryOp.subscribe 1 "t1" (subscribeBody "https://push.example/b"),
          RegistryOp.updateLocation (updateBody "https://push.example/a"),
          RegistryOp.pass firstGone 0 (some sampleElephants)]
        (⟨[], JsMap.empty, []⟩ : ServerState (Option ℚ))).subscribers :=
  have hpw : (acceptedSubscriptions
        [RegistryOp.subscribe 0 "t0" (subscribeBody "https://push.example/a"),
          RegistryOp.subscribe 1 "t1" (subscribeBody "https://push.example/b"),
          RegistryOp.updateLocation (updateBody "https://push.example/a"),
          RegistryOp.pass firstGone 0 (some sampleElephants)]).Pairwise
      (fun a b => strictEq (a.field "endpoint") (b.field "endpoint") = false) := by
    simp [acceptedSubscriptions, subscribeBody, JsVal.field, JsVal.truthy, strictEq]
  ⟨hpw, (registry_endpoints_unique_when_subscribed_once exactOps exampleRuntime _).2 hpw⟩

/-- Counterexample to C24 as stated: two requests to `/subscribe` with the same subscription
leave two records with the same endpoint. -/
theorem subscribe_twice_duplicates_endpoint :
    (applyOps exactOps exampleRuntime
        [RegistryOp.subscribe 0 "t0" (subscribeBody "https://push.example/a"),
          RegistryOp.subscribe 1 "t1" (subscribeBody "https://push.example/a")]
        emptyServer).subscribers.map (fun s => (s.ref, endpointOf s)) =
      [(0, JsVal.str "https://push.example/a"), (1, JsVal.str "https://push.example/a")] ∧
    ¬ EndpointsUnique (applyOps exactOps exampleRuntime
        [RegistryOp.subscribe 0 "t0" (subscribeBody "https://push.example/a"),
          RegistryOp.subscribe 1 "t1" (subscribeBody "https://push.example/a")]
        emptyServer).subscribers := by
  refine ⟨rfl, ?_⟩
  intro h
  have h2 : EndpointsUnique
      [(⟨0, JsVal.obj [("endpoint", JsVal.str "https://push.example/a")], JsVal.null,
          JsVal.obj [], "t0"⟩ : Subscriber),
        ⟨1, JsVal.obj [("endpoint", JsVal.str "https://push.example/a")], JsVal.null,
          JsVal.obj [], "t1"⟩] := h
  simp [EndpointsUnique, endpointOf, JsVal.field, strictEq] at h2

/-! ## The route `/update-location` -/

theorem findSubscriber_none (subscriptionEndpoint : JsVal) (subscribers : List Subscriber)
    (hsub : ∀ s ∈ subscribers, s.subscription.nullish = false)
    (hno : ∀ s ∈ subscribers, strictEq (endpointOf s) subscriptionEndpoint = false) :
    ∀ k, findSubscriber subscriptionEndpoint subscribers k = Except.ok none := by
  induction subscribers with
  | nil => intro k; rfl
  | cons s rest ih =>
    intro k
    have h1 := hsub s (List.mem_cons_self _ _)
    have h2 := hno s (List.mem_cons_self _ _)
    unfold endpointOf at h2
    simp only [findSubscriber, getProp, h1, h2, Bool.false_eq_true, if_false]
    exact ih (fun t ht => hsub t (List.mem_cons_of_mem _ ht))
      (fun t ht => hno t (List.mem_cons_of_mem _ ht)) _

theorem findSubscriber_first (subscriptionEndpoint : JsVal) (subscribers : List Subscriber)
    (hsub : ∀ s ∈ subscribers, s.subscription.nullish = false) :
    ∀ (i : Nat) (found : Subscriber) (k : Nat), subscribers.get? i = some found →
      strictEq (endpointOf found) subscriptionEndpoint = true →
      (∀ j s, j < i → subscribers.get? j = some s →
        strictEq (endpointOf s) subscriptionEndpoint = false) →
      findSubscriber subscriptionEndpoint subscribers k = Except.ok (some (k + i)) := by
  induction subscribers with
  | nil => intro i found k h; simp at h
  | cons s rest ih =>
    intro i found k hget hfound hbefore
    have h1 := hsub s (List.mem_cons_self _ _)
    cases i with
    | zero =>
      simp only [List.get?_cons_zero, Option.some.injEq] at hget
      subst hget
      unfold endpointOf at hfound
      simp [findSubscriber, getProp, h1, hfound]
    | succ i =>
      have h2 := hbefore 0 s (Nat.succ_pos _) rfl
      unfold endpointOf at h2
      simp only [findSubscriber, getProp, h1, h2, Bool.false_eq_true, if_false]
      rw [ih (fun t ht => hsub t (List.mem_cons_of_mem _ ht)) i found (k + 1)
        (by simpa using hget) hfound
        (fun j t hj ht => hbefore (j + 1) t (Nat.succ_lt_succ hj) (by simpa using ht))]
      congr 2
      omega

theorem assignLocation_length (location : JsVal) (subscribers : List Subscriber) :
    ∀ i, (assignLocation location subscribers i).length = subscribers.length := by
  induction subscribers with
  | nil => intro i; rfl
  | cons s rest ih =>
    intro i
    cases i with
    | zero => rfl
    | succ i => simp [assignLocation, ih i]

theorem assignLocation_get_same (location : JsVal) (subscribers : List Subscriber) :
    ∀ (i : Nat) (found : Subscriber), subscribers.get? i = some found →
      (assignLocation location subscribers i).get? i = some { found with location := location } := by
  induction subscribers with
  | nil => intro i found h; simp at h
  | cons s rest ih =>
    intro i found hget
    cases i with
    | zero =>
      simp only [List.get?_cons_zero, Option.some.injEq] at hget
      subst hget
      rfl
    | succ i =>
      simp only [assignLocation, List.get?_cons_succ]
      exact ih i found (by simpa using hget)

theorem assignLocation_get_other (location : JsVal) (subscribers : List Subscriber) :
    ∀ (i j : Nat), j ≠ i →
      (assignLocation location subscribers i).get? j = subscribers.get? j := by
  induction subscribers with
  | nil => intro i j _; rfl
  | cons s rest ih =>
    intro i j hji
    cases i with
    | zero =>
      cases j with
      | zero => exact absurd rfl hji
      | succ j => rfl
    | succ i =>
      cases j with
      | zero => rfl
      | succ j =>
        simp only [assignLocation, List.get?_cons_succ]
        exact ih i j (fun e => hji (by rw [e]))

/-- C25.  In a registry whose subscriptions are objects, as `/subscribe` stores them, a
request to `/update-location` with a truthy endpoint and a truthy location is answered 200 when
a subscriber has that endpoint: the first such subscriber gets the given location and keeps
his other properties, every other element of the array, the length and order of the array, the
cooldowns and the recorded deliveries stay as they were.  The request is answered 404 when no
subscriber has the endpoint and 400 when the endpoint or the location is falsy, and then the
state is unchanged. -/
theorem updateLocation_sets_one_location {F : Type} (body : JsVal) (st : ServerState F)
    (hsub : ∀ s ∈ st.subscribers, s.subscription.nullish = false) :
    ((body.field "subscriptionEndpoint").truthy = false ∨ (body.field "location").truthy = false →
      (updateLocation body st).1.status = 400 ∧ (updateLocation body st).2 = st) ∧
    ((body.field "subscriptionEndpoint").truthy = true → (body.field "location").truthy = true →
      ((∀ s ∈ st.subscribers, strictEq (endpointOf s) (body.field "subscriptionEndpoint") = false) →
        (updateLocation body st).1.status = 404 ∧ (updateLocation body st).2 = st) ∧
      ∀ (i : Nat) (found : Subscriber), st.subscribers.get? i = some found →
        strictEq (endpointOf found) (body.field "subscriptionEndpoint") = true →
        (∀ j s, j < i → st.subscribers.get? j = some s →
          strictEq (endpointOf s) (body.field "subscriptionEndpoint") = false) →
        (updateLocation body st).1.status = 200 ∧
        (updateLocation body st).2.subscribers.get? i =
          some { found with location := body.field "location" } ∧
        (∀ j, j ≠ i → (updateLocation body st).2.subscribers.get? j = st.subscribers.get? j) ∧
        (updateLocation body st).2.subscribers.length = st.subscribers.length ∧
        (updateLocation body st).2.alertCooldowns = st.alertCooldowns ∧
        (updateLocation body st).2.pushes = st.pushes) := by
  refine ⟨?_, ?_⟩
  · intro h
    have hb : (!(body.field "subscriptionEndpoint").truthy || !(body.field "location").truthy) =
        true := by
      rcases h with h | h <;> simp [h]
    simp [updateLocation, hb]
  · intro he hl
    have hb : (!(body.field "subscriptionEndpoint").truthy || !(body.field "location").truthy) =
        false := by
      simp [he, hl]
    refine ⟨?_, ?_⟩
    · intro hno
      have hfind := findSubscriber_none (body.field "subscriptionEndpoint") st.subscribers hsub hno 0
      simp [updateLocation, hb, hfind]
    · intro i found hget hfound hbefore
      have hfind := findSubscriber_first (body.field "subscriptionEndpoint") st.subscribers hsub
        i found 0 hget hfound hbefore
      rw [Nat.zero_add] at hfind
      simp only [updateLocation, hb, hfind, Bool.false_eq_true, if_false]
      exact ⟨by trivial, assignLocation_get_same _ _ i found hget,
        fun j hj => assignLocation_get_other _ _ i j hj, assignLocation_length _ _ i,
        by trivial, by trivial⟩

theorem registryAB_subscriptions :
    ∀ s ∈ registryAB.subscribers, s.subscription.nullish = false := by
  intro s hs
  simp only [registryAB, List.mem_cons, List.mem_singleton, List.not_mem_nil, or_false] at hs
  rcases hs with rfl | rfl <;> rfl

/-- Witness of C25: the location update for the endpoint of the second of two subscribers. -/
theorem updateLocation_sets_one_location_witness :
    (∀ s ∈ registryAB.subscribers, s.subscription.nullish = false) ∧
    ((updateBody "https://push.example/b").field "subscriptionEndpoint").truthy = true ∧
    ((updateBody "https://push.example/b").field "location").truthy = true ∧
    registryAB.subscribers.get? 1 = some subscriberB ∧
    strictEq (endpointOf subscriberB)
      ((updateBody "https://push.example/b").field "subscriptionEndpoint") = true ∧
    ((updateLocation (updateBody "https://push.example/b") registryAB).1.status = 200 ∧
      (updateLocation (updateBody "https://push.example/b") registryAB).2.subscribers.get? 1 =
        some { subscriberB with location := (updateBody "https://push.example/b").field "location" } ∧
      (∀ j, j ≠ 1 →
        (updateLocation (updateBody "https://push.example/b") registryAB).2.subscribers.get? j =
          registryAB.subscribers.get? j) ∧
      (updateLocation (updateBody "https://push.example/b") registryAB).2.subscribers.length =
        registryAB.subscribers.length ∧
      (updateLocation (updateBody "https://push.example/b") registryAB).2.alertCooldowns =
        registryAB.alertCooldowns ∧
      (updateLocation (updateBody "https://push.example/b") registryAB).2.pushes =
        registryAB.pushes) :=
  ⟨registryAB_subscriptions, rfl, rfl, rfl, rfl,
    ((updateLocation_sets_one_location (updateBody "https://push.example/b") registryAB
      registryAB_subscriptions).2 rfl rfl).2 1 subscriberB rfl rfl (by
        intro j s hj hs
        have hj0 : j = 0 := by omega
        subst hj0
        simp only [registryAB, List.get?_cons_zero, Option.some.injEq] at hs
        subst hs
        rfl)⟩

/-! ## The route `/notify` -/

theorem length_filter_delivered (webPush : Subscriber → String → PushOutcome) (payload : String)
    (subscribers : List Subscriber) :
    ((subscribers.map (fun s => (s, webPush s payload))).filter
        (fun r => r.2 == PushOutcome.delivered)).length =
      subscribers.countP (fun s => webPush s payload == PushOutcome.delivered) := by
  induction subscribers with
  | nil => rfl
  | cons s rest ih =>
    simp only [List.map_cons, List.filter_cons, List.countP_cons]
    cases webPush s payload <;> simp [ih]

/-- C26.  A request to `/notify` with a truthy title and a truthy body makes one call of
`webPush.sendNotification` for every subscriber, in the order of the array and whatever the
outcome of the other calls, with the payload made of title and body; it is answered 200 with
`total` the number of subscribers and `successful` the number of subscribers whose delivery
was not rejected, which is at most `total`.  With a falsy title or body the request is
answered 400 and no call is made. -/
theorem notify_attempts_every_subscriber {F : Type} (jsonStringify : JsVal → String)
    (webPush : Subscriber → String → PushOutcome) (body : JsVal) (st : ServerState F) :
    ((body.field "title").truthy = true → (body.field "body").truthy = true →
      (notify jsonStringify webPush body st).attempts =
        st.subscribers.map (fun s => (s, webPush s
          (jsonStringify (JsVal.obj [("title", body.field "title"), ("body", body.field "body")])))) ∧
      (notify jsonStringify webPush body st).response.status = 200 ∧
      (notify jsonStringify webPush body st).response.body.field "total" =
        JsVal.num st.subscribers.length ∧
      (notify jsonStringify webPush body st).response.body.field "successful" =
        JsVal.num (st.subscribers.countP (fun s => webPush s
          (jsonStringify (JsVal.obj [("title", body.field "title"), ("body", body.field "body")])) ==
            PushOutcome.delivered)) ∧
      st.subscribers.countP (fun s => webPush s
          (jsonStringify (JsVal.obj [("title", body.field "title"), ("body", body.field "body")])) ==
            PushOutcome.delivered) ≤ st.subscribers.length) ∧
    ((body.field "title").truthy = false ∨ (body.field "body").truthy = false →
      (notify jsonStringify webPush body st).response.status = 400 ∧
      (notify jsonStringify webPush body st).attempts = []) := by
  refine ⟨?_, ?_⟩
  · intro ht hb
    have hc : (!(body.field "title").truthy || !(body.field "body").truthy) = false := by
      simp [ht, hb]
    have hcount := length_filter_delivered webPush
      (jsonStringify (JsVal.obj [("title", body.field "title"), ("body", body.field "body")]))
      st.subscribers
    refine ⟨?_, ?_, ?_, ?_, List.countP_le_length _⟩
    · simp only [notify, hc, Bool.false_eq_true, if_false]
    · simp only [notify, hc, Bool.false_eq_true, if_false]
    · simp only [notify, hc, Bool.false_eq_true, if_false]
      rfl
    · simp only [notify, hc, Bool.false_eq_true, if_false]
      rw [← hcount]
      rfl
  · intro h
    have hc : (!(body.field "title").truthy || !(body.field "body").truthy) = true := by
      rcases h with h | h <;> simp [h]
    simp [notify, hc]

/-- Witness of C26: a broadcast to two subscribers, the delivery to the second being rejected
with status 410. -/
theorem notify_attempts_every_subscriber_witness :
    (notifyBody.field "title").truthy = true ∧ (notifyBody.field "body").truthy = true ∧
    ((notify sampleStringify firstGone notifyBody registryAB).attempts =
        registryAB.subscribers.map (fun s => (s, firstGone s
          (sampleStringify (JsVal.obj [("title", notifyBody.field "title"),
            ("body", notifyBody.field "body")])))) ∧
      (notify sampleStringify firstGone notifyBody registryAB).response.status = 200 ∧
      (notify sampleStringify firstGone notifyBody registryAB).response.body.field "total" =
        JsVal.num registryAB.subscribers.length ∧
      (notify sampleStringify firstGone notifyBody registryAB).response.body.field "successful" =
        JsVal.num (registryAB.subscribers.countP (fun s => firstGone s
          (sampleStringify (JsVal.obj [("title", notifyBody.field "title"),
            ("body", notifyBody.field "body")])) == PushOutcome.delivered)) ∧
      registryAB.subscribers.countP (fun s => firstGone s
          (sampleStringify (JsVal.obj [("title", notifyBody.field "title"),
            ("body", notifyBody.field "body")])) == PushOutcome.delivered) ≤
        registryAB.subscribers.length) :=
  ⟨rfl, rfl, (notify_attempts_every_subscriber sampleStringify firstGone notifyBody registryAB).1
    rfl rfl⟩

theorem notify_example :
    (notify sampleStringify firstGone notifyBody registryAB).attempts.map (fun a => (a.1.ref, a.2)) =
      [(0, PushOutcome.delivered), (1, PushOutcome.gone)] ∧
    (notify sampleStringify firstGone notifyBody registryAB).response.body.field "total" =
      JsVal.num 2 ∧
    (notify sampleStringify firstGone notifyBody registryAB).response.body.field "successful" =
      JsVal.num 1 := by
  refine ⟨rfl, ?_, ?_⟩ <;> with_unfolding_all rfl

/-! ## Timers -/

theorem passStart_mono (j k : Nat) (h : j ≤ k) : passStart j ≤ passStart k := by
  cases j with
  | zero =>
    cases k with
    | zero => exact Nat.le_refl _
    | succ k => simp only [passStart, MONITORING_INTERVAL]; omega
  | succ j =>
    cases k with
    | zero => omega
    | succ k =>
      simp only [passStart, MONITORING_INTERVAL]
      omega

theorem mem_inFlight (duration : Nat → Nat) (t k : Nat) :
    k ∈ inFlight duration t ↔ passStart k ≤ t ∧ t < passStart k + duration k := by
  simp only [inFlight, List.mem_filter, List.mem_range, Bool.and_eq_true, decide_eq_true_eq]
  constructor
  · exact fun h => h.2
  · intro h
    refine ⟨?_, h⟩
    cases k with
    | zero => exact Nat.succ_pos _
    | succ k =>
      have h1 := h.1
      simp only [passStart, MONITORING_INTERVAL] at h1
      simp only [MONITORING_INTERVAL]
      omega

theorem length_le_one_of_all_eq (l : List Nat) (hnd : l.Nodup) (h : ∀ a ∈ l, ∀ b ∈ l, a = b) :
    l.length ≤ 1 := by
  cases l with
  | nil => exact Nat.zero_le _
  | cons a rest =>
    cases rest with
    | nil => exact Nat.le_refl _
    | cons b rest1 =>
      have hab := h a (List.mem_cons_self _ _) b (List.mem_cons_of_mem _ (List.mem_cons_self _ _))
      rw [hab] at hnd
      simp at hnd

/-- C27, amended.  The timers start pass number `k` at `passStart k`: 5000 ms after start-up
and at every multiple of 10000 ms, whether or not an earlier pass has completed.  When every
pass completes before the next one is started, at most one pass is in flight at any time; and
when a pass is still running at the start of the next one, which takes some time, both are in
flight at that start. -/
theorem passes_overlap_unless_each_completes_in_time (duration : Nat → Nat) :
    ((∀ k, passStart k + duration k ≤ passStart (k + 1)) →
      ∀ t, (inFlight duration t).length ≤ 1) ∧
    ∀ k, passStart (k + 1) < passStart k + duration k → 0 < duration (k + 1) →
      k ∈ inFlight duration (passStart (k + 1)) ∧ k + 1 ∈ inFlight duration (passStart (k + 1)) := by
  refine ⟨?_, ?_⟩
  · intro hdone t
    apply length_le_one_of_all_eq
    · exact (List.nodup_range _).filter _
    · intro a ha b hb
      rw [mem_inFlight] at ha hb
      by_contra hne
      rcases Nat.lt_or_gt_of_ne hne with hlt | hgt
      · have h1 := hdone a
        have h2 := passStart_mono (a + 1) b hlt
        omega
      · have h1 := hdone b
        have h2 := passStart_mono (b + 1) a hgt
        omega
  · intro k hover hpos
    rw [mem_inFlight, mem_inFlight]
    have hm := passStart_mono k (k + 1) (Nat.le_succ _)
    exact ⟨⟨hm, hover⟩, ⟨Nat.le_refl _, by omega⟩⟩

/-- Witness of C27, amended: passes that take 3000 ms never overlap, and of passes that take
6000 ms the first two are both in flight at 10000 ms. -/
theorem passes_overlap_unless_each_completes_in_time_witness :
    (∀ k, passStart k + (fun _ => 3000) k ≤ passStart (k + 1)) ∧
    (∀ t, (inFlight (fun _ => 3000) t).length ≤ 1) ∧
    passStart (0 + 1) < passStart 0 + (fun _ => 6000) 0 ∧ 0 < (fun _ : Nat => 6000) (0 + 1) ∧
    (0 ∈ inFlight (fun _ => 6000) (passStart (0 + 1)) ∧
      0 + 1 ∈ inFlight (fun _ => 6000) (passStart (0 + 1))) :=
  have h3 : ∀ k, passStart k + (fun _ => 3000) k ≤ passStart (k + 1) := by
    intro k
    cases k with
    | zero => decide
    | succ k => simp only [passStart, MONITORING_INTERVAL]; omega
  ⟨h3, (passes_overlap_unless_each_completes_in_time (fun _ => 3000)).1 h3, by decide, by decide,
    (passes_overlap_unless_each_completes_in_time (fun _ => 6000)).2 0 (by decide) (by decide)⟩

/-- Counterexample to C27 as stated: when the passes take 6000 ms, the pass started after
5000 ms is still running when the timer starts the next pass at 10000 ms, so two passes are in
flight. -/
theorem second_pass_starts_while_first_runs :
    passStart 0 = 5000 ∧ passStart 1 = 10000 ∧ inFlight (fun _ => 6000) 10000 = [0, 1] := by
  refine ⟨rfl, rfl, ?_⟩
  decide

/-! ## The copies of the resolver -/

theorem publicAlerts_latestLoop (rt : Builtins) (rs : List JsVal) :
    ∀ acc, PublicAlerts.latestLoop rt rs acc = latestLoop rt rs acc := by
  induction rs with
  | nil => intro acc; rfl
  | cons r rest ih =>
    intro acc
    show (match unwrapReport r with
      | Except.error e => Except.error e
      | Except.ok location => PublicAlerts.latestLoop rt rest (considerReport rt acc location)) = _
    cases h : unwrapReport r with
    | error e => simp [latestLoop, h]
    | ok location => simp [latestLoop, h, ih]

theorem publicAlerts_getLatestLocation (rt : Builtins) (locations : JsVal) :
    PublicAlerts.getLatestLocation rt locations = getLatestLocation rt locations := by
  unfold PublicAlerts.getLatestLocation getLatestLocation
  rw [publicAlerts_latestLoop]

/-- The accumulator of the backend loop as the dashboard loop holds it. -/
theorem dashboard_considerReport {F : Type} (rt : Builtins) (parseFloat : JsVal → F) (acc : Latest)
    (location : JsVal) :
    Dashboard.considerReport rt parseFloat
        ⟨acc.latestLocation.map (asNumbers parseFloat), acc.latestTimestamp⟩ location =
      ⟨(considerReport rt acc location).latestLocation.map (asNumbers parseFloat),
        (considerReport rt acc location).latestTimestamp⟩ := by
  unfold Dashboard.considerReport considerReport
  simp only []
  split
  · cases rt.dateGetTime (location.field "timestamp") with
    | none => rfl
    | some ts =>
      simp only []
      split <;> rfl
  · rfl

theorem dashboard_latestLoop {F : Type} (rt : Builtins) (parseFloat : JsVal → F) (rs : List JsVal) :
    ∀ acc : Latest,
      Dashboard.latestLoop rt parseFloat rs
          ⟨acc.latestLocation.map (asNumbers parseFloat), acc.latestTimestamp⟩ =
        (latestLoop rt rs acc).map (fun a =>
          ⟨a.latestLocation.map (asNumbers parseFloat), a.latestTimestamp⟩) := by
  induction rs with
  | nil => intro acc; rfl
  | cons r rest ih =>
    intro acc
    unfold Dashboard.latestLoop latestLoop
    cases h : unwrapReport r with
    | error e => rfl
    | ok location =>
      simp only []
      rw [dashboard_considerReport, ih]

theorem dashboard_getLatestLocation {F : Type} (rt : Builtins) (parseFloat : JsVal → F)
    (locations : JsVal) :
    Dashboard.getLatestLocation rt parseFloat locations =
      (getLatestLocation rt locations).map (Option.map (asNumbers parseFloat)) := by
  unfold Dashboard.getLatestLocation getLatestLocation
  split
  · rfl
  · have h := dashboard_latestLoop rt parseFloat (objectValues locations) ⟨none, 0⟩
    simp only [Option.map_none'] at h
    rw [h]
    cases latestLoop rt (objectValues locations) ⟨none, 0⟩ with
    | error e => rfl
    | ok acc => rfl

theorem or_truthy_of_short_falsy (a b : JsVal) (hb : b.truthy = false) :
    (a.or b).truthy = a.truthy := by
  unfold JsVal.or
  cases ha : a.truthy with
  | true => simp [ha]
  | false => simp [ha, hb]

theorem or_eq_of_truthy (a b : JsVal) (ha : a.truthy = true) : a.or b = a := by
  simp [JsVal.or, ha]

/-- One step of the two loops on a plain report: the service worker and the backend keep the
same timestamp and the same position. -/
theorem serviceWorker_considerReport (rt : Builtins) (sw : ServiceWorker.Latest) (be : Latest)
    (r : JsVal) (hnn : r.nullish = false) (hplain : PlainReport r)
    (hts : sw.latestTimestamp = be.latestTimestamp)
    (hpos : sw.latestLocation.map positionOfReport = be.latestLocation.map positionOf) :
    ∃ sw1, ServiceWorker.considerReport rt sw r = Except.ok sw1 ∧
      sw1.latestTimestamp = (considerReport rt be (payloadOf r)).latestTimestamp ∧
      sw1.latestLocation.map positionOfReport =
        (considerReport rt be (payloadOf r)).latestLocation.map positionOf := by
  obtain ⟨hp, hlat, hlng⟩ := hplain
  rw [hp]
  have hg1 := or_truthy_of_short_falsy (r.field "latitude") (r.field "lat") hlat
  have hg2 := or_truthy_of_short_falsy (r.field "longitude") (r.field "lng") hlng
  unfold ServiceWorker.considerReport considerReport
  simp only [getProp, hnn, Bool.false_eq_true, if_false, hg1, hg2]
  by_cases hguard : ((r.field "timestamp").truthy && (r.field "latitude").truthy &&
      (r.field "longitude").truthy) = true
  · simp only [hguard, if_true]
    have h1 : (r.field "latitude").truthy = true := by
      simp only [Bool.and_eq_true] at hguard
      exact hguard.1.2
    have h2 : (r.field "longitude").truthy = true := by
      simp only [Bool.and_eq_true] at hguard
      exact hguard.2
    cases rt.dateGetTime (r.field "timestamp") with
    | none => exact ⟨sw, rfl, hts, hpos⟩
    | some t =>
      simp only []
      rw [hts]
      by_cases hnew : t > be.latestTimestamp
      · simp only [hnew, if_true]
        refine ⟨_, rfl, rfl, ?_⟩
        simp [positionOfReport, positionOf, or_eq_of_truthy _ _ h1, or_eq_of_truthy _ _ h2]
      · simp only [hnew, if_false]
        exact ⟨sw, rfl, hts, hpos⟩
  · have hguard2 : ((r.field "timestamp").truthy && (r.field "latitude").truthy &&
        (r.field "longitude").truthy) = false := by simpa using hguard
    simp only [hguard2, Bool.false_eq_true, if_false]
    exact ⟨sw, rfl, hts, hpos⟩

theorem serviceWorker_latestLoop (rt : Builtins) (rs : List JsVal)
    (hplain : ∀ r ∈ rs, PlainReport r) :
    ∀ (sw : ServiceWorker.Latest) (be : Latest), sw.latestTimestamp = be.latestTimestamp →
      sw.latestLocation.map positionOfReport = be.latestLocation.map positionOf →
      (ServiceWorker.latestLoop rt rs sw).map (fun a => a.latestLocation.map positionOfReport) =
        (latestLoop rt rs be).map (fun a => a.latestLocation.map positionOf) := by
  induction rs with
  | nil => intro sw be _ hpos; simp [ServiceWorker.latestLoop, latestLoop, Except.map, hpos]
  | cons r rest ih =>
    intro sw be hts hpos
    cases hnn : r.nullish with
    | true =>
      have h1 : ServiceWorker.considerReport rt sw r = Except.error JsError.typeError := by
        simp [ServiceWorker.considerReport, getProp, hnn]
      simp [ServiceWorker.latestLoop, latestLoop, h1, unwrapReport_of_nullish hnn, Except.map]
    | false =>
      obtain ⟨sw1, hsw1, hts1, hpos1⟩ := serviceWorker_considerReport rt sw be r hnn
        (hplain r (List.mem_cons_self _ _)) hts hpos
      simp only [ServiceWorker.latestLoop, latestLoop, hsw1, unwrapReport_of_not_nullish hnn]
      exact ih (fun q hq => hplain q (List.mem_cons_of_mem _ hq)) sw1 _ hts1 hpos1

theorem serviceWorker_getLatestLocation (rt : Builtins) (locations : JsVal)
    (hplain : ∀ r ∈ objectValues locations, PlainReport r) :
    (ServiceWorker.getLatestLocation rt locations).map (Option.map positionOfReport) =
      (getLatestLocation rt locations).map (Option.map positionOf) := by
  unfold ServiceWorker.getLatestLocation getLatestLocation
  split
  · rfl
  · have h := serviceWorker_latestLoop rt (objectValues locations) hplain ⟨none, 0⟩ ⟨none, 0⟩
      rfl rfl
    cases hsw : ServiceWorker.latestLoop rt (objectValues locations) ⟨none, 0⟩ with
    | error e =>
      rw [hsw] at h
      cases hbe : latestLoop rt (objectValues locations) ⟨none, 0⟩ with
      | error e2 =>
        rw [hbe] at h
        simp [Except.map] at h
        simp [Except.map, h]
      | ok b => rw [hbe] at h; simp [Except.map] at h
    | ok a =>
      rw [hsw] at h
      cases hbe : latestLoop rt (objectValues locations) ⟨none, 0⟩ with
      | error e2 => rw [hbe] at h; simp [Except.map] at h
      | ok b =>
        rw [hbe] at h
        simpa [Except.map] using h

/-- C30, amended.  For every report collection: the copy of the public alerts page returns
what the backend copy returns; the dashboard copy selects the same report and returns the same
timestamp and alert type, its coordinates being those of the backend copy read as numbers by
`parseFloat` after the removal of double quotes; and on a collection whose reports have no
envelope and do not use the names `lat` and `lng`, the service worker returns a report with the
latitude, longitude and timestamp the backend copy returns, or `null` when the backend copy
returns `null`. -/
theorem resolver_copies_agree (rt : Builtins) (locations : JsVal) :
    PublicAlerts.getLatestLocation rt locations = getLatestLocation rt locations ∧
    (∀ (F : Type) (parseFloat : JsVal → F),
      Dashboard.getLatestLocation rt parseFloat locations =
        (getLatestLocation rt locations).map (Option.map (asNumbers parseFloat))) ∧
    ((∀ r ∈ objectValues locations, PlainReport r) →
      (ServiceWorker.getLatestLocation rt locations).map (Option.map positionOfReport) =
        (getLatestLocation rt locations).map (Option.map positionOf)) :=
  ⟨publicAlerts_getLatestLocation rt locations,
    fun _ parseFloat => dashboard_getLatestLocation rt parseFloat locations,
    serviceWorker_getLatestLocation rt locations⟩

theorem plainCollection_plain : ∀ r ∈ objectValues plainCollection, PlainReport r := by
  intro r hr
  simp only [plainCollection, objectValues, objectEntries, List.map_cons, List.map_nil,
    List.mem_cons, List.mem_singleton, List.not_mem_nil, or_false] at hr
  rcases hr with rfl | rfl <;> exact ⟨rfl, rfl, rfl⟩

/-- Witness of C30, amended: a collection of two plain reports. -/
theorem resolver_copies_agree_witness :
    (∀ r ∈ objectValues plainCollection, PlainReport r) ∧
    (ServiceWorker.getLatestLocation exampleRuntime plainCollection).map
        (Option.map positionOfReport) =
      (getLatestLocation exampleRuntime plainCollection).map (Option.map positionOf) ∧
    (getLatestLocation exampleRuntime plainCollection).map (Option.map positionOf) =
      Except.ok (some (JsVal.num 2, JsVal.num 2, JsVal.str "2024-01-02T00:00:00Z")) :=
  ⟨plainCollection_plain,
    (resolver_copies_agree exampleRuntime plainCollection).2.2 plainCollection_plain,
    by with_unfolding_all rfl⟩

/-- Counterexample to C30 as stated.  For the collection whose one report lies in the envelope
`uplink_message.decoded_payload`, the backend copy returns the position of the report and the
service worker returns `null`; so it is for the collection of the resolver example, whose
reports use the names `lat` and `lng`.  For the report whose coordinates are the quoted text
`"12.5"`, the backend copy returns that text and the dashboard copy the number 12.5. -/
theorem service_worker_misses_wrapped_and_short_reports :
    ((getLatestLocation exampleRuntime wrappedCollection).map (Option.map positionOf) =
        Except.ok (some (JsVal.num (21 / 2), JsVal.num (305 / 4),
          JsVal.str "2024-01-01T00:00:00Z")) ∧
      (ServiceWorker.getLatestLocation exampleRuntime wrappedCollection).map
        (Option.map positionOfReport) = Except.ok none) ∧
    ((getLatestLocation exampleRuntime resolverExample).map (Option.map positionOf) =
        Except.ok (some (JsVal.num 2, JsVal.num 2, JsVal.str "2024-01-02T00:00:00Z")) ∧
      (ServiceWorker.getLatestLocation exampleRuntime resolverExample).map
        (Option.map positionOfReport) = Except.ok none) ∧
    ((getLatestLocation exampleRuntime quotedCollection).map (Option.map (fun l => l.latitude)) =
        Except.ok (some (JsVal.str (quoted "12.5"))) ∧
      (Dashboard.getLatestLocation exampleRuntime tableParseFloat quotedCollection).map
        (Option.map (fun l => l.latitude)) = Except.ok (some (some (25 / 2)))) := by
  refine ⟨⟨?_, ?_⟩, ⟨?_, ?_⟩, ⟨?_, ?_⟩⟩ <;> with_unfolding_all rfl

/-! ## What `/subscribe` stores -/

theorem acceptedSubscriptions_truthy (requests : List RegistryOp) :
    ∀ v ∈ acceptedSubscriptions requests, v.truthy = true := by
  induction requests with
  | nil => intro v hv; simp [acceptedSubscriptions] at hv
  | cons request rest ih =>
    intro v hv
    cases request with
    | subscribe ref subscribedAt body =>
      by_cases hs : (body.field "subscription").truthy = true
      · simp only [acceptedSubscriptions, hs, if_true, List.mem_cons] at hv
        rcases hv with rfl | hv
        · exact hs
        · exact ih v hv
      · have hs2 : (body.field "subscription").truthy = false := by simpa using hs
        simp only [acceptedSubscriptions, hs2, Bool.false_eq_true, if_false] at hv
        exact ih v hv
    | updateLocation body => exact ih v (by simpa [acceptedSubscriptions] using hv)
    | pass webPush now fetched => exact ih v (by simpa [acceptedSubscriptions] using hv)

theorem truthy_not_nullish (v : JsVal) (h : v.truthy = true) : v.nullish = false := by
  cases v <;> simp_all [JsVal.truthy, JsVal.nullish]

/-- Every subscription of the registry is truthy, so it is not nullish, after every sequence of
operations that starts from the empty registry. -/
theorem registry_subscriptions_not_nullish {F : Type} (ops : FloatOps F) (rt : Builtins)
    (requests : List RegistryOp) :
    ∀ s ∈ (applyOps ops rt requests (⟨[], JsMap.empty, []⟩ : ServerState F)).subscribers,
      s.subscription.nullish = false := by
  intro s hs
  have hsub := applyOps_subscriptions_sublist ops rt requests
    (⟨[], JsMap.empty, []⟩ : ServerState F) [] (List.Sublist.refl _)
  rw [List.nil_append] at hsub
  have hmem : s.subscription ∈ acceptedSubscriptions requests :=
    hsub.subset (List.mem_map_of_mem _ hs)
  exact truthy_not_nullish _ (acceptedSubscriptions_truthy requests _ hmem)

/-! ## Distance -/

theorem sinHalf_swap {F : Type} (ops : FloatOps F) (neg : F → F) (h : SignSymmetric ops neg)
    (a b : F) :
    ops.sin (ops.div (ops.div (ops.mul (ops.sub a b) ops.pi) (ops.lit 180)) (ops.lit 2)) =
        neg (ops.sin (ops.div (ops.div (ops.mul (ops.sub b a) ops.pi) (ops.lit 180)) (ops.lit 2))) ∨
      ops.sin (ops.div (ops.div (ops.mul (ops.sub a b) ops.pi) (ops.lit 180)) (ops.lit 2)) =
        ops.sin (ops.div (ops.div (ops.mul (ops.sub b a) ops.pi) (ops.lit 180)) (ops.lit 2)) := by
  rcases h.sub_swap a b with hs | hs
  · left
    rw [hs, h.neg_mul, h.neg_div, h.neg_div, h.sin_neg]
  · right
    rw [hs]

theorem mul_mul_sign {F : Type} (ops : FloatOps F) (neg : F → F) (h : SignSymmetric ops neg)
    (c s t : F) (hst : s = neg t ∨ s = t) :
    ops.mul (ops.mul c s) s = ops.mul (ops.mul c t) t := by
  rcases hst with hs | hs
  · rw [hs, h.mul_neg, h.mul_neg, h.neg_mul, h.neg_neg]
  · rw [hs]

theorem mul_self_sign {F : Type} (ops : FloatOps F) (neg : F → F) (h : SignSymmetric ops neg)
    (s t : F) (hst : s = neg t ∨ s = t) : ops.mul s s = ops.mul t t := by
  rcases hst with hs | hs
  · rw [hs, h.mul_neg, h.neg_mul, h.neg_neg]
  · rw [hs]

/-- C15.  `calculateDistance` is symmetric in every arithmetic in which the sign behaves as it
does for IEEE doubles (`SignSymmetric`): for all arguments, numbers or not,
`calculateDistance(lat1, lon1, lat2, lon2)` and `calculateDistance(lat2, lon2, lat1, lon1)` are
the same value. -/
theorem calculateDistance_symmetric {F : Type} (ops : FloatOps F) (neg : F → F)
    (h : SignSymmetric ops neg) (lat1 lon1 lat2 lon2 : JsVal) :
    calculateDistance ops lat1 lon1 lat2 lon2 = calculateDistance ops lat2 lon2 lat1 lon1 := by
  unfold calculateDistance
  simp only []
  rw [mul_self_sign ops neg h _ _
      (sinHalf_swap ops neg h (ops.toNumber lat2) (ops.toNumber lat1)),
    mul_mul_sign ops neg h _ _ _
      (sinHalf_swap ops neg h (ops.toNumber lon2) (ops.toNumber lon1)),
    h.mul_comm (ops.cos (ops.div (ops.mul (ops.toNumber lat1) ops.pi) (ops.lit 180)))]

theorem roundDouble_zero : roundDouble 0 = 0 := by
  simp [roundDouble]

theorem roundDouble_neg (q : ℚ) : roundDouble (-q) = -roundDouble q := by
  unfold roundDouble
  rcases lt_trichotomy q 0 with hq | hq | hq
  · have h1 : ¬ (-q = 0) := by intro h; linarith
    have h2 : ¬ (q = 0) := by intro h; linarith
    have h3 : ¬ (-q < 0) := by linarith
    simp only [h1, h2, h3, hq, if_true, if_false, neg_neg]
  · subst hq
    simp
  · have h1 : ¬ (-q = 0) := by intro h; linarith
    have h2 : ¬ (q = 0) := by intro h; linarith
    have h3 : (-q < 0) := by linarith
    have h4 : ¬ (q < 0) := by linarith
    simp only [h1, h2, h3, h4, if_true, if_false, neg_neg]

set_option maxRecDepth 1000000 in
theorem roundDouble_one : roundDouble 1 = 1 := by
  with_unfolding_all rfl

/-- The model of double arithmetic has the sign properties. -/
theorem doubleOps_signSymmetric : SignSymmetric doubleOps negOption where
  sub_swap := by
    intro a b
    left
    cases a <;> cases b <;> simp [doubleOps, negOption]
    rw [← roundDouble_neg]
    congr 1
    ring
  neg_mul := by
    intro x y
    cases x <;> cases y <;> simp [doubleOps, negOption]
    rw [← roundDouble_neg]
  mul_neg := by
    intro x y
    cases x <;> cases y <;> simp [doubleOps, negOption]
    rw [← roundDouble_neg]
  neg_div := by
    intro x y
    cases x <;> cases y <;> simp [doubleOps, negOption]
    split
    · rfl
    · simp only [Option.map_some', Option.some.injEq]
      rw [← roundDouble_neg]
      congr 1
      ring
  sin_neg := by
    intro x
    rfl
  neg_neg := by
    intro x
    cases x <;> simp [negOption]
  mul_comm := by
    intro x y
    cases x <;> cases y <;> simp [doubleOps, mul_comm]

/-- The model of double arithmetic computes exactly at 0 and 1. -/
theorem doubleOps_exactAtZero : ExactAtZero doubleOps finiteOption where
  sub_self := by
    intro x hx
    cases x with
    | none => exact absurd rfl hx
    | some v => simp [doubleOps, exactOps, roundDouble_zero]
  zero_mul_pi := by simp [doubleOps, exactOps, roundDouble_zero]
  zero_div_pos := by
    intro q hq
    have hq0 : q ≠ 0 := ne_of_gt hq
    simp [doubleOps, exactOps, roundDouble_zero, hq0]
  pos_mul_zero := by
    intro q _
    simp [doubleOps, exactOps, roundDouble_zero]
  zero_mul_zero := by simp [doubleOps, exactOps, roundDouble_zero]
  cos_sq_mul_zero := by
    intro x hx
    cases x with
    | none => exact absurd rfl hx
    | some v => simp [doubleOps, exactOps, roundDouble_zero]
  zero_add_zero := by simp [doubleOps, exactOps, roundDouble_zero]
  one_sub_zero := by simp [doubleOps, exactOps, roundDouble_one]
  sin_zero := rfl
  sqrt_zero := rfl
  sqrt_one := rfl
  atan2_zero_one := by simp [doubleOps, exactOps]

/-- Witness of C15: the model of double arithmetic, for two places 0.1 degrees apart. -/
theorem calculateDistance_symmetric_witness :
    SignSymmetric doubleOps negOption ∧
    calculateDistance doubleOps (JsVal.num (21 / 2)) (JsVal.num (305 / 4)) (JsVal.num (53 / 5))
        (JsVal.num (305 / 4)) =
      calculateDistance doubleOps (JsVal.num (53 / 5)) (JsVal.num (305 / 4)) (JsVal.num (21 / 2))
        (JsVal.num (305 / 4)) :=
  ⟨doubleOps_signSymmetric,
    calculateDistance_symmetric doubleOps negOption doubleOps_signSymmetric _ _ _ _⟩

/-- C16, amended.  In every arithmetic that computes exactly at 0 and 1 as IEEE doubles do
(`ExactAtZero`), `calculateDistance(lat, lon, lat, lon)` is 0 for all `lat` and `lon` that
convert to finite numbers, the latitude in radians `lat * π / 180` being finite too. -/
theorem calculateDistance_self {F : Type} (ops : FloatOps F) (finite : F → Prop)
    (h : ExactAtZero ops finite) (lat lon : JsVal)
    (hlat : finite (ops.toNumber lat)) (hlon : finite (ops.toNumber lon))
    (hrad : finite (ops.div (ops.mul (ops.toNumber lat) ops.pi) (ops.lit 180))) :
    calculateDistance ops lat lon lat lon = ops.lit 0 := by
  unfold calculateDistance
  simp only []
  rw [h.sub_self _ hlat, h.sub_self _ hlon, h.zero_mul_pi, h.zero_div_pos 180 (by norm_num),
    h.zero_div_pos 2 (by norm_num), h.sin_zero, h.zero_mul_zero,
    h.cos_sq_mul_zero _ hrad, h.zero_mul_zero, h.zero_add_zero, h.sqrt_zero,
    h.one_sub_zero, h.sqrt_one, h.atan2_zero_one, h.pos_mul_zero 2 (by norm_num),
    h.pos_mul_zero 6371 (by norm_num)]

/-- Witness of C16, amended: the place (10.5, 76.25) in the model of double arithmetic. -/
theorem calculateDistance_self_witness :
    ExactAtZero doubleOps finiteOption ∧
    finiteOption (doubleOps.toNumber (JsVal.num (21 / 2))) ∧
    finiteOption (doubleOps.toNumber (JsVal.num (305 / 4))) ∧
    finiteOption (doubleOps.div (doubleOps.mul (doubleOps.toNumber (JsVal.num (21 / 2)))
      doubleOps.pi) (doubleOps.lit 180)) ∧
    calculateDistance doubleOps (JsVal.num (21 / 2)) (JsVal.num (305 / 4)) (JsVal.num (21 / 2))
      (JsVal.num (305 / 4)) = doubleOps.lit 0 :=
  have h1 : finiteOption (doubleOps.toNumber (JsVal.num (21 / 2))) := by
    simp [finiteOption, doubleOps, exactOps]
  have h2 : finiteOption (doubleOps.toNumber (JsVal.num (305 / 4))) := by
    simp [finiteOption, doubleOps, exactOps]
  have h3 : finiteOption (doubleOps.div (doubleOps.mul (doubleOps.toNumber (JsVal.num (21 / 2)))
      doubleOps.pi) (doubleOps.lit 180)) := by
    simp [finiteOption, doubleOps, exactOps]
  ⟨doubleOps_exactAtZero, h1, h2, h3,
    calculateDistance_self doubleOps finiteOption doubleOps_exactAtZero _ _ h1 h2 h3⟩

/-- Counterexample to C16 as stated: for a latitude that does not convert to a number, here
`undefined` and the quoted text `"12.5"`, `calculateDistance(lat, lon, lat, lon)` is `NaN`
(`none`), not 0. -/
theorem calculateDistance_self_is_nan_for_non_numbers :
    calculateDistance doubleOps JsVal.undefined (JsVal.num 76) JsVal.undefined (JsVal.num 76) =
      none ∧
    calculateDistance doubleOps (JsVal.str (quoted "12.5")) (JsVal.num 76)
      (JsVal.str (quoted "12.5")) (JsVal.num 76) = none ∧
    doubleOps.lit 0 = some 0 := by
  refine ⟨?_, ?_, rfl⟩ <;> with_unfolding_all rfl

/-! ## Cooldown test on the stores the server builds -/

theorem noZeroTime_empty : NoZeroTime JsMap.empty := by
  intro key h
  cases h

theorem noZeroTime_setCooldown (rt : Builtins) (m : JsMap Int) (now : Int) (userId : JsVal)
    (elephantId : String) (hm : NoZeroTime m) (hnow : now ≠ 0) :
    NoZeroTime (setCooldown rt m now userId elephantId) := by
  intro key
  unfold setCooldown JsMap.set
  split
  · intro h
    exact hnow (Option.some.inj h)
  · exact hm key

theorem sendPush_cooldowns {F : Type} (webPush : Subscriber → String → PushOutcome)
    (st : ServerState F) (subscriber : Subscriber) (elephantId : String) (distance : F) :
    (sendPushToSubscriber webPush st subscriber elephantId distance).2.alertCooldowns =
      st.alertCooldowns := by
  unfold sendPushToSubscriber
  cases webPush subscriber elephantId <;> rfl

theorem checkElephant_noZeroTime {F : Type} (ops : FloatOps F) (rt : Builtins)
    (webPush : Subscriber → String → PushOutcome) (now : Int) (hnow : now ≠ 0)
    (subscriber : Subscriber) (userId : JsVal) (st st1 : ServerState F)
    (elephantId : String) (elephant : JsVal) (hst : NoZeroTime st.alertCooldowns)
    (h : checkElephant ops rt webPush now subscriber userId st elephantId elephant = Except.ok st1) :
    NoZeroTime st1.alertCooldowns := by
  unfold checkElephant at h
  split at h
  · cases h
  · split at h
    · cases h; exact hst
    · split at h
      · cases h
      · cases h; exact hst
      · simp only at h
        split at h
        · split at h
          · cases h; exact hst
          · split at h
            · cases h
              apply noZeroTime_setCooldown _ _ _ _ _ _ hnow
              rw [sendPush_cooldowns]
              exact hst
            · cases h
              rw [sendPush_cooldowns]
              exact hst
        · cases h; exact hst

theorem elephantLoop_noZeroTime {F : Type} (ops : FloatOps F) (rt : Builtins)
    (webPush : Subscriber → String → PushOutcome) (now : Int) (hnow : now ≠ 0)
    (subscriber : Subscriber) (userId : JsVal) (entries : List (String × JsVal)) :
    ∀ st : ServerState F, NoZeroTime st.alertCooldowns →
      NoZeroTime (elephantLoop ops rt webPush now subscriber userId entries st).2.alertCooldowns := by
  induction entries with
  | nil => intro st hst; exact hst
  | cons entry rest ih =>
    intro st hst
    obtain ⟨elephantId, elephant⟩ := entry
    unfold elephantLoop
    cases h : checkElephant ops rt webPush now subscriber userId st elephantId elephant with
    | error e => exact hst
    | ok st1 =>
      exact ih st1 (checkElephant_noZeroTime ops rt webPush now hnow subscriber userId st st1
        elephantId elephant hst h)

theorem subscriberLoop_noZeroTime {F : Type} (ops : FloatOps F) (rt : Builtins)
    (webPush : Subscriber → String → PushOutcome) (now : Int) (hnow : now ≠ 0)
    (elephants : JsVal) (fuel : Nat) :
    ∀ (i : Nat) (st : ServerState F), NoZeroTime st.alertCooldowns →
      NoZeroTime (subscriberLoop ops rt webPush now elephants fuel i st).2.alertCooldowns := by
  induction fuel with
  | zero => intro i st hst; exact hst
  | succ fuel ih =>
    intro i st hst
    unfold subscriberLoop
    cases hget : st.subscribers.get? i with
    | none => exact hst
    | some subscriber =>
      simp only []
      split
      · exact ih _ _ hst
      · have hloop := elephantLoop_noZeroTime ops rt webPush now hnow subscriber
          (userIdOf subscriber) (objectEntries elephants) st hst
        cases hl : elephantLoop ops rt webPush now subscriber (userIdOf subscriber)
            (objectEntries elephants) st with
        | mk completion st1 =>
          rw [hl] at hloop
          cases completion with
          | thrown => exact hloop
          | normal => exact ih _ _ hloop

theorem checkProximityAndAlert_noZeroTime {F : Type} (ops : FloatOps F) (rt : Builtins)
    (webPush : Subscriber → String → PushOutcome) (now : Int) (hnow : now ≠ 0)
    (fetched : Option JsVal) (st : ServerState F) (hst : NoZeroTime st.alertCooldowns) :
    NoZeroTime (checkProximityAndAlert ops rt webPush now fetched st).alertCooldowns := by
  unfold checkProximityAndAlert
  split
  · exact hst
  · cases fetched with
    | none => exact hst
    | some elephants =>
      simp only []
      split
      · exact hst
      · exact subscriberLoop_noZeroTime ops rt webPush now hnow elephants _ _ _ hst

theorem updateLocation_cooldowns {F : Type} (body : JsVal) (st : ServerState F) :
    (updateLocation body st).2.alertCooldowns = st.alertCooldowns := by
  unfold updateLocation
  simp only []
  split
  · rfl
  · split <;> rfl

theorem subscribe_cooldowns {F : Type} (ref : Nat) (subscribedAt : String) (body : JsVal)
    (st : ServerState F) :
    (subscribe ref subscribedAt body st).2.alertCooldowns = st.alertCooldowns := by
  unfold subscribe
  simp only []
  split <;> rfl

/-- The cooldown store of the server never holds the time 0: it starts empty, the routes leave
it alone, and a pass writes the time `now` of the pass, which is not 0. -/
theorem cooldown_store_has_no_zero_time {F : Type} (ops : FloatOps F) (rt : Builtins)
    (requests : List RegistryOp) :
    ∀ st : ServerState F, NoZeroTime st.alertCooldowns → PassTimesNonzero requests →
      NoZeroTime (applyOps ops rt requests st).alertCooldowns := by
  induction requests with
  | nil => intro st hst _; exact hst
  | cons request rest ih =>
    intro st hst hreq
    show NoZeroTime (applyOps ops rt rest (applyOp ops rt st request)).alertCooldowns
    cases request with
    | subscribe ref subscribedAt body =>
      apply ih _ _ hreq
      show NoZeroTime (subscribe ref subscribedAt body st).2.alertCooldowns
      rw [subscribe_cooldowns]
      exact hst
    | updateLocation body =>
      apply ih _ _ hreq
      show NoZeroTime (updateLocation body st).2.alertCooldowns
      rw [updateLocation_cooldowns]
      exact hst
    | pass webPush now fetched =>
      exact ih _ (checkProximityAndAlert_noZeroTime ops rt webPush now hreq.1 fetched st hst)
        hreq.2

/-- C18.  For every user id, elephant id, time `now` and cooldown store that does not hold the
time 0 for the pair, as is the case of every store the server builds, `isInCooldown` is true if
and only if the store holds a last-alert time `t` for the pair with `now - t < 300000`; with no
recorded time for the pair it is false. -/
theorem isInCooldown_iff_recent_alert (rt : Builtins) (alertCooldowns : JsMap Int) (now : Int)
    (userId : JsVal) (elephantId : String)
    (hstore : alertCooldowns (cooldownKey rt userId elephantId) ≠ some 0) :
    (isInCooldown rt alertCooldowns now userId elephantId = true ↔
      ∃ t : Int, alertCooldowns (cooldownKey rt userId elephantId) = some t ∧
        now - t < 300000) ∧
    (alertCooldowns (cooldownKey rt userId elephantId) = none →
      isInCooldown rt alertCooldowns now userId elephantId = false) := by
  refine ⟨?_, (isInCooldown_eq_true_iff rt alertCooldowns now userId elephantId).2⟩
  rw [(isInCooldown_eq_true_iff rt alertCooldowns now userId elephantId).1]
  constructor
  · rintro ⟨t, ht, _, hlt⟩
    exact ⟨t, ht, hlt⟩
  · rintro ⟨t, ht, hlt⟩
    refine ⟨t, ht, ?_, hlt⟩
    intro h0
    rw [h0] at ht
    exact hstore ht

/-- Witness of C18: the store after an alert at 2024-01-01T00:00:00Z, asked 30 seconds later. -/
theorem isInCooldown_iff_recent_alert_witness :
    setCooldown exampleRuntime JsMap.empty 1704067200000 (JsVal.str "9876543210") "elephant1"
      (cooldownKey exampleRuntime (JsVal.str "9876543210") "elephant1") ≠ some 0 ∧
    ((isInCooldown exampleRuntime
          (setCooldown exampleRuntime JsMap.empty 1704067200000 (JsVal.str "9876543210")
            "elephant1") 1704067230000 (JsVal.str "9876543210") "elephant1" = true ↔
        ∃ t : Int,
          setCooldown exampleRuntime JsMap.empty 1704067200000 (JsVal.str "9876543210")
            "elephant1" (cooldownKey exampleRuntime (JsVal.str "9876543210") "elephant1") =
              some t ∧
          1704067230000 - t < 300000) ∧
      (setCooldown exampleRuntime JsMap.empty 1704067200000 (JsVal.str "9876543210")
          "elephant1" (cooldownKey exampleRuntime (JsVal.str "9876543210") "elephant1") = none →
        isInCooldown exampleRuntime
          (setCooldown exampleRuntime JsMap.empty 1704067200000 (JsVal.str "9876543210")
            "elephant1") 1704067230000 (JsVal.str "9876543210") "elephant1" = false)) ∧
    isInCooldown exampleRuntime
      (setCooldown exampleRuntime JsMap.empty 1704067200000 (JsVal.str "9876543210")
        "elephant1") 1704067230000 (JsVal.str "9876543210") "elephant1" = true :=
  have hstore : setCooldown exampleRuntime JsMap.empty 1704067200000 (JsVal.str "9876543210")
      "elephant1" (cooldownKey exampleRuntime (JsVal.str "9876543210") "elephant1") ≠ some 0 := by
    simp [setCooldown, JsMap.set]
  ⟨hstore,
    isInCooldown_iff_recent_alert exampleRuntime _ 1704067230000 (JsVal.str "9876543210")
      "elephant1" hstore,
    by simp [isInCooldown, setCooldown, JsMap.set]⟩

/-! ## A `null` elephant entry -/

theorem elephantLoop_null_first {F : Type} (ops : FloatOps F) (rt : Builtins)
    (webPush : Subscriber → String → PushOutcome) (now : Int) (subscriber : Subscriber)
    (userId : JsVal) (k : String) (v : JsVal) (rest : List (String × JsVal))
    (hnull : v.nullish = true) (st : ServerState F) :
    elephantLoop ops rt webPush now subscriber userId ((k, v) :: rest) st =
      (Completion.thrown, st) := by
  simp [elephantLoop, checkElephant, getProp, hnull]

theorem subscriberLoop_null_first {F : Type} (ops : FloatOps F) (rt : Builtins)
    (webPush : Subscriber → String → PushOutcome) (now : Int) (elephants : JsVal)
    (k : String) (v : JsVal) (rest : List (String × JsVal))
    (hentries : objectEntries elephants = (k, v) :: rest) (hnull : v.nullish = true)
    (fuel : Nat) :
    ∀ (i : Nat) (st : ServerState F),
      (subscriberLoop ops rt webPush now elephants fuel i st).2 = st := by
  induction fuel with
  | zero => intro i st; rfl
  | succ fuel ih =>
    intro i st
    unfold subscriberLoop
    cases hget : st.subscribers.get? i with
    | none => rfl
    | some subscriber =>
      simp only []
      split
      · exact ih _ _
      · rw [hentries, elephantLoop_null_first ops rt webPush now subscriber _ k v rest hnull st]

/-- C1 (the code departs from the claim).  When the first entry of the fetched elephant data is
`null`, a pass of `checkProximityAndAlert` leaves the state as it was, whatever the subscribers
and the other elephants are: for the first subscriber with a location, reading `locations` of
the `null` entry raises a `TypeError`, and the `catch` of the pass ends the pass.  No alert is
sent and no cooldown is set, also for a subscriber within 5 km of an elephant that resolves and
is not in cooldown. -/
theorem null_elephant_entry_ends_the_pass {F : Type} (ops : FloatOps F) (rt : Builtins)
    (webPush : Subscriber → String → PushOutcome) (now : Int) (elephants : JsVal)
    (st : ServerState F) (k : String) (v : JsVal) (rest : List (String × JsVal))
    (hentries : objectEntries elephants = (k, v) :: rest) (hnull : v.nullish = true) :
    checkProximityAndAlert ops rt webPush now (some elephants) st = st := by
  unfold checkProximityAndAlert
  split
  · rfl
  · simp only []
    split
    · rfl
    · exact subscriberLoop_null_first ops rt webPush now elephants k v rest hentries hnull _ _ _

/-- Witness of C1: the subscriber `sampleSubscriber` stands at the place of `elephant1`, whose
reports resolve, the pair is not in cooldown and every delivery succeeds; the entry `elephant0`
before it is `null`, and the pass sends nothing. -/
theorem null_elephant_entry_ends_the_pass_witness :
    objectEntries elephantsAfterNull =
      ("elephant0", JsVal.null) ::
        [("elephant1", JsVal.obj [("locations", JsVal.obj [("r1", sampleReport)])])] ∧
    JsVal.null.nullish = true ∧
    sampleSubscriber.location.truthy = true ∧
    getLatestLocation exampleRuntime (JsVal.obj [("r1", sampleReport)]) =
      Except.ok (some ⟨JsVal.num (21 / 2), JsVal.num (305 / 4), JsVal.str "2024-01-01T00:00:00Z",
        JsVal.str "routine_update"⟩) ∧
    exactOps.le (calculateDistance exactOps (sampleSubscriber.location.field "latitude")
      (sampleSubscriber.location.field "longitude") (JsVal.num (21 / 2)) (JsVal.num (305 / 4)))
      (exactOps.lit 5) = true ∧
    isInCooldown exampleRuntime JsMap.empty 1704067230000 (userIdOf sampleSubscriber)
      "elephant1" = false ∧
    checkProximityAndAlert exactOps exampleRuntime allDelivered 1704067230000
        (some elephantsAfterNull) ⟨[sampleSubscriber], JsMap.empty, []⟩ =
      ⟨[sampleSubscriber], JsMap.empty, []⟩ :=
  ⟨rfl, rfl, rfl, by with_unfolding_all rfl, by with_unfolding_all rfl, rfl,
    null_elephant_entry_ends_the_pass exactOps exampleRuntime allDelivered 1704067230000
      elephantsAfterNull ⟨[sampleSubscriber], JsMap.empty, []⟩ "elephant0" JsVal.null _ rfl rfl⟩

/-! ## Running detection over one update -/

theorem runningCheck_of_not_resolves {F : Type} (rt : Builtins) (parseFloat : JsVal → F)
    (now : Int) (st : PageState F) (kv : String × JsVal)
    (h : resolvesRunning rt parseFloat kv = false) :
    ∃ e, runningCheck rt parseFloat now st kv.1 kv.2 = Except.error e := by
  unfold resolvesRunning at h
  unfold runningCheck
  cases hl : runningLatestLocation rt parseFloat kv.2 with
  | error e => exact ⟨e, rfl⟩
  | ok latest => rw [hl] at h; cases h

theorem runningCheck_of_resolves {F : Type} (rt : Builtins) (parseFloat : JsVal → F)
    (now : Int) (st : PageState F) (kv : String × JsVal)
    (h : resolvesRunning rt parseFloat kv = true) :
    ∃ st1, runningCheck rt parseFloat now st kv.1 kv.2 = Except.ok st1 := by
  unfold resolvesRunning at h
  cases hl : runningLatestLocation rt parseFloat kv.2 with
  | error e => rw [hl] at h; cases h
  | ok latest =>
    rcases (runningCheck_outcome rt parseFloat now st kv.1 kv.2 latest hl).1 with
      ⟨l, _, _, _, hr⟩ | ⟨_, hr⟩
    · exact ⟨_, hr⟩
    · exact ⟨_, hr⟩

theorem runningLoop_eq_foldl {F : Type} (rt : Builtins) (parseFloat : JsVal → F) (now : Int)
    (entries : List (String × JsVal)) :
    ∀ st : PageState F,
      (runningLoop rt parseFloat now entries st).2 =
        (entries.takeWhile (resolvesRunning rt parseFloat)).foldl
          (runningStep rt parseFloat now) st := by
  induction entries with
  | nil => intro st; rfl
  | cons kv rest ih =>
    intro st
    obtain ⟨k, v⟩ := kv
    cases hres : resolvesRunning rt parseFloat (k, v) with
    | false =>
      obtain ⟨e, he⟩ := runningCheck_of_not_resolves rt parseFloat now st (k, v) hres
      have he1 : runningCheck rt parseFloat now st k v = Except.error e := he
      simp [List.takeWhile_cons, hres, runningLoop, he1]
    | true =>
      obtain ⟨st1, h1⟩ := runningCheck_of_resolves rt parseFloat now st (k, v) hres
      have h2 : runningCheck rt parseFloat now st k v = Except.ok st1 := h1
      simp only [List.takeWhile_cons, hres, if_true, List.foldl_cons, runningLoop, h2,
        runningStep]
      exact ih st1

theorem runningStep_geofence {F : Type} (rt : Builtins) (parseFloat : JsVal → F) (now : Int)
    (st : PageState F) (kv : String × JsVal) :
    (runningStep rt parseFloat now st kv).geofence = st.geofence := by
  unfold runningStep
  cases h : runningCheck rt parseFloat now st kv.1 kv.2 with
  | error e => rfl
  | ok st1 =>
    cases hl : runningLatestLocation rt parseFloat kv.2 with
    | error e =>
      unfold runningCheck at h
      rw [hl] at h
      cases h
    | ok latest =>
      exact (runningCheck_outcome rt parseFloat now st kv.1 kv.2 latest hl).2.2 st1 h

theorem runningStep_noZeroTime {F : Type} (rt : Builtins) (parseFloat : JsVal → F) (now : Int)
    (hnow : now ≠ 0) (st : PageState F) (kv : String × JsVal)
    (hst : NoZeroTime st.lastRunningAlert) :
    NoZeroTime (runningStep rt parseFloat now st kv).lastRunningAlert := by
  unfold runningStep
  cases h : runningCheck rt parseFloat now st kv.1 kv.2 with
  | error e => exact hst
  | ok st1 =>
    cases hl : runningLatestLocation rt parseFloat kv.2 with
    | error e =>
      unfold runningCheck at h
      rw [hl] at h
      cases h
    | ok latest =>
      rcases (runningCheck_outcome rt parseFloat now st kv.1 kv.2 latest hl).1 with
        ⟨l, _, _, _, hr⟩ | ⟨_, hr⟩
      · rw [hr] at h
        cases h
        intro key
        simp only [JsMap.set]
        split
        · intro h0
          exact hnow (Option.some.inj h0)
        · exact hst key
      · rw [hr] at h
        cases h
        exact hst

theorem foldl_runningStep_invariant {F : Type} (rt : Builtins) (parseFloat : JsVal → F)
    (now : Int) (hnow : now ≠ 0) (g : DashboardState F) (entries : List (String × JsVal)) :
    ∀ st : PageState F, NoZeroTime st.lastRunningAlert → st.geofence = g →
      NoZeroTime (entries.foldl (runningStep rt parseFloat now) st).lastRunningAlert ∧
        (entries.foldl (runningStep rt parseFloat now) st).geofence = g := by
  induction entries with
  | nil => intro st h1 h2; exact ⟨h1, h2⟩
  | cons kv rest ih =>
    intro st h1 h2
    exact ih _ (runningStep_noZeroTime rt parseFloat now hnow st kv h1)
      (by rw [runningStep_geofence, h2])

theorem runningLoop_geofence_frame {F : Type} (rt : Builtins) (parseFloat : JsVal → F)
    (now : Int) (g : DashboardState F) (entries : List (String × JsVal)) :
    ∀ st : PageState F,
      (runningLoop rt parseFloat now entries { st with geofence := g }).2 =
        { (runningLoop rt parseFloat now entries st).2 with geofence := g } := by
  induction entries with
  | nil => intro st; rfl
  | cons kv rest ih =>
    intro st
    obtain ⟨k, v⟩ := kv
    simp only [runningLoop]
    rw [runningCheck_geofence_frame]
    cases runningCheck rt parseFloat now st k v with
    | error e => rfl
    | ok st1 => exact ih st1

/-- C21, amended.  One update handled by `startRunningDetectionMonitoring`, at a time `now`
other than 0 and with no recorded alert time 0.  The callbacks run in the order of the keys
until the first elephant whose callback raises an exception (a `null` elephant, or a `null`
entry among its reports): `states j` is the state when `j` callbacks are done, and the state
after the last callback that completes is the state the update leaves, so the elephants from
the exception on are not evaluated.  For each elephant reached, a running alert with the position
and timestamp of its latest report is emitted and `now` recorded as its alert time if and only
if that report has `alert_type` `running_detected` and no alert time is recorded for the
elephant or the recorded time lies more than 300000 ms before `now`; otherwise nothing changes.
The geofence state is never changed and never read, and no alert time 0 is recorded. -/
theorem running_alerts_until_first_exception {F : Type} (rt : Builtins) (parseFloat : JsVal → F)
    (now : Int) (elephants : JsVal) (st : PageState F)
    (htr : elephants.truthy = true) (hnow : now ≠ 0) (hzero : NoZeroTime st.lastRunningAlert) :
    ∃ states : Nat → PageState F,
      states 0 = st ∧
      states (reachedElephants rt parseFloat elephants).length =
        startRunningDetectionMonitoring rt parseFloat now elephants st ∧
      (∀ (j : Nat) (hj : j < (reachedElephants rt parseFloat elephants).length)
        (latest : Option (Dashboard.LatestLocation F)),
        runningLatestLocation rt parseFloat ((reachedElephants rt parseFloat elephants)[j]).2 =
          Except.ok latest →
        (∃ l, latest = some l ∧ l.alert_type = JsVal.str "running_detected" ∧
          (∀ t, (states j).lastRunningAlert ((reachedElephants rt parseFloat elephants)[j]).1 =
            some t → now - t > 300000) ∧
          states (j + 1) =
            { states j with
              runningAlerts := (states j).runningAlerts ++
                [⟨((reachedElephants rt parseFloat elephants)[j]).1, ⟨l.latitude, l.longitude⟩,
                  l.timestamp⟩]
              lastRunningAlert := (states j).lastRunningAlert.set
                ((reachedElephants rt parseFloat elephants)[j]).1 now }) ∨
        ((¬ ∃ l, latest = some l ∧ l.alert_type = JsVal.str "running_detected" ∧
            ∀ t, (states j).lastRunningAlert ((reachedElephants rt parseFloat elephants)[j]).1 =
              some t → now - t > 300000) ∧
          states (j + 1) = states j)) ∧
      (∀ n, (states n).geofence = st.geofence) ∧
      (∀ g : DashboardState F,
        startRunningDetectionMonitoring rt parseFloat now elephants { st with geofence := g } =
          { startRunningDetectionMonitoring rt parseFloat now elephants st with geofence := g }) ∧
      NoZeroTime (startRunningDetectionMonitoring rt parseFloat now elephants st).lastRunningAlert := by
  have hrun : ∀ s : PageState F, startRunningDetectionMonitoring rt parseFloat now elephants s =
      (reachedElephants rt parseFloat elephants).foldl (runningStep rt parseFloat now) s := by
    intro s
    unfold startRunningDetectionMonitoring reachedElephants
    simp only [htr, Bool.not_true, Bool.false_eq_true, if_false]
    exact runningLoop_eq_foldl rt parseFloat now _ s
  have hinv : ∀ n, NoZeroTime (((reachedElephants rt parseFloat elephants).take n).foldl
        (runningStep rt parseFloat now) st).lastRunningAlert ∧
      (((reachedElephants rt parseFloat elephants).take n).foldl
        (runningStep rt parseFloat now) st).geofence = st.geofence :=
    fun n => foldl_runningStep_invariant rt parseFloat now hnow st.geofence _ st hzero rfl
  refine ⟨fun n => ((reachedElephants rt parseFloat elephants).take n).foldl
    (runningStep rt parseFloat now) st, rfl, ?_, ?_, fun n => (hinv n).2, ?_, ?_⟩
  · show ((reachedElephants rt parseFloat elephants).take _).foldl _ st = _
    rw [List.take_length, hrun]
  · intro j hj latest hlatest
    have hstep : ((reachedElephants rt parseFloat elephants).take (j + 1)).foldl
          (runningStep rt parseFloat now) st =
        runningStep rt parseFloat now
          (((reachedElephants rt parseFloat elephants).take j).foldl
            (runningStep rt parseFloat now) st)
          ((reachedElephants rt parseFloat elephants)[j]) := by
      rw [List.take_succ, List.getElem?_eq_getElem hj, List.foldl_append]
      rfl
    simp only [hstep]
    have hz := (hinv j).1
    generalize ((reachedElephants rt parseFloat elephants).take j).foldl
      (runningStep rt parseFloat now) st = before at hz ⊢
    rcases (runningCheck_outcome rt parseFloat now before
        ((reachedElephants rt parseFloat elephants)[j]).1
        ((reachedElephants rt parseFloat elephants)[j]).2 latest hlatest).1 with
      ⟨l, hl, hrunning, hdue, hr⟩ | ⟨hnot, hr⟩
    · by_cases hrec : ∀ t, before.lastRunningAlert
          ((reachedElephants rt parseFloat elephants)[j]).1 = some t → now - t > 300000
      · left
        refine ⟨l, hl, hrunning, hrec, ?_⟩
        simp only [runningStep, hr]
      · exfalso
        apply hrec
        intro t ht
        rcases hdue t ht with h0 | hgt
        · rw [h0] at ht
          exact absurd ht (hz _)
        · exact hgt
    · right
      refine ⟨?_, ?_⟩
      · rintro ⟨l, hl, hrunning, hrec⟩
        exact hnot ⟨l, hl, hrunning, fun t ht => Or.inr (hrec t ht)⟩
      · simp only [runningStep, hr]
  · intro g
    unfold startRunningDetectionMonitoring
    simp only [htr, Bool.not_true, Bool.false_eq_true, if_false]
    exact runningLoop_geofence_frame rt parseFloat now g _ st
  · rw [hrun]
    exact (foldl_runningStep_invariant rt parseFloat now hnow st.geofence _ st hzero rfl).1

/-- Witness of C21, amended: the update with the one elephant `runningElephant`, on the page
without alerts; the update emits one running alert and records its time. -/
theorem running_alerts_until_first_exception_witness :
    runningUpdate.truthy = true ∧ (1704067230000 : Int) ≠ 0 ∧
    NoZeroTime emptyPage.lastRunningAlert ∧
    (∃ states : Nat → PageState (Option ℚ),
      states 0 = emptyPage ∧
      states (reachedElephants exampleRuntime tableParseFloat runningUpdate).length =
        startRunningDetectionMonitoring exampleRuntime tableParseFloat 1704067230000
          runningUpdate emptyPage) ∧
    (startRunningDetectionMonitoring exampleRuntime tableParseFloat 1704067230000 runningUpdate
        emptyPage).runningAlerts.map (fun a => a.elephantId) = ["elephant1"] ∧
    (startRunningDetectionMonitoring exampleRuntime tableParseFloat 1704067230000 runningUpdate
        emptyPage).lastRunningAlert "elephant1" = some 1704067230000 :=
  ⟨rfl, by decide, noZeroTime_empty,
    (running_alerts_until_first_exception exampleRuntime tableParseFloat 1704067230000
      runningUpdate emptyPage rfl (by decide) noZeroTime_empty).imp
      (fun _ h => ⟨h.1, h.2.1⟩),
    by with_unfolding_all rfl, by with_unfolding_all rfl⟩

/-- Counterexample to C21 as stated: in the update whose first elephant entry is `null`, the
elephant `elephant1` after it has a latest report with `alert_type` `running_detected` and no
running alert was ever emitted for it, yet the update emits no alert and records nothing:
reading `locations` of the `null` entry raises a `TypeError` that ends the `forEach`. -/
theorem null_elephant_suppresses_running_alert :
    objectEntries runningAfterNull = [("elephant0", JsVal.null), ("elephant1", runningElephant)] ∧
    (runningLatestLocation exampleRuntime tableParseFloat runningElephant).map
        (Option.map (fun l => l.alert_type)) =
      Except.ok (some (JsVal.str "running_detected")) ∧
    emptyPage.lastRunningAlert "elephant1" = none ∧
    (startRunningDetectionMonitoring exampleRuntime tableParseFloat 1704067230000
        runningAfterNull emptyPage).runningAlerts = [] ∧
    (startRunningDetectionMonitoring exampleRuntime tableParseFloat 1704067230000
        runningAfterNull emptyPage).lastRunningAlert "elephant1" = none := by
  refine ⟨rfl, ?_, rfl, ?_, ?_⟩ <;> with_unfolding_all rfl

end TrunkLink
